import Mathlib

/-!
# astronomyengine: the R binding layer `astronomy_wrapper.cpp`

A shallow embedding of the wrapper's helpers and dispatch shims.

* C `double` values are exact rationals extended with one not-a-number value.
* The wrapped library (`astronomy/astronomy.h`) is a record of pure functions, `Library`;
  every call a shim makes into it is logged, with its arguments, in the shim's outcome.
* `cpp11::stop` and the exceptions thrown by `cpp11::as_cpp` end a shim with an error.
-/

namespace AstronomyWrapper

/-! ## Scalars -/

/-- A C `double` over exact arithmetic: a rational number, or not-a-number. -/
inductive double where
  | nan : double
  | val (q : ℚ) : double
deriving DecidableEq, Repr

namespace double

/-- C `a - b`. -/
def sub : double → double → double
  | val a, val b => val (a - b)
  | _, _ => nan

/-- C `a + b`. -/
def add : double → double → double
  | val a, val b => val (a + b)
  | _, _ => nan

/-- C `a * b`. -/
def mul : double → double → double
  | val a, val b => val (a * b)
  | _, _ => nan

/-- C `a / b`; a zero divisor does not give a rational number. -/
def div : double → double → double
  | val a, val b => if b = 0 then nan else val (a / b)
  | _, _ => nan

instance : Sub double := ⟨sub⟩
instance : Add double := ⟨add⟩
instance : Mul double := ⟨mul⟩
instance : Div double := ⟨div⟩

/-- C `std::isnan`. -/
def isnan : double → Bool
  | nan => true
  | val _ => false

end double

/-! ## Library types (declared in `astronomy/astronomy.h`) -/

/-- The library's `astro_status_t`, kept as the integer that `%d` prints. -/
abbrev astro_status_t := Int

/-- Modelled from the spec: the `SUCCESS` member of the library's status taxonomy;
the header that numbers the members is not under src/ (first enumerator, 0). -/
def ASTRO_SUCCESS : astro_status_t := 0

/-- Modelled from the spec: the `SEARCH_FAILURE` member of the library's status taxonomy;
the header that numbers the members is not under src/ (seventh enumerator, 6). -/
def ASTRO_SEARCH_FAILURE : astro_status_t := 6

/-- The library's `astro_time_t`; the wrapper reads only `ut` (days since J2000.0). -/
structure astro_time_t where
  ut : double
  tt : double
deriving DecidableEq, Repr

/-- The library's `astro_body_t`; the wrapper casts a host integer to it. -/
abbrev astro_body_t := Int

/-- The library's `astro_direction_t`; the wrapper casts a host integer to it. -/
abbrev astro_direction_t := Int

/-- The library's `astro_equator_date_t`. -/
inductive astro_equator_date_t where
  | EQUATOR_J2000
  | EQUATOR_OF_DATE
deriving DecidableEq, Repr

/-- The library's `astro_observer_t`. -/
structure astro_observer_t where
  latitude : double
  longitude : double
  height : double
deriving DecidableEq, Repr

/-- The library's `astro_vector_t`. -/
structure astro_vector_t where
  status : astro_status_t
  x : double
  y : double
  z : double
  t : astro_time_t
deriving DecidableEq, Repr

/-- The library's `astro_rotation_t`: `rot[row][col]`, row-major. -/
structure astro_rotation_t where
  status : astro_status_t
  rot : Fin 3 → Fin 3 → double

/-- The library's `astro_search_result_t`. -/
structure astro_search_result_t where
  time : astro_time_t
  status : astro_status_t
deriving DecidableEq, Repr

/-- The library's `astro_horizon_t`. -/
structure astro_horizon_t where
  azimuth : double
  altitude : double
  ra : double
  dec : double
deriving DecidableEq, Repr

/-- The library's `astro_hour_angle_t`. -/
structure astro_hour_angle_t where
  status : astro_status_t
  time : astro_time_t
  hor : astro_horizon_t
deriving DecidableEq, Repr

/-- The library's `astro_moon_quarter_t`. -/
structure astro_moon_quarter_t where
  status : astro_status_t
  quarter : Int
  time : astro_time_t
deriving DecidableEq, Repr

/-- The library's `astro_lunar_eclipse_t`. -/
structure astro_lunar_eclipse_t where
  status : astro_status_t
  kind : Int
  obscuration : double
  peak : astro_time_t
  sd_penum : double
  sd_partial : double
  sd_total : double
deriving DecidableEq, Repr

/-- The library's `astro_global_solar_eclipse_t`. -/
structure astro_global_solar_eclipse_t where
  status : astro_status_t
  kind : Int
  obscuration : double
  peak : astro_time_t
  distance : double
  latitude : double
  longitude : double
deriving DecidableEq, Repr

/-- The library's `astro_eclipse_event_t`. -/
structure astro_eclipse_event_t where
  time : astro_time_t
  altitude : double
deriving DecidableEq, Repr

/-- The library's `astro_local_solar_eclipse_t`. -/
structure astro_local_solar_eclipse_t where
  status : astro_status_t
  kind : Int
  obscuration : double
  partial_begin : astro_eclipse_event_t
  total_begin : astro_eclipse_event_t
  peak : astro_eclipse_event_t
  total_end : astro_eclipse_event_t
  partial_end : astro_eclipse_event_t
deriving DecidableEq, Repr

/-- The library's `astro_transit_t`. -/
structure astro_transit_t where
  status : astro_status_t
  start : astro_time_t
  peak : astro_time_t
  finish : astro_time_t
  separation : double
deriving DecidableEq, Repr

/-- The library's `astro_apsis_t`. -/
structure astro_apsis_t where
  status : astro_status_t
  time : astro_time_t
  kind : Int
  dist_au : double
  dist_km : double
deriving DecidableEq, Repr

/-- The library's `astro_illum_t`. -/
structure astro_illum_t where
  status : astro_status_t
  time : astro_time_t
  mag : double
  phase_angle : double
  phase_fraction : double
  helio_dist : double
  ring_tilt : double
deriving DecidableEq, Repr

/-- The library's `astro_elongation_t`. -/
structure astro_elongation_t where
  status : astro_status_t
  time : astro_time_t
  visibility : Int
  elongation : double
  ecliptic_separation : double
deriving DecidableEq, Repr

/-- The library's `astro_aberration_t`; the wrapper also casts a host integer to it. -/
abbrev astro_aberration_t := Int

/-- Modelled from the spec: the `ABERRATION` member of the library's aberration
enumeration; the header that numbers the members is not under src/ (first enumerator). -/
def ABERRATION : astro_aberration_t := 0

/-- Modelled from the spec: the `NO_ABERRATION` member of the library's aberration
enumeration; the header that numbers the members is not under src/ (second enumerator). -/
def NO_ABERRATION : astro_aberration_t := 1

/-- The library's `astro_refraction_t`; the wrapper casts a host integer to it. -/
abbrev astro_refraction_t := Int

/-- The library's `astro_apsis_kind_t`; the wrapper casts a host integer to it. -/
abbrev astro_apsis_kind_t := Int

/-- The library's `astro_equatorial_t`. -/
structure astro_equatorial_t where
  status : astro_status_t
  ra : double
  dec : double
  dist : double
  vec : astro_vector_t
deriving DecidableEq, Repr

/-- The library's `astro_ecliptic_t`. -/
structure astro_ecliptic_t where
  status : astro_status_t
  vec : astro_vector_t
  elat : double
  elon : double
deriving DecidableEq, Repr

/-- The library's `astro_angle_result_t`. -/
structure astro_angle_result_t where
  status : astro_status_t
  angle : double
deriving DecidableEq, Repr

/-- The library's `astro_func_result_t`. -/
structure astro_func_result_t where
  status : astro_status_t
  value : double
deriving DecidableEq, Repr

/-- The library's `astro_state_vector_t`. -/
structure astro_state_vector_t where
  status : astro_status_t
  x : double
  y : double
  z : double
  vx : double
  vy : double
  vz : double
  t : astro_time_t
deriving DecidableEq, Repr

/-- The library's `astro_seasons_t`. -/
structure astro_seasons_t where
  status : astro_status_t
  mar_equinox : astro_time_t
  jun_solstice : astro_time_t
  sep_equinox : astro_time_t
  dec_solstice : astro_time_t
deriving DecidableEq, Repr

/-- The library's `astro_constellation_t`. -/
structure astro_constellation_t where
  status : astro_status_t
  symbol : String
  name : String
  ra_1875 : double
  dec_1875 : double
deriving DecidableEq, Repr

/-- The library's `astro_spherical_t`. -/
structure astro_spherical_t where
  status : astro_status_t
  lat : double
  lon : double
  dist : double
deriving DecidableEq, Repr

/-! ## Host types (cpp11) -/

/-- A host numeric array (`cpp11::doubles`): its elements and its `dim` attribute. -/
structure doubles where
  data : List double
  dim : Option (List Int) := none
deriving DecidableEq, Repr

/-- A host value (`SEXP`): `R_NilValue`, a numeric array, an integer array, a character
array, or a generic record with named elements. -/
inductive SEXP where
  | nil : SEXP
  | real (v : doubles) : SEXP
  | int (v : List Int) : SEXP
  | str (v : List String) : SEXP
  | list (items : List (String × SEXP)) : SEXP

/-- A host generic key/value record (`cpp11::list`), in element order. -/
abbrev list := List (String × SEXP)

/-- The keys of a record, in element order. -/
def list.keys (l : list) : List String := l.map Prod.fst

/-- An error that ends a shim: `cpp11::stop(fmt, args...)` with its printf-style format
and integer arguments, or the `std::length_error` thrown by `cpp11::as_cpp`. -/
inductive HostError where
  | stop (fmt : String) (args : List Int) : HostError
  | length_error (what : String) : HostError
deriving DecidableEq, Repr

/-! ## The wrapped library -/

/-- A call into the wrapped library, with the arguments handed to it. -/
inductive LibCall where
  | Astronomy_TimeFromDays (ut : double)
  | Astronomy_MakeObserver (latitude longitude height : double)
  | Astronomy_VectorObserver (vec : astro_vector_t) (equdate : astro_equator_date_t)
  | Astronomy_SearchRiseSetEx (body : astro_body_t) (observer : astro_observer_t)
      (direction : astro_direction_t) (startTime : astro_time_t)
      (limitDays metersAboveGround : double)
  | Astronomy_SearchAltitude (body : astro_body_t) (observer : astro_observer_t)
      (direction : astro_direction_t) (startTime : astro_time_t)
      (limitDays altitude : double)
  | Astronomy_SearchHourAngleEx (body : astro_body_t) (observer : astro_observer_t)
      (hourAngle : double) (startTime : astro_time_t) (direction : Int)
  | Astronomy_SearchMoonPhase (targetLon : double) (startTime : astro_time_t)
      (limitDays : double)
  | Astronomy_SearchMoonQuarter (startTime : astro_time_t)
  | Astronomy_SearchLunarEclipse (startTime : astro_time_t)
  | Astronomy_NextLunarEclipse (prevEclipseTime : astro_time_t)
  | Astronomy_SearchGlobalSolarEclipse (startTime : astro_time_t)
  | Astronomy_NextGlobalSolarEclipse (prevEclipseTime : astro_time_t)
  | Astronomy_SearchLocalSolarEclipse (startTime : astro_time_t)
      (observer : astro_observer_t)
  | Astronomy_NextLocalSolarEclipse (prevEclipseTime : astro_time_t)
      (observer : astro_observer_t)
  | Astronomy_SearchTransit (body : astro_body_t) (startTime : astro_time_t)
  | Astronomy_NextTransit (body : astro_body_t) (prevTransitTime : astro_time_t)
  | Astronomy_SearchLunarApsis (startTime : astro_time_t)
  | Astronomy_NextLunarApsis (apsis : astro_apsis_t)
  | Astronomy_SearchPlanetApsis (body : astro_body_t) (startTime : astro_time_t)
  | Astronomy_NextPlanetApsis (body : astro_body_t) (apsis : astro_apsis_t)
  | Astronomy_SearchPeakMagnitude (body : astro_body_t) (startTime : astro_time_t)
  | Astronomy_SearchMaxElongation (body : astro_body_t) (startTime : astro_time_t)
  | Astronomy_SearchRelativeLongitude (body : astro_body_t) (targetRelLon : double)
      (startTime : astro_time_t)
  | Astronomy_SearchSunLongitude (targetLon : double) (startTime : astro_time_t)
      (limitDays : double)
  | Astronomy_InverseRotation (rotation : astro_rotation_t)
  | Astronomy_CombineRotation (a b : astro_rotation_t)
  | Astronomy_Pivot (rotation : astro_rotation_t) (axis : Int) (angle : double)
  | Astronomy_RotateVector (rotation : astro_rotation_t) (vector : astro_vector_t)
  | Astronomy_CurrentTime
  | Astronomy_MakeTime (year month day hour minute : Int) (second : double)
  | Astronomy_BodyName (body : astro_body_t)
  | Astronomy_BodyCode (name : String)
  | Astronomy_HelioVector (body : astro_body_t) (time : astro_time_t)
  | Astronomy_Equator (body : astro_body_t) (time : astro_time_t)
      (observer : astro_observer_t) (equdate : astro_equator_date_t) (aberration : astro_aberration_t)
  | Astronomy_SunPosition (time : astro_time_t)
  | Astronomy_Ecliptic (eqj : astro_vector_t)
  | Astronomy_EclipticLongitude (body : astro_body_t) (time : astro_time_t)
  | Astronomy_Horizon (time : astro_time_t) (observer : astro_observer_t)
      (ra dec : double) (refraction : astro_refraction_t)
  | Astronomy_PairLongitude (body1 body2 : astro_body_t) (time : astro_time_t)
  | Astronomy_GeoVector (body : astro_body_t) (time : astro_time_t)
      (aberration : astro_aberration_t)
  | Astronomy_BaryState (body : astro_body_t) (time : astro_time_t)
  | Astronomy_ObserverVector (time : astro_time_t) (observer : astro_observer_t)
      (equdate : astro_equator_date_t)
  | Astronomy_ObserverState (time : astro_time_t) (observer : astro_observer_t)
      (equdate : astro_equator_date_t)
  | Astronomy_ObserverGravity (latitude height : double)
  | Astronomy_HourAngle (body : astro_body_t) (time : astro_time_t)
      (observer : astro_observer_t)
  | Astronomy_MoonPhase (time : astro_time_t)
  | Astronomy_NextMoonQuarter (mq : astro_moon_quarter_t)
  | Astronomy_Illumination (body : astro_body_t) (time : astro_time_t)
  | Astronomy_AngleFromSun (body : astro_body_t) (time : astro_time_t)
  | Astronomy_Elongation (body : astro_body_t) (time : astro_time_t)
  | Astronomy_Seasons (year : Int)
  | Astronomy_Constellation (ra dec : double)
  | Astronomy_HelioDistance (body : astro_body_t) (time : astro_time_t)
  | Astronomy_IdentityMatrix
  | Astronomy_VectorFromSphere (sphere : astro_spherical_t) (time : astro_time_t)
  | Astronomy_SphereFromVector (vector : astro_vector_t)
  | Astronomy_EquatorFromVector (vector : astro_vector_t)
  | Astronomy_VectorFromHorizon (sphere : astro_spherical_t) (time : astro_time_t)
      (refraction : astro_refraction_t)
  | Astronomy_HorizonFromVector (vector : astro_vector_t) (refraction : astro_refraction_t)
  | Astronomy_Rotation_EQD_EQJ (time : astro_time_t)
  | Astronomy_Rotation_EQD_ECT (time : astro_time_t)
  | Astronomy_Rotation_EQD_ECL (time : astro_time_t)
  | Astronomy_Rotation_EQD_HOR (time : astro_time_t) (observer : astro_observer_t)
  | Astronomy_Rotation_EQJ_EQD (time : astro_time_t)
  | Astronomy_Rotation_EQJ_ECT (time : astro_time_t)
  | Astronomy_Rotation_EQJ_ECL
  | Astronomy_Rotation_EQJ_HOR (time : astro_time_t) (observer : astro_observer_t)
  | Astronomy_Rotation_ECT_EQD (time : astro_time_t)
  | Astronomy_Rotation_ECT_EQJ (time : astro_time_t)
  | Astronomy_Rotation_ECL_EQD (time : astro_time_t)
  | Astronomy_Rotation_ECL_EQJ
  | Astronomy_Rotation_ECL_HOR (time : astro_time_t) (observer : astro_observer_t)
  | Astronomy_Rotation_HOR_EQD (time : astro_time_t) (observer : astro_observer_t)
  | Astronomy_Rotation_HOR_EQJ (time : astro_time_t) (observer : astro_observer_t)
  | Astronomy_Rotation_HOR_ECL (time : astro_time_t) (observer : astro_observer_t)
  | Astronomy_Rotation_EQJ_GAL
  | Astronomy_Rotation_GAL_EQJ

/-- The wrapped library: one pure function per entry point the shims below call. -/
structure Library where
  Astronomy_TimeFromDays : double → astro_time_t
  Astronomy_MakeObserver : double → double → double → astro_observer_t
  Astronomy_VectorObserver : astro_vector_t → astro_equator_date_t → astro_observer_t
  Astronomy_SearchRiseSetEx : astro_body_t → astro_observer_t → astro_direction_t →
    astro_time_t → double → double → astro_search_result_t
  Astronomy_SearchAltitude : astro_body_t → astro_observer_t → astro_direction_t →
    astro_time_t → double → double → astro_search_result_t
  Astronomy_SearchHourAngleEx : astro_body_t → astro_observer_t → double →
    astro_time_t → Int → astro_hour_angle_t
  Astronomy_SearchMoonPhase : double → astro_time_t → double → astro_search_result_t
  Astronomy_SearchMoonQuarter : astro_time_t → astro_moon_quarter_t
  Astronomy_SearchLunarEclipse : astro_time_t → astro_lunar_eclipse_t
  Astronomy_NextLunarEclipse : astro_time_t → astro_lunar_eclipse_t
  Astronomy_SearchGlobalSolarEclipse : astro_time_t → astro_global_solar_eclipse_t
  Astronomy_NextGlobalSolarEclipse : astro_time_t → astro_global_solar_eclipse_t
  Astronomy_SearchLocalSolarEclipse : astro_time_t → astro_observer_t →
    astro_local_solar_eclipse_t
  Astronomy_NextLocalSolarEclipse : astro_time_t → astro_observer_t →
    astro_local_solar_eclipse_t
  Astronomy_SearchTransit : astro_body_t → astro_time_t → astro_transit_t
  Astronomy_NextTransit : astro_body_t → astro_time_t → astro_transit_t
  Astronomy_SearchLunarApsis : astro_time_t → astro_apsis_t
  Astronomy_NextLunarApsis : astro_apsis_t → astro_apsis_t
  Astronomy_SearchPlanetApsis : astro_body_t → astro_time_t → astro_apsis_t
  Astronomy_NextPlanetApsis : astro_body_t → astro_apsis_t → astro_apsis_t
  Astronomy_SearchPeakMagnitude : astro_body_t → astro_time_t → astro_illum_t
  Astronomy_SearchMaxElongation : astro_body_t → astro_time_t → astro_elongation_t
  Astronomy_SearchRelativeLongitude : astro_body_t → double → astro_time_t →
    astro_search_result_t
  Astronomy_SearchSunLongitude : double → astro_time_t → double → astro_search_result_t
  Astronomy_InverseRotation : astro_rotation_t → astro_rotation_t
  Astronomy_CombineRotation : astro_rotation_t → astro_rotation_t → astro_rotation_t
  Astronomy_Pivot : astro_rotation_t → Int → double → astro_rotation_t
  Astronomy_RotateVector : astro_rotation_t → astro_vector_t → astro_vector_t
  Astronomy_MakeTime : Int → Int → Int → Int → Int → double → astro_time_t
  Astronomy_BodyName : astro_body_t → String
  Astronomy_BodyCode : String → astro_body_t
  Astronomy_HelioVector : astro_body_t → astro_time_t → astro_vector_t
  Astronomy_Equator : astro_body_t → astro_time_t →
    astro_observer_t → astro_equator_date_t → astro_aberration_t → astro_equatorial_t
  Astronomy_SunPosition : astro_time_t → astro_ecliptic_t
  Astronomy_Ecliptic : astro_vector_t → astro_ecliptic_t
  Astronomy_EclipticLongitude : astro_body_t → astro_time_t → astro_angle_result_t
  Astronomy_Horizon : astro_time_t → astro_observer_t →
    double → double → astro_refraction_t → astro_horizon_t
  Astronomy_PairLongitude : astro_body_t → astro_body_t →
    astro_time_t → astro_angle_result_t
  Astronomy_GeoVector : astro_body_t → astro_time_t → astro_aberration_t → astro_vector_t
  Astronomy_BaryState : astro_body_t → astro_time_t → astro_state_vector_t
  Astronomy_ObserverVector : astro_time_t → astro_observer_t →
    astro_equator_date_t → astro_vector_t
  Astronomy_ObserverState : astro_time_t → astro_observer_t →
    astro_equator_date_t → astro_state_vector_t
  Astronomy_ObserverGravity : double → double → double
  Astronomy_HourAngle : astro_body_t → astro_time_t → astro_observer_t → astro_func_result_t
  Astronomy_MoonPhase : astro_time_t → astro_angle_result_t
  Astronomy_NextMoonQuarter : astro_moon_quarter_t → astro_moon_quarter_t
  Astronomy_Illumination : astro_body_t → astro_time_t → astro_illum_t
  Astronomy_AngleFromSun : astro_body_t → astro_time_t → astro_angle_result_t
  Astronomy_Elongation : astro_body_t → astro_time_t → astro_elongation_t
  Astronomy_Seasons : Int → astro_seasons_t
  Astronomy_Constellation : double → double → astro_constellation_t
  Astronomy_HelioDistance : astro_body_t → astro_time_t → astro_func_result_t
  Astronomy_IdentityMatrix : astro_rotation_t
  Astronomy_VectorFromSphere : astro_spherical_t → astro_time_t → astro_vector_t
  Astronomy_SphereFromVector : astro_vector_t → astro_spherical_t
  Astronomy_EquatorFromVector : astro_vector_t → astro_equatorial_t
  Astronomy_VectorFromHorizon : astro_spherical_t → astro_time_t →
    astro_refraction_t → astro_vector_t
  Astronomy_HorizonFromVector : astro_vector_t → astro_refraction_t → astro_spherical_t
  Astronomy_Rotation_EQD_EQJ : astro_time_t → astro_rotation_t
  Astronomy_Rotation_EQD_ECT : astro_time_t → astro_rotation_t
  Astronomy_Rotation_EQD_ECL : astro_time_t → astro_rotation_t
  Astronomy_Rotation_EQD_HOR : astro_time_t → astro_observer_t → astro_rotation_t
  Astronomy_Rotation_EQJ_EQD : astro_time_t → astro_rotation_t
  Astronomy_Rotation_EQJ_ECT : astro_time_t → astro_rotation_t
  Astronomy_Rotation_EQJ_ECL : astro_rotation_t
  Astronomy_Rotation_EQJ_HOR : astro_time_t → astro_observer_t → astro_rotation_t
  Astronomy_Rotation_ECT_EQD : astro_time_t → astro_rotation_t
  Astronomy_Rotation_ECT_EQJ : astro_time_t → astro_rotation_t
  Astronomy_Rotation_ECL_EQD : astro_time_t → astro_rotation_t
  Astronomy_Rotation_ECL_EQJ : astro_rotation_t
  Astronomy_Rotation_ECL_HOR : astro_time_t → astro_observer_t → astro_rotation_t
  Astronomy_Rotation_HOR_EQD : astro_time_t → astro_observer_t → astro_rotation_t
  Astronomy_Rotation_HOR_EQJ : astro_time_t → astro_observer_t → astro_rotation_t
  Astronomy_Rotation_HOR_ECL : astro_time_t → astro_observer_t → astro_rotation_t
  Astronomy_Rotation_EQJ_GAL : astro_rotation_t
  Astronomy_Rotation_GAL_EQJ : astro_rotation_t

/-! ## Shim outcomes -/

/-- The outcome of running wrapper code: the library calls made, in order, and either
the returned value or the error that ended the run. -/
structure Shim (α : Type) where
  calls : List LibCall
  result : Except HostError α

namespace Shim

/-- Return a value without calling the library. -/
def ret {α : Type} (a : α) : Shim α := ⟨[], .ok a⟩

/-- Sequencing: an error ends the run, keeping the calls made so far. -/
def andThen {α β : Type} (m : Shim α) (f : α → Shim β) : Shim β :=
  match m.result with
  | .error e => ⟨m.calls, .error e⟩
  | .ok a => ⟨m.calls ++ (f a).calls, (f a).result⟩

instance : Monad Shim where
  pure := ret
  bind := andThen

end Shim

/-- The host's `cpp11::stop(fmt, args...)`. -/
def stop {α : Type} (fmt : String) (args : List Int) : Shim α :=
  ⟨[], .error (.stop fmt args)⟩

/-- One logged call into the library that returns `r`. -/
def invoke {α : Type} (c : LibCall) (r : α) : Shim α := ⟨[c], .ok r⟩

namespace Library

/-- The shim-side call of `Astronomy_TimeFromDays`, logged with its arguments. -/
def TimeFromDays (L : Library) (ut : double) :
    Shim astro_time_t :=
  invoke (.Astronomy_TimeFromDays ut) (L.Astronomy_TimeFromDays ut)

/-- The shim-side call of `Astronomy_MakeObserver`, logged with its arguments. -/
def MakeObserver (L : Library) (latitude longitude height : double) :
    Shim astro_observer_t :=
  invoke (.Astronomy_MakeObserver latitude longitude height) (L.Astronomy_MakeObserver latitude longitude height)

/-- The shim-side call of `Astronomy_VectorObserver`, logged with its arguments. -/
def VectorObserver (L : Library) (vec : astro_vector_t) (equdate : astro_equator_date_t) :
    Shim astro_observer_t :=
  invoke (.Astronomy_VectorObserver vec equdate) (L.Astronomy_VectorObserver vec equdate)

/-- The shim-side call of `Astronomy_SearchRiseSetEx`, logged with its arguments. -/
def SearchRiseSetEx (L : Library) (body : astro_body_t) (observer : astro_observer_t)
    (direction : astro_direction_t) (startTime : astro_time_t)
    (limitDays metersAboveGround : double) :
    Shim astro_search_result_t :=
  invoke (.Astronomy_SearchRiseSetEx body observer direction startTime limitDays metersAboveGround) (L.Astronomy_SearchRiseSetEx body observer direction startTime limitDays metersAboveGround)

/-- The shim-side call of `Astronomy_SearchAltitude`, logged with its arguments. -/
def SearchAltitude (L : Library) (body : astro_body_t) (observer : astro_observer_t)
    (direction : astro_direction_t) (startTime : astro_time_t)
    (limitDays altitude : double) :
    Shim astro_search_result_t :=
  invoke (.Astronomy_SearchAltitude body observer direction startTime limitDays altitude) (L.Astronomy_SearchAltitude body observer direction startTime limitDays altitude)

/-- The shim-side call of `Astronomy_SearchHourAngleEx`, logged with its arguments. -/
def SearchHourAngleEx (L : Library) (body : astro_body_t) (observer : astro_observer_t)
    (hourAngle : double) (startTime : astro_time_t) (direction : Int) :
    Shim astro_hour_angle_t :=
  invoke (.Astronomy_SearchHourAngleEx body observer hourAngle startTime direction) (L.Astronomy_SearchHourAngleEx body observer hourAngle startTime direction)

/-- The shim-side call of `Astronomy_SearchMoonPhase`, logged with its arguments. -/
def SearchMoonPhase (L : Library) (targetLon : double) (startTime : astro_time_t) (limitDays : double) :
    Shim astro_search_result_t :=
  invoke (.Astronomy_SearchMoonPhase targetLon startTime limitDays) (L.Astronomy_SearchMoonPhase targetLon startTime limitDays)

/-- The shim-side call of `Astronomy_SearchMoonQuarter`, logged with its arguments. -/
def SearchMoonQuarter (L : Library) (startTime : astro_time_t) :
    Shim astro_moon_quarter_t :=
  invoke (.Astronomy_SearchMoonQuarter startTime) (L.Astronomy_SearchMoonQuarter startTime)

/-- The shim-side call of `Astronomy_SearchLunarEclipse`, logged with its arguments. -/
def SearchLunarEclipse (L : Library) (startTime : astro_time_t) :
    Shim astro_lunar_eclipse_t :=
  invoke (.Astronomy_SearchLunarEclipse startTime) (L.Astronomy_SearchLunarEclipse startTime)

/-- The shim-side call of `Astronomy_NextLunarEclipse`, logged with its arguments. -/
def NextLunarEclipse (L : Library) (prevEclipseTime : astro_time_t) :
    Shim astro_lunar_eclipse_t :=
  invoke (.Astronomy_NextLunarEclipse prevEclipseTime) (L.Astronomy_NextLunarEclipse prevEclipseTime)

/-- The shim-side call of `Astronomy_SearchGlobalSolarEclipse`, logged with its arguments. -/
def SearchGlobalSolarEclipse (L : Library) (startTime : astro_time_t) :
    Shim astro_global_solar_eclipse_t :=
  invoke (.Astronomy_SearchGlobalSolarEclipse startTime) (L.Astronomy_SearchGlobalSolarEclipse startTime)

/-- The shim-side call of `Astronomy_NextGlobalSolarEclipse`, logged with its arguments. -/
def NextGlobalSolarEclipse (L : Library) (prevEclipseTime : astro_time_t) :
    Shim astro_global_solar_eclipse_t :=
  invoke (.Astronomy_NextGlobalSolarEclipse prevEclipseTime) (L.Astronomy_NextGlobalSolarEclipse prevEclipseTime)

/-- The shim-side call of `Astronomy_SearchLocalSolarEclipse`, logged with its arguments. -/
def SearchLocalSolarEclipse (L : Library) (startTime : astro_time_t) (observer : astro_observer_t) :
    Shim astro_local_solar_eclipse_t :=
  invoke (.Astronomy_SearchLocalSolarEclipse startTime observer) (L.Astronomy_SearchLocalSolarEclipse startTime observer)

/-- The shim-side call of `Astronomy_NextLocalSolarEclipse`, logged with its arguments. -/
def NextLocalSolarEclipse (L : Library) (prevEclipseTime : astro_time_t) (observer : astro_observer_t) :
    Shim astro_local_solar_eclipse_t :=
  invoke (.Astronomy_NextLocalSolarEclipse prevEclipseTime observer) (L.Astronomy_NextLocalSolarEclipse prevEclipseTime observer)

/-- The shim-side call of `Astronomy_SearchTransit`, logged with its arguments. -/
def SearchTransit (L : Library) (body : astro_body_t) (startTime : astro_time_t) :
    Shim astro_transit_t :=
  invoke (.Astronomy_SearchTransit body startTime) (L.Astronomy_SearchTransit body startTime)

/-- The shim-side call of `Astronomy_NextTransit`, logged with its arguments. -/
def NextTransit (L : Library) (body : astro_body_t) (prevTransitTime : astro_time_t) :
    Shim astro_transit_t :=
  invoke (.Astronomy_NextTransit body prevTransitTime) (L.Astronomy_NextTransit body prevTransitTime)

/-- The shim-side call of `Astronomy_SearchLunarApsis`, logged with its arguments. -/
def SearchLunarApsis (L : Library) (startTime : astro_time_t) :
    Shim astro_apsis_t :=
  invoke (.Astronomy_SearchLunarApsis startTime) (L.Astronomy_SearchLunarApsis startTime)

/-- The shim-side call of `Astronomy_NextLunarApsis`, logged with its arguments. -/
def NextLunarApsis (L : Library) (apsis : astro_apsis_t) :
    Shim astro_apsis_t :=
  invoke (.Astronomy_NextLunarApsis apsis) (L.Astronomy_NextLunarApsis apsis)

/-- The shim-side call of `Astronomy_SearchPlanetApsis`, logged with its arguments. -/
def SearchPlanetApsis (L : Library) (body : astro_body_t) (startTime : astro_time_t) :
    Shim astro_apsis_t :=
  invoke (.Astronomy_SearchPlanetApsis body startTime) (L.Astronomy_SearchPlanetApsis body startTime)

/-- The shim-side call of `Astronomy_NextPlanetApsis`, logged with its arguments. -/
def NextPlanetApsis (L : Library) (body : astro_body_t) (apsis : astro_apsis_t) :
    Shim astro_apsis_t :=
  invoke (.Astronomy_NextPlanetApsis body apsis) (L.Astronomy_NextPlanetApsis body apsis)

/-- The shim-side call of `Astronomy_SearchPeakMagnitude`, logged with its arguments. -/
def SearchPeakMagnitude (L : Library) (body : astro_body_t) (startTime : astro_time_t) :
    Shim astro_illum_t :=
  invoke (.Astronomy_SearchPeakMagnitude body startTime) (L.Astronomy_SearchPeakMagnitude body startTime)

/-- The shim-side call of `Astronomy_SearchMaxElongation`, logged with its arguments. -/
def SearchMaxElongation (L : Library) (body : astro_body_t) (startTime : astro_time_t) :
    Shim astro_elongation_t :=
  invoke (.Astronomy_SearchMaxElongation body startTime) (L.Astronomy_SearchMaxElongation body startTime)

/-- The shim-side call of `Astronomy_SearchRelativeLongitude`, logged with its arguments. -/
def SearchRelativeLongitude (L : Library) (body : astro_body_t) (targetRelLon : double)
    (startTime : astro_time_t) :
    Shim astro_search_result_t :=
  invoke (.Astronomy_SearchRelativeLongitude body targetRelLon startTime) (L.Astronomy_SearchRelativeLongitude body targetRelLon startTime)

/-- The shim-side call of `Astronomy_SearchSunLongitude`, logged with its arguments. -/
def SearchSunLongitude (L : Library) (targetLon : double) (startTime : astro_time_t) (limitDays : double) :
    Shim astro_search_result_t :=
  invoke (.Astronomy_SearchSunLongitude targetLon startTime limitDays) (L.Astronomy_SearchSunLongitude targetLon startTime limitDays)

/-- The shim-side call of `Astronomy_InverseRotation`, logged with its arguments. -/
def InverseRotation (L : Library) (rotation : astro_rotation_t) :
    Shim astro_rotation_t :=
  invoke (.Astronomy_InverseRotation rotation) (L.Astronomy_InverseRotation rotation)

/-- The shim-side call of `Astronomy_CombineRotation`, logged with its arguments. -/
def CombineRotation (L : Library) (a b : astro_rotation_t) :
    Shim astro_rotation_t :=
  invoke (.Astronomy_CombineRotation a b) (L.Astronomy_CombineRotation a b)

/-- The shim-side call of `Astronomy_Pivot`, logged with its arguments. -/
def Pivot (L : Library) (rotation : astro_rotation_t) (axis : Int) (angle : double) :
    Shim astro_rotation_t :=
  invoke (.Astronomy_Pivot rotation axis angle) (L.Astronomy_Pivot rotation axis angle)

/-- The shim-side call of `Astronomy_RotateVector`, logged with its arguments. -/
def RotateVector (L : Library) (rotation : astro_rotation_t) (vector : astro_vector_t) :
    Shim astro_vector_t :=
  invoke (.Astronomy_RotateVector rotation vector) (L.Astronomy_RotateVector rotation vector)

/-- The shim-side call of `Astronomy_MakeTime`, logged with its arguments. -/
def MakeTime (L : Library) (year month day hour minute : Int) (second : double) :
    Shim astro_time_t :=
  invoke (.Astronomy_MakeTime year month day hour minute second)
    (L.Astronomy_MakeTime year month day hour minute second)

/-- The shim-side call of `Astronomy_BodyName`, logged with its arguments. -/
def BodyName (L : Library) (body : astro_body_t) :
    Shim String :=
  invoke (.Astronomy_BodyName body) (L.Astronomy_BodyName body)

/-- The shim-side call of `Astronomy_BodyCode`, logged with its arguments. -/
def BodyCode (L : Library) (name : String) :
    Shim astro_body_t :=
  invoke (.Astronomy_BodyCode name) (L.Astronomy_BodyCode name)

/-- The shim-side call of `Astronomy_HelioVector`, logged with its arguments. -/
def HelioVector (L : Library) (body : astro_body_t) (time : astro_time_t) :
    Shim astro_vector_t :=
  invoke (.Astronomy_HelioVector body time) (L.Astronomy_HelioVector body time)

/-- The shim-side call of `Astronomy_Equator`, logged with its arguments. -/
def Equator (L : Library) (body : astro_body_t) (time : astro_time_t)
    (observer : astro_observer_t) (equdate : astro_equator_date_t) (aberration : astro_aberration_t) :
    Shim astro_equatorial_t :=
  invoke (.Astronomy_Equator body time observer equdate aberration)
    (L.Astronomy_Equator body time observer equdate aberration)

/-- The shim-side call of `Astronomy_SunPosition`, logged with its arguments. -/
def SunPosition (L : Library) (time : astro_time_t) :
    Shim astro_ecliptic_t :=
  invoke (.Astronomy_SunPosition time) (L.Astronomy_SunPosition time)

/-- The shim-side call of `Astronomy_Ecliptic`, logged with its arguments. -/
def Ecliptic (L : Library) (eqj : astro_vector_t) :
    Shim astro_ecliptic_t :=
  invoke (.Astronomy_Ecliptic eqj) (L.Astronomy_Ecliptic eqj)

/-- The shim-side call of `Astronomy_EclipticLongitude`, logged with its arguments. -/
def EclipticLongitude (L : Library) (body : astro_body_t) (time : astro_time_t) :
    Shim astro_angle_result_t :=
  invoke (.Astronomy_EclipticLongitude body time) (L.Astronomy_EclipticLongitude body time)

/-- The shim-side call of `Astronomy_Horizon`, logged with its arguments. -/
def Horizon (L : Library) (time : astro_time_t) (observer : astro_observer_t)
    (ra dec : double) (refraction : astro_refraction_t) :
    Shim astro_horizon_t :=
  invoke (.Astronomy_Horizon time observer ra dec refraction)
    (L.Astronomy_Horizon time observer ra dec refraction)

/-- The shim-side call of `Astronomy_PairLongitude`, logged with its arguments. -/
def PairLongitude (L : Library) (body1 body2 : astro_body_t) (time : astro_time_t) :
    Shim astro_angle_result_t :=
  invoke (.Astronomy_PairLongitude body1 body2 time)
    (L.Astronomy_PairLongitude body1 body2 time)

/-- The shim-side call of `Astronomy_GeoVector`, logged with its arguments. -/
def GeoVector (L : Library) (body : astro_body_t) (time : astro_time_t)
    (aberration : astro_aberration_t) :
    Shim astro_vector_t :=
  invoke (.Astronomy_GeoVector body time aberration)
    (L.Astronomy_GeoVector body time aberration)

/-- The shim-side call of `Astronomy_BaryState`, logged with its arguments. -/
def BaryState (L : Library) (body : astro_body_t) (time : astro_time_t) :
    Shim astro_state_vector_t :=
  invoke (.Astronomy_BaryState body time) (L.Astronomy_BaryState body time)

/-- The shim-side call of `Astronomy_ObserverVector`, logged with its arguments. -/
def ObserverVector (L : Library) (time : astro_time_t) (observer : astro_observer_t)
    (equdate : astro_equator_date_t) :
    Shim astro_vector_t :=
  invoke (.Astronomy_ObserverVector time observer equdate)
    (L.Astronomy_ObserverVector time observer equdate)

/-- The shim-side call of `Astronomy_ObserverState`, logged with its arguments. -/
def ObserverState (L : Library) (time : astro_time_t) (observer : astro_observer_t)
    (equdate : astro_equator_date_t) :
    Shim astro_state_vector_t :=
  invoke (.Astronomy_ObserverState time observer equdate)
    (L.Astronomy_ObserverState time observer equdate)

/-- The shim-side call of `Astronomy_ObserverGravity`, logged with its arguments. -/
def ObserverGravity (L : Library) (latitude height : double) :
    Shim double :=
  invoke (.Astronomy_ObserverGravity latitude height)
    (L.Astronomy_ObserverGravity latitude height)

/-- The shim-side call of `Astronomy_HourAngle`, logged with its arguments. -/
def HourAngle (L : Library) (body : astro_body_t) (time : astro_time_t)
    (observer : astro_observer_t) :
    Shim astro_func_result_t :=
  invoke (.Astronomy_HourAngle body time observer)
    (L.Astronomy_HourAngle body time observer)

/-- The shim-side call of `Astronomy_MoonPhase`, logged with its arguments. -/
def MoonPhase (L : Library) (time : astro_time_t) :
    Shim astro_angle_result_t :=
  invoke (.Astronomy_MoonPhase time) (L.Astronomy_MoonPhase time)

/-- The shim-side call of `Astronomy_NextMoonQuarter`, logged with its arguments. -/
def NextMoonQuarter (L : Library) (mq : astro_moon_quarter_t) :
    Shim astro_moon_quarter_t :=
  invoke (.Astronomy_NextMoonQuarter mq) (L.Astronomy_NextMoonQuarter mq)

/-- The shim-side call of `Astronomy_Illumination`, logged with its arguments. -/
def Illumination (L : Library) (body : astro_body_t) (time : astro_time_t) :
    Shim astro_illum_t :=
  invoke (.Astronomy_Illumination body time) (L.Astronomy_Illumination body time)

/-- The shim-side call of `Astronomy_AngleFromSun`, logged with its arguments. -/
def AngleFromSun (L : Library) (body : astro_body_t) (time : astro_time_t) :
    Shim astro_angle_result_t :=
  invoke (.Astronomy_AngleFromSun body time) (L.Astronomy_AngleFromSun body time)

/-- The shim-side call of `Astronomy_Elongation`, logged with its arguments. -/
def Elongation (L : Library) (body : astro_body_t) (time : astro_time_t) :
    Shim astro_elongation_t :=
  invoke (.Astronomy_Elongation body time) (L.Astronomy_Elongation body time)

/-- The shim-side call of `Astronomy_Seasons`, logged with its arguments. -/
def Seasons (L : Library) (year : Int) :
    Shim astro_seasons_t :=
  invoke (.Astronomy_Seasons year) (L.Astronomy_Seasons year)

/-- The shim-side call of `Astronomy_Constellation`, logged with its arguments. -/
def Constellation (L : Library) (ra dec : double) :
    Shim astro_constellation_t :=
  invoke (.Astronomy_Constellation ra dec) (L.Astronomy_Constellation ra dec)

/-- The shim-side call of `Astronomy_HelioDistance`, logged with its arguments. -/
def HelioDistance (L : Library) (body : astro_body_t) (time : astro_time_t) :
    Shim astro_func_result_t :=
  invoke (.Astronomy_HelioDistance body time) (L.Astronomy_HelioDistance body time)

/-- The shim-side call of `Astronomy_IdentityMatrix`, logged with its arguments. -/
def IdentityMatrix (L : Library) :
    Shim astro_rotation_t :=
  invoke (.Astronomy_IdentityMatrix) (L.Astronomy_IdentityMatrix)

/-- The shim-side call of `Astronomy_VectorFromSphere`, logged with its arguments. -/
def VectorFromSphere (L : Library) (sphere : astro_spherical_t) (time : astro_time_t) :
    Shim astro_vector_t :=
  invoke (.Astronomy_VectorFromSphere sphere time)
    (L.Astronomy_VectorFromSphere sphere time)

/-- The shim-side call of `Astronomy_SphereFromVector`, logged with its arguments. -/
def SphereFromVector (L : Library) (vector : astro_vector_t) :
    Shim astro_spherical_t :=
  invoke (.Astronomy_SphereFromVector vector) (L.Astronomy_SphereFromVector vector)

/-- The shim-side call of `Astronomy_EquatorFromVector`, logged with its arguments. -/
def EquatorFromVector (L : Library) (vector : astro_vector_t) :
    Shim astro_equatorial_t :=
  invoke (.Astronomy_EquatorFromVector vector) (L.Astronomy_EquatorFromVector vector)

/-- The shim-side call of `Astronomy_VectorFromHorizon`, logged with its arguments. -/
def VectorFromHorizon (L : Library) (sphere : astro_spherical_t) (time : astro_time_t)
    (refraction : astro_refraction_t) :
    Shim astro_vector_t :=
  invoke (.Astronomy_VectorFromHorizon sphere time refraction)
    (L.Astronomy_VectorFromHorizon sphere time refraction)

/-- The shim-side call of `Astronomy_HorizonFromVector`, logged with its arguments. -/
def HorizonFromVector (L : Library) (vector : astro_vector_t) (refraction : astro_refraction_t)
     :
    Shim astro_spherical_t :=
  invoke (.Astronomy_HorizonFromVector vector refraction)
    (L.Astronomy_HorizonFromVector vector refraction)

/-- The shim-side call of `Astronomy_Rotation_EQD_EQJ`, logged with its arguments. -/
def Rotation_EQD_EQJ (L : Library) (time : astro_time_t) :
    Shim astro_rotation_t :=
  invoke (.Astronomy_Rotation_EQD_EQJ time) (L.Astronomy_Rotation_EQD_EQJ time)

/-- The shim-side call of `Astronomy_Rotation_EQD_ECT`, logged with its arguments. -/
def Rotation_EQD_ECT (L : Library) (time : astro_time_t) :
    Shim astro_rotation_t :=
  invoke (.Astronomy_Rotation_EQD_ECT time) (L.Astronomy_Rotation_EQD_ECT time)

/-- The shim-side call of `Astronomy_Rotation_EQD_ECL`, logged with its arguments. -/
def Rotation_EQD_ECL (L : Library) (time : astro_time_t) :
    Shim astro_rotation_t :=
  invoke (.Astronomy_Rotation_EQD_ECL time) (L.Astronomy_Rotation_EQD_ECL time)

/-- The shim-side call of `Astronomy_Rotation_EQD_HOR`, logged with its arguments. -/
def Rotation_EQD_HOR (L : Library) (time : astro_time_t) (observer : astro_observer_t) :
    Shim astro_rotation_t :=
  invoke (.Astronomy_Rotation_EQD_HOR time observer)
    (L.Astronomy_Rotation_EQD_HOR time observer)

/-- The shim-side call of `Astronomy_Rotation_EQJ_EQD`, logged with its arguments. -/
def Rotation_EQJ_EQD (L : Library) (time : astro_time_t) :
    Shim astro_rotation_t :=
  invoke (.Astronomy_Rotation_EQJ_EQD time) (L.Astronomy_Rotation_EQJ_EQD time)

/-- The shim-side call of `Astronomy_Rotation_EQJ_ECT`, logged with its arguments. -/
def Rotation_EQJ_ECT (L : Library) (time : astro_time_t) :
    Shim astro_rotation_t :=
  invoke (.Astronomy_Rotation_EQJ_ECT time) (L.Astronomy_Rotation_EQJ_ECT time)

/-- The shim-side call of `Astronomy_Rotation_EQJ_ECL`, logged with its arguments. -/
def Rotation_EQJ_ECL (L : Library) :
    Shim astro_rotation_t :=
  invoke (.Astronomy_Rotation_EQJ_ECL) (L.Astronomy_Rotation_EQJ_ECL)

/-- The shim-side call of `Astronomy_Rotation_EQJ_HOR`, logged with its arguments. -/
def Rotation_EQJ_HOR (L : Library) (time : astro_time_t) (observer : astro_observer_t) :
    Shim astro_rotation_t :=
  invoke (.Astronomy_Rotation_EQJ_HOR time observer)
    (L.Astronomy_Rotation_EQJ_HOR time observer)

/-- The shim-side call of `Astronomy_Rotation_ECT_EQD`, logged with its arguments. -/
def Rotation_ECT_EQD (L : Library) (time : astro_time_t) :
    Shim astro_rotation_t :=
  invoke (.Astronomy_Rotation_ECT_EQD time) (L.Astronomy_Rotation_ECT_EQD time)

/-- The shim-side call of `Astronomy_Rotation_ECT_EQJ`, logged with its arguments. -/
def Rotation_ECT_EQJ (L : Library) (time : astro_time_t) :
    Shim astro_rotation_t :=
  invoke (.Astronomy_Rotation_ECT_EQJ time) (L.Astronomy_Rotation_ECT_EQJ time)

/-- The shim-side call of `Astronomy_Rotation_ECL_EQD`, logged with its arguments. -/
def Rotation_ECL_EQD (L : Library) (time : astro_time_t) :
    Shim astro_rotation_t :=
  invoke (.Astronomy_Rotation_ECL_EQD time) (L.Astronomy_Rotation_ECL_EQD time)

/-- The shim-side call of `Astronomy_Rotation_ECL_EQJ`, logged with its arguments. -/
def Rotation_ECL_EQJ (L : Library) :
    Shim astro_rotation_t :=
  invoke (.Astronomy_Rotation_ECL_EQJ) (L.Astronomy_Rotation_ECL_EQJ)

/-- The shim-side call of `Astronomy_Rotation_ECL_HOR`, logged with its arguments. -/
def Rotation_ECL_HOR (L : Library) (time : astro_time_t) (observer : astro_observer_t) :
    Shim astro_rotation_t :=
  invoke (.Astronomy_Rotation_ECL_HOR time observer)
    (L.Astronomy_Rotation_ECL_HOR time observer)

/-- The shim-side call of `Astronomy_Rotation_HOR_EQD`, logged with its arguments. -/
def Rotation_HOR_EQD (L : Library) (time : astro_time_t) (observer : astro_observer_t) :
    Shim astro_rotation_t :=
  invoke (.Astronomy_Rotation_HOR_EQD time observer)
    (L.Astronomy_Rotation_HOR_EQD time observer)

/-- The shim-side call of `Astronomy_Rotation_HOR_EQJ`, logged with its arguments. -/
def Rotation_HOR_EQJ (L : Library) (time : astro_time_t) (observer : astro_observer_t) :
    Shim astro_rotation_t :=
  invoke (.Astronomy_Rotation_HOR_EQJ time observer)
    (L.Astronomy_Rotation_HOR_EQJ time observer)

/-- The shim-side call of `Astronomy_Rotation_HOR_ECL`, logged with its arguments. -/
def Rotation_HOR_ECL (L : Library) (time : astro_time_t) (observer : astro_observer_t) :
    Shim astro_rotation_t :=
  invoke (.Astronomy_Rotation_HOR_ECL time observer)
    (L.Astronomy_Rotation_HOR_ECL time observer)

/-- The shim-side call of `Astronomy_Rotation_EQJ_GAL`, logged with its arguments. -/
def Rotation_EQJ_GAL (L : Library) :
    Shim astro_rotation_t :=
  invoke (.Astronomy_Rotation_EQJ_GAL) (L.Astronomy_Rotation_EQJ_GAL)

/-- The shim-side call of `Astronomy_Rotation_GAL_EQJ`, logged with its arguments. -/
def Rotation_GAL_EQJ (L : Library) :
    Shim astro_rotation_t :=
  invoke (.Astronomy_Rotation_GAL_EQJ) (L.Astronomy_Rotation_GAL_EQJ)
end Library

/-! ## Marshalling primitives of the host binding (cpp11) -/

/-- The host's `cpp11::as_sexp` on a `double`: a numeric array of length one. -/
def as_sexp_double (x : double) : SEXP := .real ⟨[x], none⟩

/-- The host's `cpp11::as_sexp` on an `int`: an integer array of length one. -/
def as_sexp_int (i : Int) : SEXP := .int [i]

/-- Modelled from the spec: `vec_list["name"]` of the host's generic record (cpp11 is
not under src/): the first element with that key, `R_NilValue` when the key is absent. -/
def list.at (l : list) (name : String) : SEXP :=
  match l.find? (fun p => p.1 == name) with
  | some p => p.2
  | none => .nil

/-- Modelled from the spec: `cpp11::as_cpp<double>` of the host binding (cpp11 is not
under src/): a numeric or integer array of length one gives its element, anything else
(an absent key read as `R_NilValue`, a wrong type, a wrong length) fails. -/
def as_cpp_double : SEXP → Shim double
  | .real ⟨[x], _⟩ => pure x
  | .int [i] => pure (.val i)
  | _ => ⟨[], .error (.length_error "Expected single double value")⟩

/-- The host's `cpp11::as_sexp` on a `std::string`: a character array of length one. -/
def as_sexp_string (x : String) : SEXP := .str [x]

/-- Modelled from the spec: `cpp11::as_cpp<int>` of the host binding (cpp11 is not under
src/): an integer array of length one gives its element, a numeric array of length one
holding a whole number gives that number, anything else (an absent key read as
`R_NilValue`, a wrong type, a wrong length, a fraction, not-a-number) fails. -/
def as_cpp_int : SEXP → Shim Int
  | .int [i] => pure i
  | .real ⟨[.val q], _⟩ =>
    if q.den = 1 then pure q.num
    else ⟨[], .error (.length_error "Expected single integer value")⟩
  | _ => ⟨[], .error (.length_error "Expected single integer value")⟩

/-- Modelled from the spec: the host's error-signaling mechanism formats the message
printf-style (cpp11 and R are not under src/): each `%d` of the format is replaced by the
decimal rendering of the next integer argument, every other character is copied. -/
def printf_format : List Char → List Int → List Char
  | '%' :: 'd' :: rest, n :: args => (toString n).toList ++ printf_format rest args
  | c :: rest, args => c :: printf_format rest args
  | [], _ => []

/-- The message of the host error a shim raises. -/
def HostError.message : HostError → List Char
  | .stop fmt args => printf_format fmt.toList args
  | .length_error what => what.toList

/-! ## Internal helpers of the wrapper -/

/-- Source `posix_to_astro`: POSIX seconds to the library's time, through
`Astronomy_TimeFromDays` of the days since J2000.0. -/
def posix_to_astro (L : Library) (posix_sec : double) : Shim astro_time_t := do
  let ut := (posix_sec - .val 946728000) / .val 86400
  L.TimeFromDays ut

/-- Source `astro_to_posix`: the library's time back to POSIX seconds. -/
def astro_to_posix (t : astro_time_t) : double :=
  t.ut * .val 86400 + .val 946728000

/-- Source `int_to_body`: a `static_cast`, which keeps the integer value. -/
def int_to_body (body_int : Int) : astro_body_t := body_int

/-- Source `matrix_to_rotation`: a column-major host array to the library's row-major
rotation. -/
def matrix_to_rotation (mat : doubles) : Shim astro_rotation_t :=
  if h : mat.data.length ≠ 9 then
    stop "Rotation matrix must have exactly 9 elements" []
  else
    have h9 : mat.data.length = 9 := not_not.mp h
    pure
      { status := ASTRO_SUCCESS
        rot := ![![mat.data[0], mat.data[3], mat.data[6]],
                 ![mat.data[1], mat.data[4], mat.data[7]],
                 ![mat.data[2], mat.data[5], mat.data[8]]] }

/-- Source `rotation_to_matrix`: the library's rotation to a column-major host array
with `dim` 3 by 3; the nine stores are made in the source's order. -/
def rotation_to_matrix (rot : astro_rotation_t) : Shim doubles := do
  if rot.status != ASTRO_SUCCESS then
    stop "Rotation matrix operation failed with status %d" [rot.status]
  let mat : List double := List.replicate 9 (.val 0)
  let mat := ((mat.set 0 (rot.rot 0 0)).set 3 (rot.rot 0 1)).set 6 (rot.rot 0 2)
  let mat := ((mat.set 1 (rot.rot 1 0)).set 4 (rot.rot 1 1)).set 7 (rot.rot 1 2)
  let mat := ((mat.set 2 (rot.rot 2 0)).set 5 (rot.rot 2 1)).set 8 (rot.rot 2 2)
  pure { data := mat, dim := some [3, 3] }

/-- Source `list_to_vector`: a host record with keys x, y, z, t to the library's vector. -/
def list_to_vector (L : Library) (vec_list : list) : Shim astro_vector_t := do
  let x ← as_cpp_double (vec_list.at "x")
  let y ← as_cpp_double (vec_list.at "y")
  let z ← as_cpp_double (vec_list.at "z")
  let t ← posix_to_astro L (← as_cpp_double (vec_list.at "t"))
  pure { status := ASTRO_SUCCESS, x := x, y := y, z := z, t := t }

/-- Source `vector_to_list`: the library's vector to a host record. -/
def vector_to_list (vec : astro_vector_t) : Shim list := do
  if vec.status != ASTRO_SUCCESS then
    stop "Vector operation failed with status %d" [vec.status]
  pure
    [("x", as_sexp_double vec.x),
     ("y", as_sexp_double vec.y),
     ("z", as_sexp_double vec.z),
     ("t", as_sexp_double (astro_to_posix vec.t)),
     ("status", as_sexp_int vec.status)]

/-- Source `global_eclipse_to_list`. -/
def global_eclipse_to_list (eclipse : astro_global_solar_eclipse_t) : list :=
  [("status", as_sexp_int eclipse.status),
   ("kind", as_sexp_int eclipse.kind),
   ("peak", as_sexp_double (astro_to_posix eclipse.peak)),
   ("distance", as_sexp_double eclipse.distance),
   ("latitude", as_sexp_double eclipse.latitude),
   ("longitude", as_sexp_double eclipse.longitude)]

/-- Source `local_eclipse_to_list`. -/
def local_eclipse_to_list (eclipse : astro_local_solar_eclipse_t) : list :=
  [("status", as_sexp_int eclipse.status),
   ("kind", as_sexp_int eclipse.kind),
   ("partial_begin", .list
      [("time", as_sexp_double (astro_to_posix eclipse.partial_begin.time)),
       ("altitude", as_sexp_double eclipse.partial_begin.altitude)]),
   ("total_begin", .list
      [("time", as_sexp_double (astro_to_posix eclipse.total_begin.time)),
       ("altitude", as_sexp_double eclipse.total_begin.altitude)]),
   ("peak", .list
      [("time", as_sexp_double (astro_to_posix eclipse.peak.time)),
       ("altitude", as_sexp_double eclipse.peak.altitude)]),
   ("total_end", .list
      [("time", as_sexp_double (astro_to_posix eclipse.total_end.time)),
       ("altitude", as_sexp_double eclipse.total_end.altitude)]),
   ("partial_end", .list
      [("time", as_sexp_double (astro_to_posix eclipse.partial_end.time)),
       ("altitude", as_sexp_double eclipse.partial_end.altitude)])]

/-! ## Dispatch shims -/

/-- Source `astro_vector_observer_`. The source never assigns `vec.status`; the value
that field happens to hold is the parameter `indeterminate_status`. -/
def astro_vector_observer_ (L : Library) (indeterminate_status : astro_status_t)
    (vector : list) (of_date : Bool) : Shim list := do
  let x ← as_cpp_double (vector.at "x")
  let y ← as_cpp_double (vector.at "y")
  let z ← as_cpp_double (vector.at "z")
  let t ← posix_to_astro L (← as_cpp_double (vector.at "t"))
  let vec : astro_vector_t :=
    { status := indeterminate_status, x := x, y := y, z := z, t := t }
  let equdate : astro_equator_date_t :=
    if of_date then .EQUATOR_OF_DATE else .EQUATOR_J2000
  let obs ← L.VectorObserver vec equdate
  pure
    [("latitude", as_sexp_double obs.latitude),
     ("longitude", as_sexp_double obs.longitude),
     ("height", as_sexp_double obs.height)]

/-- Source `astro_search_rise_set_ex_`. -/
def astro_search_rise_set_ex_ (L : Library) (body : Int)
    (latitude longitude height time_posix : double) (direction : Int)
    (limit_days meters_above_ground : double) : Shim SEXP := do
  let c_body : astro_body_t := body
  let observer ← L.MakeObserver latitude longitude height
  let c_direction : astro_direction_t := direction
  let start_time ← posix_to_astro L time_posix
  let result ← L.SearchRiseSetEx c_body observer c_direction start_time limit_days
    meters_above_ground
  if result.status == ASTRO_SEARCH_FAILURE then
    return SEXP.nil
  if result.status != ASTRO_SUCCESS then
    stop "Astronomy_SearchRiseSetEx failed with status %d" [result.status]
  return as_sexp_double (astro_to_posix result.time)

/-- Source `astro_search_altitude_`. -/
def astro_search_altitude_ (L : Library) (body : Int)
    (latitude longitude height time_posix : double) (direction : Int)
    (limit_days altitude : double) : Shim SEXP := do
  let c_body : astro_body_t := body
  let observer ← L.MakeObserver latitude longitude height
  let c_direction : astro_direction_t := direction
  let start_time ← posix_to_astro L time_posix
  let result ← L.SearchAltitude c_body observer c_direction start_time limit_days
    altitude
  if result.status == ASTRO_SEARCH_FAILURE then
    return SEXP.nil
  if result.status != ASTRO_SUCCESS then
    stop "Astronomy_SearchAltitude failed with status %d" [result.status]
  return as_sexp_double (astro_to_posix result.time)

/-- Source `astro_search_hour_angle_ex_`. -/
def astro_search_hour_angle_ex_ (L : Library) (body : Int)
    (latitude longitude height hour_angle time_posix : double) (direction : Int) :
    Shim list := do
  let c_body : astro_body_t := body
  let observer ← L.MakeObserver latitude longitude height
  let start_time ← posix_to_astro L time_posix
  let result ← L.SearchHourAngleEx c_body observer hour_angle start_time direction
  if result.status != ASTRO_SUCCESS then
    stop "Astronomy_SearchHourAngleEx failed with status %d" [result.status]
  pure
    [("time", as_sexp_double (astro_to_posix result.time)),
     ("azimuth", as_sexp_double result.hor.azimuth),
     ("altitude", as_sexp_double result.hor.altitude)]

/-- Source `astro_search_moon_phase_`. -/
def astro_search_moon_phase_ (L : Library)
    (target_lon start_time_posix limit_days : double) : Shim double := do
  let start_t ← posix_to_astro L start_time_posix
  let result ← L.SearchMoonPhase target_lon start_t limit_days
  if result.status != ASTRO_SUCCESS then
    stop "Astronomy_SearchMoonPhase failed with status %d" [result.status]
  return astro_to_posix result.time

/-- Source `astro_search_moon_quarter_`. -/
def astro_search_moon_quarter_ (L : Library) (start_time_posix : double) :
    Shim list := do
  let start_t ← posix_to_astro L start_time_posix
  let result ← L.SearchMoonQuarter start_t
  if result.status != ASTRO_SUCCESS then
    stop "Astronomy_SearchMoonQuarter failed with status %d" [result.status]
  pure
    [("quarter", as_sexp_int result.quarter),
     ("time", as_sexp_double (astro_to_posix result.time))]

/-- Source `astro_search_lunar_eclipse_`. -/
def astro_search_lunar_eclipse_ (L : Library) (start_time_posix : double) :
    Shim list := do
  let start_time ← posix_to_astro L start_time_posix
  let eclipse ← L.SearchLunarEclipse start_time
  if eclipse.status != ASTRO_SUCCESS then
    stop "Astronomy_SearchLunarEclipse failed with status %d" [eclipse.status]
  pure
    [("kind", as_sexp_int eclipse.kind),
     ("obscuration", as_sexp_double eclipse.obscuration),
     ("peak", as_sexp_double (astro_to_posix eclipse.peak)),
     ("sd_total", as_sexp_double eclipse.sd_total),
     ("sd_partial", as_sexp_double eclipse.sd_partial),
     ("sd_penum", as_sexp_double eclipse.sd_penum)]

/-- Source `astro_next_lunar_eclipse_`. -/
def astro_next_lunar_eclipse_ (L : Library) (prev_eclipse_time_posix : double) :
    Shim list := do
  let prev_eclipse_time ← posix_to_astro L prev_eclipse_time_posix
  let eclipse ← L.NextLunarEclipse prev_eclipse_time
  if eclipse.status != ASTRO_SUCCESS then
    stop "Astronomy_NextLunarEclipse failed with status %d" [eclipse.status]
  pure
    [("kind", as_sexp_int eclipse.kind),
     ("obscuration", as_sexp_double eclipse.obscuration),
     ("peak", as_sexp_double (astro_to_posix eclipse.peak)),
     ("sd_total", as_sexp_double eclipse.sd_total),
     ("sd_partial", as_sexp_double eclipse.sd_partial),
     ("sd_penum", as_sexp_double eclipse.sd_penum)]

/-- Source `search_global_solar_eclipse_`. -/
def search_global_solar_eclipse_ (L : Library) (start_time : double) : Shim list := do
  let start ← posix_to_astro L start_time
  let eclipse ← L.SearchGlobalSolarEclipse start
  if eclipse.status != ASTRO_SUCCESS then
    stop "Astronomy_SearchGlobalSolarEclipse failed with status %d" [eclipse.status]
  pure (global_eclipse_to_list eclipse)

/-- Source `next_global_solar_eclipse_`. -/
def next_global_solar_eclipse_ (L : Library) (prev_eclipse_time : double) :
    Shim list := do
  let prev ← posix_to_astro L prev_eclipse_time
  let eclipse ← L.NextGlobalSolarEclipse prev
  if eclipse.status != ASTRO_SUCCESS then
    stop "Astronomy_NextGlobalSolarEclipse failed with status %d" [eclipse.status]
  pure (global_eclipse_to_list eclipse)

/-- Source `search_local_solar_eclipse_`; the braced initialiser `{latitude, longitude}`
leaves `height` zero. -/
def search_local_solar_eclipse_ (L : Library) (start_time latitude longitude : double) :
    Shim list := do
  let start ← posix_to_astro L start_time
  let observer : astro_observer_t :=
    { latitude := latitude, longitude := longitude, height := .val 0 }
  let eclipse ← L.SearchLocalSolarEclipse start observer
  if eclipse.status != ASTRO_SUCCESS then
    stop "Astronomy_SearchLocalSolarEclipse failed with status %d" [eclipse.status]
  pure (local_eclipse_to_list eclipse)

/-- Source `next_local_solar_eclipse_`; the braced initialiser `{latitude, longitude}`
leaves `height` zero. -/
def next_local_solar_eclipse_ (L : Library)
    (prev_eclipse_time latitude longitude : double) : Shim list := do
  let prev ← posix_to_astro L prev_eclipse_time
  let observer : astro_observer_t :=
    { latitude := latitude, longitude := longitude, height := .val 0 }
  let eclipse ← L.NextLocalSolarEclipse prev observer
  if eclipse.status != ASTRO_SUCCESS then
    stop "Astronomy_NextLocalSolarEclipse failed with status %d" [eclipse.status]
  pure (local_eclipse_to_list eclipse)

/-- Source `astro_search_transit_`. -/
def astro_search_transit_ (L : Library) (body : Int) (start_time_posix : double) :
    Shim list := do
  let startTime ← posix_to_astro L start_time_posix
  let transit ← L.SearchTransit body startTime
  if transit.status != ASTRO_SUCCESS then
    stop "Astronomy_SearchTransit failed with status %d" [transit.status]
  pure
    [("start", as_sexp_double (astro_to_posix transit.start)),
     ("peak", as_sexp_double (astro_to_posix transit.peak)),
     ("finish", as_sexp_double (astro_to_posix transit.finish)),
     ("separation", as_sexp_double transit.separation)]

/-- Source `astro_next_transit_`. -/
def astro_next_transit_ (L : Library) (body : Int) (prev_transit_time_posix : double) :
    Shim list := do
  let prevTransitTime ← posix_to_astro L prev_transit_time_posix
  let transit ← L.NextTransit body prevTransitTime
  if transit.status != ASTRO_SUCCESS then
    stop "Astronomy_NextTransit failed with status %d" [transit.status]
  pure
    [("start", as_sexp_double (astro_to_posix transit.start)),
     ("peak", as_sexp_double (astro_to_posix transit.peak)),
     ("finish", as_sexp_double (astro_to_posix transit.finish)),
     ("separation", as_sexp_double transit.separation)]

/-- Source `search_lunar_apsis_`. -/
def search_lunar_apsis_ (L : Library) (start_time : double) : Shim list := do
  let start ← posix_to_astro L start_time
  let apsis ← L.SearchLunarApsis start
  if apsis.status != ASTRO_SUCCESS then
    stop "Astronomy_SearchLunarApsis failed with status %d" [apsis.status]
  pure
    [("kind", as_sexp_int apsis.kind),
     ("time", as_sexp_double (astro_to_posix apsis.time)),
     ("dist_au", as_sexp_double apsis.dist_au),
     ("dist_km", as_sexp_double apsis.dist_km)]

/-- Source `search_planet_apsis_`. The source reads `start_time[0]` without a length
check; `none` stands for that read being out of range (no defined outcome). -/
def search_planet_apsis_ (L : Library) (body : Int) (start_time : doubles) :
    Option (Shim list) :=
  match start_time.data[0]? with
  | none => none
  | some start_time_0 => some do
    let start ← posix_to_astro L start_time_0
    let apsis ← L.SearchPlanetApsis body start
    if apsis.status != ASTRO_SUCCESS then
      stop "Astronomy_SearchPlanetApsis failed with status %d" [apsis.status]
    pure
      [("kind", as_sexp_int apsis.kind),
       ("time", as_sexp_double (astro_to_posix apsis.time)),
       ("dist_au", as_sexp_double apsis.dist_au),
       ("dist_km", as_sexp_double apsis.dist_km)]

/-- Source `astro_search_peak_magnitude_`. -/
def astro_search_peak_magnitude_ (L : Library) (body : Int) (start_time : double) :
    Shim list := do
  let c_body : astro_body_t := body
  let c_start_time ← posix_to_astro L start_time
  let illum ← L.SearchPeakMagnitude c_body c_start_time
  if illum.status != ASTRO_SUCCESS then
    stop "Astronomy_SearchPeakMagnitude failed with status %d" [illum.status]
  pure
    [("time", as_sexp_double (astro_to_posix illum.time)),
     ("mag", as_sexp_double illum.mag),
     ("phase_angle", as_sexp_double illum.phase_angle),
     ("phase_fraction", as_sexp_double illum.phase_fraction),
     ("helio_dist", as_sexp_double illum.helio_dist),
     ("ring_tilt", as_sexp_double illum.ring_tilt)]

/-- Source `astro_search_max_elongation_`. -/
def astro_search_max_elongation_ (L : Library) (body : Int) (start_time : double) :
    Shim list := do
  let c_body : astro_body_t := body
  let c_start_time ← posix_to_astro L start_time
  let result ← L.SearchMaxElongation c_body c_start_time
  if result.status != ASTRO_SUCCESS then
    stop "Astronomy_SearchMaxElongation failed with status %d" [result.status]
  pure
    [("visibility", as_sexp_int result.visibility),
     ("elongation", as_sexp_double result.elongation),
     ("ecliptic_separation", as_sexp_double result.ecliptic_separation),
     ("time", as_sexp_double (astro_to_posix result.time)),
     ("status", as_sexp_int result.status)]

/-- Source `astro_search_relative_longitude_`. -/
def astro_search_relative_longitude_ (L : Library) (body : Int)
    (target_rel_lon start_time : double) : Shim double := do
  let c_body : astro_body_t := body
  let c_start_time ← posix_to_astro L start_time
  let result ← L.SearchRelativeLongitude c_body target_rel_lon c_start_time
  if result.status != ASTRO_SUCCESS then
    stop "Astronomy_SearchRelativeLongitude failed with status %d" [result.status]
  return astro_to_posix result.time

/-- Source `astro_search_sun_longitude_`. -/
def astro_search_sun_longitude_ (L : Library)
    (target_lon start_time limit_days : double) : Shim double := do
  let start ← posix_to_astro L start_time
  let result ← L.SearchSunLongitude target_lon start limit_days
  if result.status != ASTRO_SUCCESS then
    stop "Astronomy_SearchSunLongitude failed with status %d" [result.status]
  return astro_to_posix result.time

/-- Source `astro_search_lunar_apsis_`. -/
def astro_search_lunar_apsis_ (L : Library) (time_posix : double) : Shim list := do
  let t ← posix_to_astro L time_posix
  let apsis ← L.SearchLunarApsis t
  if apsis.status != ASTRO_SUCCESS then
    stop "Astronomy_SearchLunarApsis failed with status %d" [apsis.status]
  pure
    [("time", as_sexp_double (astro_to_posix apsis.time)),
     ("kind", as_sexp_int apsis.kind),
     ("dist_au", as_sexp_double apsis.dist_au),
     ("dist_km", as_sexp_double apsis.dist_km)]

/-- Source `astro_search_global_solar_eclipse_`. -/
def astro_search_global_solar_eclipse_ (L : Library) (time_posix : double) :
    Shim list := do
  let t ← posix_to_astro L time_posix
  let ec ← L.SearchGlobalSolarEclipse t
  if ec.status != ASTRO_SUCCESS then
    stop "Astronomy_SearchGlobalSolarEclipse failed with status %d" [ec.status]
  pure
    [("kind", as_sexp_int ec.kind),
     ("obscuration", as_sexp_double ec.obscuration),
     ("peak", as_sexp_double (astro_to_posix ec.peak)),
     ("distance", as_sexp_double ec.distance),
     ("latitude", as_sexp_double ec.latitude),
     ("longitude", as_sexp_double ec.longitude)]

/-- Source `astro_inverse_rotation_`. -/
def astro_inverse_rotation_ (L : Library) (rotation : doubles) : Shim doubles := do
  let rot ← matrix_to_rotation rotation
  let inv ← L.InverseRotation rot
  rotation_to_matrix inv

/-- Source `astro_combine_rotation_`. -/
def astro_combine_rotation_ (L : Library) (a b : doubles) : Shim doubles := do
  let rot_a ← matrix_to_rotation a
  let rot_b ← matrix_to_rotation b
  let combined ← L.CombineRotation rot_a rot_b
  rotation_to_matrix combined

/-- Source `astro_pivot_`. -/
def astro_pivot_ (L : Library) (rotation : doubles) (axis : Int) (angle : double) :
    Shim doubles := do
  let rot ← matrix_to_rotation rotation
  let pivoted ← L.Pivot rot axis angle
  rotation_to_matrix pivoted

/-- Source `astro_rotate_vector_`. -/
def astro_rotate_vector_ (L : Library) (rotation : doubles) (vector : list) :
    Shim list := do
  let rot ← matrix_to_rotation rotation
  let vec ← list_to_vector L vector
  let rotated ← L.RotateVector rot vec
  vector_to_list rotated

/-- Source `astro_make_time_`. -/
def astro_make_time_ (L : Library) (year month day hour minute : Int) (second : double) :
    Shim double := do
  let t ← L.MakeTime year month day hour minute second
  return astro_to_posix t

/-- Source `astro_current_time_`. `Astronomy_CurrentTime` reads the process-wide clock;
`now` is the time it returns at this call. -/
def astro_current_time_ (now : astro_time_t) : Shim double := do
  let t ← invoke .Astronomy_CurrentTime now
  return astro_to_posix t

/-- Source `astro_body_name_`. -/
def astro_body_name_ (L : Library) (body : Int) : Shim String :=
  L.BodyName (int_to_body body)

/-- Source `astro_body_code_`. -/
def astro_body_code_ (L : Library) (name : String) : Shim Int :=
  L.BodyCode name

/-- Source `astro_helio_vector_`. -/
def astro_helio_vector_ (L : Library) (body : Int) (time_posix : double) : Shim list := do
  let t ← posix_to_astro L time_posix
  let vec ← L.HelioVector (int_to_body body) t
  if vec.status != ASTRO_SUCCESS then
    stop "Astronomy_HelioVector failed with status %d" [vec.status]
  pure
    [("x", as_sexp_double vec.x),
     ("y", as_sexp_double vec.y),
     ("z", as_sexp_double vec.z),
     ("time", as_sexp_double (astro_to_posix vec.t))]

/-- Source `astro_equator_`. -/
def astro_equator_ (L : Library) (body : Int)
    (time_posix latitude longitude height : double) (of_date aberration : Bool) :
    Shim list := do
  let t ← posix_to_astro L time_posix
  let obs ← L.MakeObserver latitude longitude height
  let equdate : astro_equator_date_t :=
    if of_date then .EQUATOR_OF_DATE else .EQUATOR_J2000
  let aber : astro_aberration_t := if aberration then ABERRATION else NO_ABERRATION
  let eq ← L.Equator (int_to_body body) t obs equdate aber
  if eq.status != ASTRO_SUCCESS then
    stop "Astronomy_Equator failed with status %d" [eq.status]
  pure
    [("ra", as_sexp_double eq.ra),
     ("dec", as_sexp_double eq.dec),
     ("dist", as_sexp_double eq.dist)]

/-- Source `astro_sun_position_`. -/
def astro_sun_position_ (L : Library) (time_posix : double) : Shim list := do
  let time ← posix_to_astro L time_posix
  let ecl ← L.SunPosition time
  if ecl.status != ASTRO_SUCCESS then
    stop "Astronomy_SunPosition failed with status %d" [ecl.status]
  pure
    [("elon", as_sexp_double ecl.elon),
     ("elat", as_sexp_double ecl.elat),
     ("vec", .list
       [("x", as_sexp_double ecl.vec.x),
        ("y", as_sexp_double ecl.vec.y),
        ("z", as_sexp_double ecl.vec.z),
        ("t", as_sexp_double (astro_to_posix ecl.vec.t))])]

/-- Source `astro_ecliptic_`. -/
def astro_ecliptic_ (L : Library) (x y z time_posix : double) : Shim list := do
  let t ← posix_to_astro L time_posix
  let eqj : astro_vector_t := { status := ASTRO_SUCCESS, x := x, y := y, z := z, t := t }
  let eclip ← L.Ecliptic eqj
  if eclip.status != ASTRO_SUCCESS then
    stop "Astronomy_Ecliptic failed with status %d" [eclip.status]
  pure
    [("x", as_sexp_double eclip.vec.x),
     ("y", as_sexp_double eclip.vec.y),
     ("z", as_sexp_double eclip.vec.z),
     ("lon", as_sexp_double eclip.elon),
     ("lat", as_sexp_double eclip.elat),
     ("time", as_sexp_double (astro_to_posix eclip.vec.t))]

/-- Source `astro_ecliptic_longitude_`. -/
def astro_ecliptic_longitude_ (L : Library) (body : Int) (time_posix : double) :
    Shim double := do
  let t ← posix_to_astro L time_posix
  let result ← L.EclipticLongitude (int_to_body body) t
  if result.status != ASTRO_SUCCESS then
    stop "Astronomy_EclipticLongitude failed with status %d" [result.status]
  return result.angle

/-- Source `astro_horizon_`. The source never assigns `observer.height`; the value that
field happens to hold is the parameter `indeterminate_height`. -/
def astro_horizon_ (L : Library) (indeterminate_height : double)
    (time_posix lat lon ra dec : double) (refraction : Int) : Shim list := do
  let time ← posix_to_astro L time_posix
  let observer : astro_observer_t :=
    { latitude := lat, longitude := lon, height := indeterminate_height }
  let hor ← L.Horizon time observer ra dec refraction
  if hor.altitude.isnan || hor.azimuth.isnan then
    stop "Astronomy_Horizon returned invalid coordinates" []
  pure
    [("azimuth", as_sexp_double hor.azimuth),
     ("altitude", as_sexp_double hor.altitude),
     ("ra", as_sexp_double hor.ra),
     ("dec", as_sexp_double hor.dec)]

/-- Source `astro_pair_longitude_`. -/
def astro_pair_longitude_ (L : Library) (body1 body2 : Int) (time_posix : double) :
    Shim list := do
  let time ← posix_to_astro L time_posix
  let result ← L.PairLongitude body1 body2 time
  if result.status != ASTRO_SUCCESS then
    stop "Astronomy_PairLongitude failed with status %d" [result.status]
  pure [("angle", as_sexp_double result.angle)]

/-- Source `astro_geo_vector_`. -/
def astro_geo_vector_ (L : Library) (body : Int) (time_posix : double)
    (aberration : Int) : Shim list := do
  let time ← posix_to_astro L time_posix
  let vector ← L.GeoVector body time aberration
  if vector.status != ASTRO_SUCCESS then
    stop "Astronomy_GeoVector failed with status %d" [vector.status]
  pure
    [("x", as_sexp_double vector.x),
     ("y", as_sexp_double vector.y),
     ("z", as_sexp_double vector.z),
     ("time", as_sexp_double (astro_to_posix vector.t))]

/-- Source `astro_bary_state_`. -/
def astro_bary_state_ (L : Library) (body : Int) (time_posix : double) : Shim list := do
  let time ← posix_to_astro L time_posix
  let state ← L.BaryState body time
  if state.status != ASTRO_SUCCESS then
    stop "Astronomy_BaryState failed with status %d" [state.status]
  pure
    [("x", as_sexp_double state.x),
     ("y", as_sexp_double state.y),
     ("z", as_sexp_double state.z),
     ("vx", as_sexp_double state.vx),
     ("vy", as_sexp_double state.vy),
     ("vz", as_sexp_double state.vz),
     ("time", as_sexp_double (astro_to_posix state.t))]

/-- Source `astro_observer_vector_`. -/
def astro_observer_vector_ (L : Library)
    (time_posix latitude longitude height : double) (of_date : Bool) : Shim list := do
  let t ← posix_to_astro L time_posix
  let observer ← L.MakeObserver latitude longitude height
  let equdate : astro_equator_date_t :=
    if of_date then .EQUATOR_OF_DATE else .EQUATOR_J2000
  let vec ← L.ObserverVector t observer equdate
  if vec.status != ASTRO_SUCCESS then
    stop "Astronomy_ObserverVector failed with status %d" [vec.status]
  pure
    [("x", as_sexp_double vec.x),
     ("y", as_sexp_double vec.y),
     ("z", as_sexp_double vec.z),
     ("t", as_sexp_double (astro_to_posix vec.t)),
     ("status", as_sexp_int vec.status)]

/-- Source `astro_observer_state_`. -/
def astro_observer_state_ (L : Library)
    (time_posix latitude longitude height : double) (of_date : Bool) : Shim list := do
  let t ← posix_to_astro L time_posix
  let observer ← L.MakeObserver latitude longitude height
  let equdate : astro_equator_date_t :=
    if of_date then .EQUATOR_OF_DATE else .EQUATOR_J2000
  let state ← L.ObserverState t observer equdate
  if state.status != ASTRO_SUCCESS then
    stop "Astronomy_ObserverState failed with status %d" [state.status]
  pure
    [("x", as_sexp_double state.x),
     ("y", as_sexp_double state.y),
     ("z", as_sexp_double state.z),
     ("vx", as_sexp_double state.vx),
     ("vy", as_sexp_double state.vy),
     ("vz", as_sexp_double state.vz),
     ("t", as_sexp_double (astro_to_posix state.t)),
     ("status", as_sexp_int state.status)]

/-- Source `astro_observer_gravity_`. -/
def astro_observer_gravity_ (L : Library) (latitude height : double) : Shim double :=
  L.ObserverGravity latitude height

/-- Source `astro_hour_angle_`. -/
def astro_hour_angle_ (L : Library) (body : Int)
    (latitude longitude height time_posix : double) : Shim double := do
  let c_body : astro_body_t := body
  let observer ← L.MakeObserver latitude longitude height
  let c_time ← posix_to_astro L time_posix
  let result ← L.HourAngle c_body c_time observer
  if result.status != ASTRO_SUCCESS then
    stop "Astronomy_HourAngle failed with status %d" [result.status]
  return result.value

/-- Source `astro_moon_phase_`. -/
def astro_moon_phase_ (L : Library) (time_posix : double) : Shim double := do
  let t ← posix_to_astro L time_posix
  let result ← L.MoonPhase t
  if result.status != ASTRO_SUCCESS then
    stop "Astronomy_MoonPhase failed with status %d" [result.status]
  return result.angle

/-- Source `astro_next_moon_quarter_`. -/
def astro_next_moon_quarter_ (L : Library) (quarter : Int) (time_posix : double) :
    Shim list := do
  let t ← posix_to_astro L time_posix
  let mq : astro_moon_quarter_t := { status := ASTRO_SUCCESS, quarter := quarter, time := t }
  let result ← L.NextMoonQuarter mq
  if result.status != ASTRO_SUCCESS then
    stop "Astronomy_NextMoonQuarter failed with status %d" [result.status]
  pure
    [("quarter", as_sexp_int result.quarter),
     ("time", as_sexp_double (astro_to_posix result.time))]

/-- Source `next_lunar_apsis_`. -/
def next_lunar_apsis_ (L : Library) (apsis_list : list) : Shim list := do
  let kind : astro_apsis_kind_t ← as_cpp_int (apsis_list.at "kind")
  let time ← posix_to_astro L (← as_cpp_double (apsis_list.at "time"))
  let dist_au ← as_cpp_double (apsis_list.at "dist_au")
  let dist_km ← as_cpp_double (apsis_list.at "dist_km")
  let apsis : astro_apsis_t :=
    { status := ASTRO_SUCCESS, time := time, kind := kind, dist_au := dist_au,
      dist_km := dist_km }
  let next ← L.NextLunarApsis apsis
  if next.status != ASTRO_SUCCESS then
    stop "Astronomy_NextLunarApsis failed with status %d" [next.status]
  pure
    [("kind", as_sexp_int next.kind),
     ("time", as_sexp_double (astro_to_posix next.time)),
     ("dist_au", as_sexp_double next.dist_au),
     ("dist_km", as_sexp_double next.dist_km)]

/-- Source `next_planet_apsis_`. -/
def next_planet_apsis_ (L : Library) (body : Int) (apsis_list : list) : Shim list := do
  let kind : astro_apsis_kind_t ← as_cpp_int (apsis_list.at "kind")
  let time ← posix_to_astro L (← as_cpp_double (apsis_list.at "time"))
  let dist_au ← as_cpp_double (apsis_list.at "dist_au")
  let dist_km ← as_cpp_double (apsis_list.at "dist_km")
  let apsis : astro_apsis_t :=
    { status := ASTRO_SUCCESS, time := time, kind := kind, dist_au := dist_au,
      dist_km := dist_km }
  let next ← L.NextPlanetApsis body apsis
  if next.status != ASTRO_SUCCESS then
    stop "Astronomy_NextPlanetApsis failed with status %d" [next.status]
  pure
    [("kind", as_sexp_int next.kind),
     ("time", as_sexp_double (astro_to_posix next.time)),
     ("dist_au", as_sexp_double next.dist_au),
     ("dist_km", as_sexp_double next.dist_km)]

/-- Source `astro_illumination_`. -/
def astro_illumination_ (L : Library) (body : Int) (time_posix : double) : Shim list := do
  let c_body : astro_body_t := body
  let c_time ← posix_to_astro L time_posix
  let illum ← L.Illumination c_body c_time
  if illum.status != ASTRO_SUCCESS then
    stop "Astronomy_Illumination failed with status %d" [illum.status]
  pure
    [("time", as_sexp_double (astro_to_posix illum.time)),
     ("mag", as_sexp_double illum.mag),
     ("phase_angle", as_sexp_double illum.phase_angle),
     ("phase_fraction", as_sexp_double illum.phase_fraction),
     ("helio_dist", as_sexp_double illum.helio_dist),
     ("ring_tilt", as_sexp_double illum.ring_tilt)]

/-- Source `astro_angle_from_sun_`. -/
def astro_angle_from_sun_ (L : Library) (body : Int) (time : double) : Shim double := do
  let c_body : astro_body_t := body
  let c_time ← posix_to_astro L time
  let result ← L.AngleFromSun c_body c_time
  if result.status != ASTRO_SUCCESS then
    stop "Astronomy_AngleFromSun failed with status %d" [result.status]
  return result.angle

/-- Source `astro_elongation_`. -/
def astro_elongation_ (L : Library) (body : Int) (time : double) : Shim list := do
  let c_body : astro_body_t := body
  let c_time ← posix_to_astro L time
  let result ← L.Elongation c_body c_time
  if result.status != ASTRO_SUCCESS then
    stop "Astronomy_Elongation failed with status %d" [result.status]
  pure
    [("visibility", as_sexp_int result.visibility),
     ("elongation", as_sexp_double result.elongation),
     ("ecliptic_separation", as_sexp_double result.ecliptic_separation),
     ("time", as_sexp_double (astro_to_posix result.time)),
     ("status", as_sexp_int result.status)]

/-- Source `astro_seasons_`. -/
def astro_seasons_ (L : Library) (year : Int) : Shim list := do
  let s ← L.Seasons year
  if s.status != ASTRO_SUCCESS then
    stop "Astronomy_Seasons failed with status %d" [s.status]
  pure
    [("mar_equinox", as_sexp_double (astro_to_posix s.mar_equinox)),
     ("jun_solstice", as_sexp_double (astro_to_posix s.jun_solstice)),
     ("sep_equinox", as_sexp_double (astro_to_posix s.sep_equinox)),
     ("dec_solstice", as_sexp_double (astro_to_posix s.dec_solstice))]

/-- Source `astro_constellation_`. -/
def astro_constellation_ (L : Library) (ra dec : double) : Shim list := do
  let con ← L.Constellation ra dec
  if con.status != ASTRO_SUCCESS then
    stop "Astronomy_Constellation failed with status %d" [con.status]
  pure
    [("symbol", as_sexp_string con.symbol),
     ("name", as_sexp_string con.name),
     ("ra_1875", as_sexp_double con.ra_1875),
     ("dec_1875", as_sexp_double con.dec_1875)]

/-- Source `astro_helio_distance_`. -/
def astro_helio_distance_ (L : Library) (body : Int) (time_posix : double) :
    Shim double := do
  let t ← posix_to_astro L time_posix
  let result ← L.HelioDistance (int_to_body body) t
  if result.status != ASTRO_SUCCESS then
    stop "Astronomy_HelioDistance failed with status %d" [result.status]
  return result.value

/-- Source `astro_identity_matrix_`. -/
def astro_identity_matrix_ (L : Library) : Shim doubles := do
  let rot ← L.IdentityMatrix
  rotation_to_matrix rot

/-- Source `list_to_spherical`: a host record with keys lat, lon, dist to the library's
spherical coordinates. -/
def list_to_spherical (sphere_list : list) : Shim astro_spherical_t := do
  let lat ← as_cpp_double (sphere_list.at "lat")
  let lon ← as_cpp_double (sphere_list.at "lon")
  let dist ← as_cpp_double (sphere_list.at "dist")
  pure { status := ASTRO_SUCCESS, lat := lat, lon := lon, dist := dist }

/-- Source `spherical_to_list`. -/
def spherical_to_list (sphere : astro_spherical_t) : Shim list := do
  if sphere.status != ASTRO_SUCCESS then
    stop "Spherical coordinate operation failed with status %d" [sphere.status]
  pure
    [("lat", as_sexp_double sphere.lat),
     ("lon", as_sexp_double sphere.lon),
     ("dist", as_sexp_double sphere.dist),
     ("status", as_sexp_int sphere.status)]

/-- Source `equatorial_to_list`; the nested `vec` goes through `vector_to_list`. -/
def equatorial_to_list (equ : astro_equatorial_t) : Shim list := do
  if equ.status != ASTRO_SUCCESS then
    stop "Equatorial coordinate operation failed with status %d" [equ.status]
  let vec ← vector_to_list equ.vec
  pure
    [("ra", as_sexp_double equ.ra),
     ("dec", as_sexp_double equ.dec),
     ("dist", as_sexp_double equ.dist),
     ("vec", .list vec),
     ("status", as_sexp_int equ.status)]

/-- Source `astro_vector_from_sphere_`. -/
def astro_vector_from_sphere_ (L : Library) (sphere : list) (time_posix : double) :
    Shim list := do
  let sph ← list_to_spherical sphere
  let t ← posix_to_astro L time_posix
  let vec ← L.VectorFromSphere sph t
  vector_to_list vec

/-- Source `astro_sphere_from_vector_`. -/
def astro_sphere_from_vector_ (L : Library) (vector : list) : Shim list := do
  let vec ← list_to_vector L vector
  let sphere ← L.SphereFromVector vec
  spherical_to_list sphere

/-- Source `astro_equator_from_vector_`. -/
def astro_equator_from_vector_ (L : Library) (vector : list) : Shim list := do
  let vec ← list_to_vector L vector
  let equ ← L.EquatorFromVector vec
  equatorial_to_list equ

/-- Source `astro_vector_from_horizon_`. -/
def astro_vector_from_horizon_ (L : Library) (sphere : list) (time_posix : double)
    (refraction : Int) : Shim list := do
  let sph ← list_to_spherical sphere
  let t ← posix_to_astro L time_posix
  let ref : astro_refraction_t := refraction
  let vec ← L.VectorFromHorizon sph t ref
  vector_to_list vec

/-- Source `astro_horizon_from_vector_`. -/
def astro_horizon_from_vector_ (L : Library) (vector : list) (refraction : Int) :
    Shim list := do
  let vec ← list_to_vector L vector
  let ref : astro_refraction_t := refraction
  let sphere ← L.HorizonFromVector vec ref
  spherical_to_list sphere

/-- Source `astro_rotation_eqd_eqj_`. -/
def astro_rotation_eqd_eqj_ (L : Library) (time_posix : double) : Shim doubles := do
  let t ← posix_to_astro L time_posix
  let rot ← L.Rotation_EQD_EQJ t
  rotation_to_matrix rot

/-- Source `astro_rotation_eqd_ect_`. -/
def astro_rotation_eqd_ect_ (L : Library) (time_posix : double) : Shim doubles := do
  let t ← posix_to_astro L time_posix
  let rot ← L.Rotation_EQD_ECT t
  rotation_to_matrix rot

/-- Source `astro_rotation_eqd_ecl_`. -/
def astro_rotation_eqd_ecl_ (L : Library) (time_posix : double) : Shim doubles := do
  let t ← posix_to_astro L time_posix
  let rot ← L.Rotation_EQD_ECL t
  rotation_to_matrix rot

/-- Source `astro_rotation_eqd_hor_`. -/
def astro_rotation_eqd_hor_ (L : Library) (time_posix latitude longitude height : double) :
    Shim doubles := do
  let t ← posix_to_astro L time_posix
  let obs ← L.MakeObserver latitude longitude height
  let rot ← L.Rotation_EQD_HOR t obs
  rotation_to_matrix rot

/-- Source `astro_rotation_eqj_eqd_`. -/
def astro_rotation_eqj_eqd_ (L : Library) (time_posix : double) : Shim doubles := do
  let t ← posix_to_astro L time_posix
  let rot ← L.Rotation_EQJ_EQD t
  rotation_to_matrix rot

/-- Source `astro_rotation_eqj_ect_`. -/
def astro_rotation_eqj_ect_ (L : Library) (time_posix : double) : Shim doubles := do
  let t ← posix_to_astro L time_posix
  let rot ← L.Rotation_EQJ_ECT t
  rotation_to_matrix rot

/-- Source `astro_rotation_eqj_ecl_`. -/
def astro_rotation_eqj_ecl_ (L : Library) : Shim doubles := do
  let rot ← L.Rotation_EQJ_ECL
  rotation_to_matrix rot

/-- Source `astro_rotation_eqj_hor_`. -/
def astro_rotation_eqj_hor_ (L : Library) (time_posix latitude longitude height : double) :
    Shim doubles := do
  let t ← posix_to_astro L time_posix
  let obs ← L.MakeObserver latitude longitude height
  let rot ← L.Rotation_EQJ_HOR t obs
  rotation_to_matrix rot

/-- Source `astro_rotation_ect_eqd_`. -/
def astro_rotation_ect_eqd_ (L : Library) (time_posix : double) : Shim doubles := do
  let t ← posix_to_astro L time_posix
  let rot ← L.Rotation_ECT_EQD t
  rotation_to_matrix rot

/-- Source `astro_rotation_ect_eqj_`. -/
def astro_rotation_ect_eqj_ (L : Library) (time_posix : double) : Shim doubles := do
  let t ← posix_to_astro L time_posix
  let rot ← L.Rotation_ECT_EQJ t
  rotation_to_matrix rot

/-- Source `astro_rotation_ecl_eqd_`. -/
def astro_rotation_ecl_eqd_ (L : Library) (time_posix : double) : Shim doubles := do
  let t ← posix_to_astro L time_posix
  let rot ← L.Rotation_ECL_EQD t
  rotation_to_matrix rot

/-- Source `astro_rotation_ecl_eqj_`. -/
def astro_rotation_ecl_eqj_ (L : Library) : Shim doubles := do
  let rot ← L.Rotation_ECL_EQJ
  rotation_to_matrix rot

/-- Source `astro_rotation_ecl_hor_`. -/
def astro_rotation_ecl_hor_ (L : Library) (time_posix latitude longitude height : double) :
    Shim doubles := do
  let t ← posix_to_astro L time_posix
  let obs ← L.MakeObserver latitude longitude height
  let rot ← L.Rotation_ECL_HOR t obs
  rotation_to_matrix rot

/-- Source `astro_rotation_hor_eqd_`. -/
def astro_rotation_hor_eqd_ (L : Library) (time_posix latitude longitude height : double) :
    Shim doubles := do
  let t ← posix_to_astro L time_posix
  let obs ← L.MakeObserver latitude longitude height
  let rot ← L.Rotation_HOR_EQD t obs
  rotation_to_matrix rot

/-- Source `astro_rotation_hor_eqj_`. -/
def astro_rotation_hor_eqj_ (L : Library) (time_posix latitude longitude height : double) :
    Shim doubles := do
  let t ← posix_to_astro L time_posix
  let obs ← L.MakeObserver latitude longitude height
  let rot ← L.Rotation_HOR_EQJ t obs
  rotation_to_matrix rot

/-- Source `astro_rotation_hor_ecl_`. -/
def astro_rotation_hor_ecl_ (L : Library) (time_posix latitude longitude height : double) :
    Shim doubles := do
  let t ← posix_to_astro L time_posix
  let obs ← L.MakeObserver latitude longitude height
  let rot ← L.Rotation_HOR_ECL t obs
  rotation_to_matrix rot

/-- Source `astro_rotation_eqj_gal_`. -/
def astro_rotation_eqj_gal_ (L : Library) : Shim doubles := do
  let rot ← L.Rotation_EQJ_GAL
  rotation_to_matrix rot

/-- Source `astro_rotation_gal_eqj_`. -/
def astro_rotation_gal_eqj_ (L : Library) : Shim doubles := do
  let rot ← L.Rotation_GAL_EQJ
  rotation_to_matrix rot

/-! ## Properties of runs -/

/-- The status tag of what the library returns for a call, `none` for the entry points
whose result carries no status (times, observers, names, the horizon result, gravity). -/
def LibCall.status (L : Library) : LibCall → Option astro_status_t
  | .Astronomy_TimeFromDays _ => none
  | .Astronomy_MakeObserver _ _ _ => none
  | .Astronomy_VectorObserver _ _ => none
  | .Astronomy_SearchRiseSetEx a1 a2 a3 a4 a5 a6 =>
    some (L.Astronomy_SearchRiseSetEx a1 a2 a3 a4 a5 a6).status
  | .Astronomy_SearchAltitude a1 a2 a3 a4 a5 a6 =>
    some (L.Astronomy_SearchAltitude a1 a2 a3 a4 a5 a6).status
  | .Astronomy_SearchHourAngleEx a1 a2 a3 a4 a5 =>
    some (L.Astronomy_SearchHourAngleEx a1 a2 a3 a4 a5).status
  | .Astronomy_SearchMoonPhase a1 a2 a3 =>
    some (L.Astronomy_SearchMoonPhase a1 a2 a3).status
  | .Astronomy_SearchMoonQuarter a1 => some (L.Astronomy_SearchMoonQuarter a1).status
  | .Astronomy_SearchLunarEclipse a1 => some (L.Astronomy_SearchLunarEclipse a1).status
  | .Astronomy_NextLunarEclipse a1 => some (L.Astronomy_NextLunarEclipse a1).status
  | .Astronomy_SearchGlobalSolarEclipse a1 =>
    some (L.Astronomy_SearchGlobalSolarEclipse a1).status
  | .Astronomy_NextGlobalSolarEclipse a1 =>
    some (L.Astronomy_NextGlobalSolarEclipse a1).status
  | .Astronomy_SearchLocalSolarEclipse a1 a2 =>
    some (L.Astronomy_SearchLocalSolarEclipse a1 a2).status
  | .Astronomy_NextLocalSolarEclipse a1 a2 =>
    some (L.Astronomy_NextLocalSolarEclipse a1 a2).status
  | .Astronomy_SearchTransit a1 a2 => some (L.Astronomy_SearchTransit a1 a2).status
  | .Astronomy_NextTransit a1 a2 => some (L.Astronomy_NextTransit a1 a2).status
  | .Astronomy_SearchLunarApsis a1 => some (L.Astronomy_SearchLunarApsis a1).status
  | .Astronomy_NextLunarApsis a1 => some (L.Astronomy_NextLunarApsis a1).status
  | .Astronomy_SearchPlanetApsis a1 a2 => some (L.Astronomy_SearchPlanetApsis a1 a2).status
  | .Astronomy_NextPlanetApsis a1 a2 => some (L.Astronomy_NextPlanetApsis a1 a2).status
  | .Astronomy_SearchPeakMagnitude a1 a2 =>
    some (L.Astronomy_SearchPeakMagnitude a1 a2).status
  | .Astronomy_SearchMaxElongation a1 a2 =>
    some (L.Astronomy_SearchMaxElongation a1 a2).status
  | .Astronomy_SearchRelativeLongitude a1 a2 a3 =>
    some (L.Astronomy_SearchRelativeLongitude a1 a2 a3).status
  | .Astronomy_SearchSunLongitude a1 a2 a3 =>
    some (L.Astronomy_SearchSunLongitude a1 a2 a3).status
  | .Astronomy_InverseRotation a1 => some (L.Astronomy_InverseRotation a1).status
  | .Astronomy_CombineRotation a1 a2 => some (L.Astronomy_CombineRotation a1 a2).status
  | .Astronomy_Pivot a1 a2 a3 => some (L.Astronomy_Pivot a1 a2 a3).status
  | .Astronomy_RotateVector a1 a2 => some (L.Astronomy_RotateVector a1 a2).status
  | .Astronomy_CurrentTime => none
  | .Astronomy_MakeTime _ _ _ _ _ _ => none
  | .Astronomy_BodyName _ => none
  | .Astronomy_BodyCode _ => none
  | .Astronomy_HelioVector a1 a2 => some (L.Astronomy_HelioVector a1 a2).status
  | .Astronomy_Equator a1 a2 a3 a4 a5 => some (L.Astronomy_Equator a1 a2 a3 a4 a5).status
  | .Astronomy_SunPosition a1 => some (L.Astronomy_SunPosition a1).status
  | .Astronomy_Ecliptic a1 => some (L.Astronomy_Ecliptic a1).status
  | .Astronomy_EclipticLongitude a1 a2 => some (L.Astronomy_EclipticLongitude a1 a2).status
  | .Astronomy_Horizon _ _ _ _ _ => none
  | .Astronomy_PairLongitude a1 a2 a3 => some (L.Astronomy_PairLongitude a1 a2 a3).status
  | .Astronomy_GeoVector a1 a2 a3 => some (L.Astronomy_GeoVector a1 a2 a3).status
  | .Astronomy_BaryState a1 a2 => some (L.Astronomy_BaryState a1 a2).status
  | .Astronomy_ObserverVector a1 a2 a3 => some (L.Astronomy_ObserverVector a1 a2 a3).status
  | .Astronomy_ObserverState a1 a2 a3 => some (L.Astronomy_ObserverState a1 a2 a3).status
  | .Astronomy_ObserverGravity _ _ => none
  | .Astronomy_HourAngle a1 a2 a3 => some (L.Astronomy_HourAngle a1 a2 a3).status
  | .Astronomy_MoonPhase a1 => some (L.Astronomy_MoonPhase a1).status
  | .Astronomy_NextMoonQuarter a1 => some (L.Astronomy_NextMoonQuarter a1).status
  | .Astronomy_Illumination a1 a2 => some (L.Astronomy_Illumination a1 a2).status
  | .Astronomy_AngleFromSun a1 a2 => some (L.Astronomy_AngleFromSun a1 a2).status
  | .Astronomy_Elongation a1 a2 => some (L.Astronomy_Elongation a1 a2).status
  | .Astronomy_Seasons a1 => some (L.Astronomy_Seasons a1).status
  | .Astronomy_Constellation a1 a2 => some (L.Astronomy_Constellation a1 a2).status
  | .Astronomy_HelioDistance a1 a2 => some (L.Astronomy_HelioDistance a1 a2).status
  | .Astronomy_IdentityMatrix => some (L.Astronomy_IdentityMatrix).status
  | .Astronomy_VectorFromSphere a1 a2 => some (L.Astronomy_VectorFromSphere a1 a2).status
  | .Astronomy_SphereFromVector a1 => some (L.Astronomy_SphereFromVector a1).status
  | .Astronomy_EquatorFromVector a1 => some (L.Astronomy_EquatorFromVector a1).status
  | .Astronomy_VectorFromHorizon a1 a2 a3 =>
    some (L.Astronomy_VectorFromHorizon a1 a2 a3).status
  | .Astronomy_HorizonFromVector a1 a2 => some (L.Astronomy_HorizonFromVector a1 a2).status
  | .Astronomy_Rotation_EQD_EQJ a1 => some (L.Astronomy_Rotation_EQD_EQJ a1).status
  | .Astronomy_Rotation_EQD_ECT a1 => some (L.Astronomy_Rotation_EQD_ECT a1).status
  | .Astronomy_Rotation_EQD_ECL a1 => some (L.Astronomy_Rotation_EQD_ECL a1).status
  | .Astronomy_Rotation_EQD_HOR a1 a2 => some (L.Astronomy_Rotation_EQD_HOR a1 a2).status
  | .Astronomy_Rotation_EQJ_EQD a1 => some (L.Astronomy_Rotation_EQJ_EQD a1).status
  | .Astronomy_Rotation_EQJ_ECT a1 => some (L.Astronomy_Rotation_EQJ_ECT a1).status
  | .Astronomy_Rotation_EQJ_ECL => some (L.Astronomy_Rotation_EQJ_ECL).status
  | .Astronomy_Rotation_EQJ_HOR a1 a2 => some (L.Astronomy_Rotation_EQJ_HOR a1 a2).status
  | .Astronomy_Rotation_ECT_EQD a1 => some (L.Astronomy_Rotation_ECT_EQD a1).status
  | .Astronomy_Rotation_ECT_EQJ a1 => some (L.Astronomy_Rotation_ECT_EQJ a1).status
  | .Astronomy_Rotation_ECL_EQD a1 => some (L.Astronomy_Rotation_ECL_EQD a1).status
  | .Astronomy_Rotation_ECL_EQJ => some (L.Astronomy_Rotation_ECL_EQJ).status
  | .Astronomy_Rotation_ECL_HOR a1 a2 => some (L.Astronomy_Rotation_ECL_HOR a1 a2).status
  | .Astronomy_Rotation_HOR_EQD a1 a2 => some (L.Astronomy_Rotation_HOR_EQD a1 a2).status
  | .Astronomy_Rotation_HOR_EQJ a1 a2 => some (L.Astronomy_Rotation_HOR_EQJ a1 a2).status
  | .Astronomy_Rotation_HOR_ECL a1 a2 => some (L.Astronomy_Rotation_HOR_ECL a1 a2).status
  | .Astronomy_Rotation_EQJ_GAL => some (L.Astronomy_Rotation_EQJ_GAL).status
  | .Astronomy_Rotation_GAL_EQJ => some (L.Astronomy_Rotation_GAL_EQJ).status

/-- The run `s` keeps faith with the status codes it receives: whenever a call in its log
returned a status `N` other than SUCCESS (and, when `absence` is set, other than
SEARCH_FAILURE), the run ended in an error whose message contains the decimal rendering
of `N`; so it returned no payload. -/
def ReportsStatus {α : Type} (L : Library) (absence : Bool) (s : Shim α) : Prop :=
  ∀ c ∈ s.calls, ∀ N, c.status L = some N → N ≠ ASTRO_SUCCESS →
    (absence = true → N ≠ ASTRO_SEARCH_FAILURE) →
    ∃ e, s.result = .error e ∧ (toString N).toList <:+: e.message

/-- The format is literal text without `%`, followed by one final `%d`: the shape of
every status message in the wrapper. -/
def status_format : List Char → Bool
  | [] => false
  | c :: rest => if c = '%' then rest == ['d'] else status_format rest

/-! ## Calendar arithmetic for the epoch offset -/

/-- Gregorian leap years. -/
def is_leap_year (year : Nat) : Bool :=
  (year % 4 == 0 && year % 100 != 0) || year % 400 == 0

/-- Days in a Gregorian calendar year. -/
def days_in_year (year : Nat) : Nat := if is_leap_year year then 366 else 365

/-- Calendar days from 1 January of `first` to 1 January of `last`. -/
def days_between_new_years (first last : Nat) : Nat :=
  ((List.range (last - first)).map fun i => days_in_year (first + i)).sum

/-- Seconds from 1970-01-01 00:00:00 UTC to 2000-01-01 12:00:00 UTC at 86400 seconds per
calendar day: whole days to 2000-01-01, then twelve hours. This follows the spec's
description of the epoch offset, to be compared with the constant in the source. -/
def spec_epoch_offset : Nat :=
  86400 * days_between_new_years 1970 2000 + 12 * 3600

/-! ## A concrete library, for evaluating the shims -/

/-- The status the sample library reports for a search from `t`: nothing is found when
the search starts exactly at J2000.0, and the search succeeds otherwise. -/
def sample_status (t : astro_time_t) : astro_status_t :=
  if t.ut = .val 0 then ASTRO_SEARCH_FAILURE else ASTRO_SUCCESS

/-- A small concrete library: times store their argument, searches answer at their start
time with `sample_status`, rotations and vectors are passed through. -/
def sampleLibrary : Library where
  Astronomy_TimeFromDays := fun ut => ⟨ut, ut⟩
  Astronomy_MakeObserver := fun lat lon h => ⟨lat, lon, h⟩
  Astronomy_VectorObserver := fun v _ => ⟨v.x, v.y, v.z⟩
  Astronomy_SearchRiseSetEx := fun _ _ _ t _ _ => ⟨t, sample_status t⟩
  Astronomy_SearchAltitude := fun _ _ _ t _ _ => ⟨t, sample_status t⟩
  Astronomy_SearchHourAngleEx := fun _ o h t _ =>
    ⟨sample_status t, t, ⟨h, h, o.longitude, o.latitude⟩⟩
  Astronomy_SearchMoonPhase := fun _ t _ => ⟨t, sample_status t⟩
  Astronomy_SearchMoonQuarter := fun t => ⟨sample_status t, 0, t⟩
  Astronomy_SearchLunarEclipse := fun t =>
    ⟨sample_status t, 0, .val 1, t, .val 1, .val 1, .val 1⟩
  Astronomy_NextLunarEclipse := fun t =>
    ⟨sample_status t, 0, .val 1, t, .val 1, .val 1, .val 1⟩
  Astronomy_SearchGlobalSolarEclipse := fun t =>
    ⟨sample_status t, 0, .val 1, t, .val 1, .val 1, .val 1⟩
  Astronomy_NextGlobalSolarEclipse := fun t =>
    ⟨sample_status t, 0, .val 1, t, .val 1, .val 1, .val 1⟩
  Astronomy_SearchLocalSolarEclipse := fun t o =>
    ⟨sample_status t, 0, .val 1, ⟨t, o.height⟩, ⟨t, o.height⟩, ⟨t, o.height⟩,
      ⟨t, o.height⟩, ⟨t, o.height⟩⟩
  Astronomy_NextLocalSolarEclipse := fun t o =>
    ⟨sample_status t, 0, .val 1, ⟨t, o.height⟩, ⟨t, o.height⟩, ⟨t, o.height⟩,
      ⟨t, o.height⟩, ⟨t, o.height⟩⟩
  Astronomy_SearchTransit := fun _ t => ⟨sample_status t, t, t, t, .val 1⟩
  Astronomy_NextTransit := fun _ t => ⟨sample_status t, t, t, t, .val 1⟩
  Astronomy_SearchLunarApsis := fun t => ⟨sample_status t, t, 0, .val 1, .val 1⟩
  Astronomy_NextLunarApsis := fun a => a
  Astronomy_SearchPlanetApsis := fun _ t => ⟨sample_status t, t, 0, .val 1, .val 1⟩
  Astronomy_NextPlanetApsis := fun _ a => a
  Astronomy_SearchPeakMagnitude := fun _ t =>
    ⟨sample_status t, t, .val 1, .val 1, .val 1, .val 1, .val 1⟩
  Astronomy_SearchMaxElongation := fun _ t => ⟨sample_status t, t, 0, .val 1, .val 1⟩
  Astronomy_SearchRelativeLongitude := fun _ _ t => ⟨t, sample_status t⟩
  Astronomy_SearchSunLongitude := fun _ t _ => ⟨t, sample_status t⟩
  Astronomy_InverseRotation := fun r => r
  Astronomy_CombineRotation := fun a _ => a
  Astronomy_Pivot := fun r _ _ => r
  Astronomy_RotateVector := fun _ v => v
  Astronomy_MakeTime := fun _ _ _ _ _ second => ⟨.val 0, second⟩
  Astronomy_BodyName := fun _ => "Sun"
  Astronomy_BodyCode := fun _ => 10
  Astronomy_HelioVector := fun _ time => ⟨sample_status time, .val 1, .val 2, .val 3, time⟩
  Astronomy_Equator := fun _ time _ _ _ => ⟨sample_status time, .val 1, .val 2, .val 3,
      ⟨sample_status time, .val 1, .val 2, .val 3, time⟩⟩
  Astronomy_SunPosition := fun time =>
    ⟨sample_status time, ⟨sample_status time, .val 1, .val 2, .val 3, time⟩,
      .val 4, .val 5⟩
  Astronomy_Ecliptic := fun eqj => ⟨sample_status eqj.t, eqj, .val 4, .val 5⟩
  Astronomy_EclipticLongitude := fun _ time => ⟨sample_status time, .val 1⟩
  Astronomy_Horizon := fun _ observer ra dec _ =>
    ⟨observer.height, observer.latitude, ra, dec⟩
  Astronomy_PairLongitude := fun _ _ time => ⟨sample_status time, .val 1⟩
  Astronomy_GeoVector := fun _ time _ => ⟨sample_status time, .val 1, .val 2, .val 3, time⟩
  Astronomy_BaryState := fun _ time =>
    ⟨sample_status time, .val 1, .val 2, .val 3, .val 4, .val 5, .val 6, time⟩
  Astronomy_ObserverVector := fun time _ _ =>
    ⟨sample_status time, .val 1, .val 2, .val 3, time⟩
  Astronomy_ObserverState := fun time _ _ =>
    ⟨sample_status time, .val 1, .val 2, .val 3, .val 4, .val 5, .val 6, time⟩
  Astronomy_ObserverGravity := fun latitude _ => latitude
  Astronomy_HourAngle := fun _ time _ => ⟨sample_status time, .val 1⟩
  Astronomy_MoonPhase := fun time => ⟨sample_status time, .val 1⟩
  Astronomy_NextMoonQuarter := fun mq => ⟨sample_status mq.time, mq.quarter, mq.time⟩
  Astronomy_Illumination := fun _ time =>
    ⟨sample_status time, time, .val 1, .val 1, .val 1, .val 1, .val 1⟩
  Astronomy_AngleFromSun := fun _ time => ⟨sample_status time, .val 1⟩
  Astronomy_Elongation := fun _ time => ⟨sample_status time, time, 0, .val 1, .val 1⟩
  Astronomy_Seasons := fun year =>
    ⟨if year = 0 then ASTRO_SEARCH_FAILURE else ASTRO_SUCCESS, ⟨.val 1, .val 1⟩,
      ⟨.val 2, .val 2⟩, ⟨.val 3, .val 3⟩, ⟨.val 4, .val 4⟩⟩
  Astronomy_Constellation := fun ra dec =>
    ⟨if ra = .nan then ASTRO_SEARCH_FAILURE else ASTRO_SUCCESS, "Ori", "Orion", ra, dec⟩
  Astronomy_HelioDistance := fun _ time => ⟨sample_status time, .val 1⟩
  Astronomy_IdentityMatrix := ⟨ASTRO_SUCCESS, fun i j => if i = j then .val 1 else .val 0⟩
  Astronomy_VectorFromSphere := fun sphere time =>
    ⟨sample_status time, sphere.lat, sphere.lon, sphere.dist, time⟩
  Astronomy_SphereFromVector := fun vector =>
    ⟨sample_status vector.t, vector.x, vector.y, vector.z⟩
  Astronomy_EquatorFromVector := fun vector =>
    ⟨sample_status vector.t, vector.x, vector.y, vector.z, vector⟩
  Astronomy_VectorFromHorizon := fun sphere time _ =>
    ⟨sample_status time, sphere.lat, sphere.lon, sphere.dist, time⟩
  Astronomy_HorizonFromVector := fun vector _ =>
    ⟨sample_status vector.t, vector.x, vector.y, vector.z⟩
  Astronomy_Rotation_EQD_EQJ := fun time =>
    ⟨sample_status time, fun i j => if i = j then .val 1 else .val 0⟩
  Astronomy_Rotation_EQD_ECT := fun time =>
    ⟨sample_status time, fun i j => if i = j then .val 1 else .val 0⟩
  Astronomy_Rotation_EQD_ECL := fun time =>
    ⟨sample_status time, fun i j => if i = j then .val 1 else .val 0⟩
  Astronomy_Rotation_EQD_HOR := fun time _ =>
    ⟨sample_status time, fun i j => if i = j then .val 1 else .val 0⟩
  Astronomy_Rotation_EQJ_EQD := fun time =>
    ⟨sample_status time, fun i j => if i = j then .val 1 else .val 0⟩
  Astronomy_Rotation_EQJ_ECT := fun time =>
    ⟨sample_status time, fun i j => if i = j then .val 1 else .val 0⟩
  Astronomy_Rotation_EQJ_ECL := ⟨ASTRO_SUCCESS, fun i j => if i = j then .val 1 else .val 0⟩
  Astronomy_Rotation_EQJ_HOR := fun time _ =>
    ⟨sample_status time, fun i j => if i = j then .val 1 else .val 0⟩
  Astronomy_Rotation_ECT_EQD := fun time =>
    ⟨sample_status time, fun i j => if i = j then .val 1 else .val 0⟩
  Astronomy_Rotation_ECT_EQJ := fun time =>
    ⟨sample_status time, fun i j => if i = j then .val 1 else .val 0⟩
  Astronomy_Rotation_ECL_EQD := fun time =>
    ⟨sample_status time, fun i j => if i = j then .val 1 else .val 0⟩
  Astronomy_Rotation_ECL_EQJ := ⟨ASTRO_SUCCESS, fun i j => if i = j then .val 1 else .val 0⟩
  Astronomy_Rotation_ECL_HOR := fun time _ =>
    ⟨sample_status time, fun i j => if i = j then .val 1 else .val 0⟩
  Astronomy_Rotation_HOR_EQD := fun time _ =>
    ⟨sample_status time, fun i j => if i = j then .val 1 else .val 0⟩
  Astronomy_Rotation_HOR_EQJ := fun time _ =>
    ⟨sample_status time, fun i j => if i = j then .val 1 else .val 0⟩
  Astronomy_Rotation_HOR_ECL := fun time _ =>
    ⟨sample_status time, fun i j => if i = j then .val 1 else .val 0⟩
  Astronomy_Rotation_EQJ_GAL := ⟨ASTRO_SUCCESS, fun i j => if i = j then .val 1 else .val 0⟩
  Astronomy_Rotation_GAL_EQJ := ⟨ASTRO_SUCCESS, fun i j => if i = j then .val 1 else .val 0⟩

/-- A host array of nine numbers, 1 to 9. -/
def sample_matrix : doubles :=
  ⟨[.val 1, .val 2, .val 3, .val 4, .val 5, .val 6, .val 7, .val 8, .val 9], none⟩

/-- A host array of eight numbers: not a rotation. -/
def sample_short_matrix : doubles :=
  ⟨[.val 1, .val 2, .val 3, .val 4, .val 5, .val 6, .val 7, .val 8], none⟩

/-- A rotation with status SUCCESS whose entry at `row`, `col` is `10 * row + col`. -/
def sample_rotation : astro_rotation_t :=
  { status := ASTRO_SUCCESS
    rot := ![![.val 0, .val 1, .val 2], ![.val 10, .val 11, .val 12],
             ![.val 20, .val 21, .val 22]] }

/-- A vector record without the key z. -/
def sample_vector_without_z : list :=
  [("x", as_sexp_double (.val 1)), ("y", as_sexp_double (.val 2)),
   ("t", as_sexp_double (.val 946728000))]

/-- A well-formed vector record: x = 1, y = 2, z = 3 at 946728000 seconds. -/
def sample_vector : list :=
  [("x", as_sexp_double (.val 1)), ("y", as_sexp_double (.val 2)),
   ("z", as_sexp_double (.val 3)), ("t", as_sexp_double (.val 946728000))]

/-- A well-formed spherical record: lat = 1, lon = 2, dist = 3. -/
def sample_sphere : list :=
  [("lat", as_sexp_double (.val 1)), ("lon", as_sexp_double (.val 2)),
   ("dist", as_sexp_double (.val 3))]

/-! ## Theorems -/

section ShimLemmas

variable {α β : Type}

@[simp] theorem Shim.pure_eq (a : α) : (pure a : Shim α) = ⟨[], .ok a⟩ := rfl

@[simp] theorem Shim.bind_eq (m : Shim α) (f : α → Shim β) :
    (m >>= f) = Shim.andThen m f := rfl

@[simp] theorem Shim.andThen_ok (c : List LibCall) (a : α) (f : α → Shim β) :
    Shim.andThen ⟨c, .ok a⟩ f = ⟨c ++ (f a).calls, (f a).result⟩ := rfl

@[simp] theorem Shim.andThen_error (c : List LibCall) (e : HostError) (f : α → Shim β) :
    Shim.andThen ⟨c, .error e⟩ f = ⟨c, .error e⟩ := rfl

end ShimLemmas

/-- The days handed to `Astronomy_TimeFromDays` by `posix_to_astro`, as a closed form. -/
theorem posix_to_astro_eq (L : Library) (posix_sec : double) :
    posix_to_astro L posix_sec =
      ⟨[.Astronomy_TimeFromDays ((posix_sec - .val 946728000) / .val 86400)],
        .ok (L.Astronomy_TimeFromDays ((posix_sec - .val 946728000) / .val 86400))⟩ := rfl

/-- Subtracting the epoch offset and dividing by the day length, on rationals. -/
theorem double.sub_div_val (p c d : ℚ) (hd : d ≠ 0) :
    ((double.val p - double.val c) / double.val d : double) = double.val ((p - c) / d) := by
  show double.div (double.sub _ _) _ = _
  simp [double.sub, double.div, hd]

/-- Multiplying by the day length and adding the epoch offset, on rationals. -/
theorem double.mul_add_val (u d c : ℚ) :
    (double.val u * double.val d + double.val c : double) = double.val (u * d + c) := rfl

/-- Claim C1: for every posixSeconds, converting to the library's time with
`posix_to_astro` (the library's `Astronomy_TimeFromDays` storing its argument as `ut`)
and back with `astro_to_posix` returns posixSeconds, over exact arithmetic. -/
theorem posix_round_trip (L : Library)
    (hL : ∀ d, (L.Astronomy_TimeFromDays d).ut = d) (posixSeconds : double) :
    ∃ t, (posix_to_astro L posixSeconds).result = .ok t ∧
      astro_to_posix t = posixSeconds := by
  refine ⟨_, by rw [posix_to_astro_eq], ?_⟩
  unfold astro_to_posix
  rw [hL]
  cases posixSeconds with
  | nan => rfl
  | val p =>
    rw [double.sub_div_val p _ _ (by norm_num), double.mul_add_val]
    congr 1
    ring

/-- The round trip of C1 at one billion seconds, on the sample library. -/
theorem posix_round_trip_witness :
    (∀ d, (sampleLibrary.Astronomy_TimeFromDays d).ut = d) ∧
      ∃ t, (posix_to_astro sampleLibrary (.val 1000000000)).result = .ok t ∧
        astro_to_posix t = .val 1000000000 :=
  ⟨fun _ => rfl, posix_round_trip sampleLibrary (fun _ => rfl) (.val 1000000000)⟩

/-- Claim C2: `posix_to_astro` applied to 946728000 seconds makes one library call,
`Astronomy_TimeFromDays` of exactly 0 days, and returns what that call returns; and
`astro_to_posix` of a time with `ut = 0` is exactly 946728000. -/
theorem j2000_fixed_point (L : Library) (tt : double) :
    (posix_to_astro L (.val 946728000)).calls = [.Astronomy_TimeFromDays (.val 0)] ∧
      (posix_to_astro L (.val 946728000)).result =
        .ok (L.Astronomy_TimeFromDays (.val 0)) ∧
      astro_to_posix ⟨.val 0, tt⟩ = .val 946728000 := by
  have h : ((double.val 946728000 - double.val 946728000) / double.val 86400 : double)
      = double.val 0 := by
    rw [double.sub_div_val _ _ _ (by norm_num)]; norm_num
  refine ⟨?_, ?_, ?_⟩
  · rw [posix_to_astro_eq, h]
  · rw [posix_to_astro_eq, h]
  · unfold astro_to_posix
    rw [double.mul_add_val]; norm_num

/-- Claim C3: for every library time `t`, converting `astro_to_posix t` back with
`posix_to_astro` hands `Astronomy_TimeFromDays` exactly `t.ut` days, that is
`((d * 86400 + 946728000) - 946728000) / 86400 = d` over exact arithmetic, and returns
what the library returns for `t.ut`. -/
theorem astro_round_trip (L : Library) (t : astro_time_t) :
    ((t.ut * .val 86400 + .val 946728000 - .val 946728000) / .val 86400 : double) = t.ut ∧
      (posix_to_astro L (astro_to_posix t)).calls = [.Astronomy_TimeFromDays t.ut] ∧
      (posix_to_astro L (astro_to_posix t)).result =
        .ok (L.Astronomy_TimeFromDays t.ut) := by
  have h : ((t.ut * .val 86400 + .val 946728000 - .val 946728000) / .val 86400 : double)
      = t.ut := by
    cases t.ut with
    | nan => rfl
    | val d =>
      rw [double.mul_add_val, double.sub_div_val _ _ _ (by norm_num)]
      congr 1
      field_simp
  refine ⟨h, ?_, ?_⟩
  · rw [posix_to_astro_eq]; unfold astro_to_posix; rw [h]
  · rw [posix_to_astro_eq]; unfold astro_to_posix; rw [h]

/-- A list of length nine is its nine elements. -/
theorem list_of_length_nine {α : Type} (l : List α) (h : l.length = 9) :
    ∃ a0 a1 a2 a3 a4 a5 a6 a7 a8, l = [a0, a1, a2, a3, a4, a5, a6, a7, a8] := by
  match l, h with
  | [a0, a1, a2, a3, a4, a5, a6, a7, a8], _ => exact ⟨a0, a1, a2, a3, a4, a5, a6, a7, a8, rfl⟩

/-- Source `matrix_to_rotation` on an array of the nine elements given. -/
theorem matrix_to_rotation_nine (a0 a1 a2 a3 a4 a5 a6 a7 a8 : double)
    (dim : Option (List Int)) :
    matrix_to_rotation ⟨[a0, a1, a2, a3, a4, a5, a6, a7, a8], dim⟩ =
      ⟨[], .ok { status := ASTRO_SUCCESS
                 rot := ![![a0, a3, a6], ![a1, a4, a7], ![a2, a5, a8]] }⟩ := rfl

/-- Source `matrix_to_rotation` on an array whose length is not nine. -/
theorem matrix_to_rotation_bad_length (mat : doubles) (h : mat.data.length ≠ 9) :
    matrix_to_rotation mat =
      ⟨[], .error (.stop "Rotation matrix must have exactly 9 elements" [])⟩ := by
  unfold matrix_to_rotation
  rw [dif_pos h]
  rfl

/-- Source `rotation_to_matrix` on a rotation with status `ASTRO_SUCCESS`. -/
theorem rotation_to_matrix_success (rot : astro_rotation_t)
    (h : rot.status = ASTRO_SUCCESS) :
    rotation_to_matrix rot =
      ⟨[], .ok ⟨[rot.rot 0 0, rot.rot 1 0, rot.rot 2 0, rot.rot 0 1, rot.rot 1 1,
        rot.rot 2 1, rot.rot 0 2, rot.rot 1 2, rot.rot 2 2], some [3, 3]⟩⟩ := by
  simp [rotation_to_matrix, h, List.replicate]

/-- Claim C4: on ingestion, `matrix_to_rotation` applied to any 9-element array
`external` makes no library call and returns a rotation `internal` with status SUCCESS
and `internal[row][col] = external[3*col+row]` for every row and col in 0, 1, 2. -/
theorem matrix_to_rotation_transposes (external : doubles)
    (h : external.data.length = 9) :
    ∃ internal, matrix_to_rotation external = ⟨[], .ok internal⟩ ∧
      internal.status = ASTRO_SUCCESS ∧
      ∀ row col : Fin 3,
        external.data[3 * col.val + row.val]? = some (internal.rot row col) := by
  obtain ⟨data, dim⟩ := external
  obtain ⟨a0, a1, a2, a3, a4, a5, a6, a7, a8, rfl⟩ := list_of_length_nine data h
  refine ⟨_, matrix_to_rotation_nine a0 a1 a2 a3 a4 a5 a6 a7 a8 dim, rfl, ?_⟩
  intro row col
  fin_cases row <;> fin_cases col <;> rfl

/-- Ingestion of C4 on the array 1 to 9. -/
theorem matrix_to_rotation_transposes_witness :
    sample_matrix.data.length = 9 ∧
      ∃ internal, matrix_to_rotation sample_matrix = ⟨[], .ok internal⟩ ∧
        internal.status = ASTRO_SUCCESS ∧
        ∀ row col : Fin 3,
          sample_matrix.data[3 * col.val + row.val]? = some (internal.rot row col) :=
  ⟨rfl, matrix_to_rotation_transposes sample_matrix rfl⟩

/-- Claim C5: on emission, `rotation_to_matrix` applied to any rotation `internal` with
status SUCCESS makes no library call and returns a 9-element array `external` with
`dim` 3 by 3 such that `external[3*col+row] = internal[row][col]` for every row and col
in 0, 1, 2. -/
theorem rotation_to_matrix_transposes (internal : astro_rotation_t)
    (h : internal.status = ASTRO_SUCCESS) :
    ∃ external, rotation_to_matrix internal = ⟨[], .ok external⟩ ∧
      external.data.length = 9 ∧ external.dim = some [3, 3] ∧
      ∀ row col : Fin 3,
        external.data[3 * col.val + row.val]? = some (internal.rot row col) := by
  refine ⟨_, rotation_to_matrix_success internal h, rfl, rfl, ?_⟩
  intro row col
  fin_cases row <;> fin_cases col <;> rfl

/-- Emission of C5 on the sample rotation. -/
theorem rotation_to_matrix_transposes_witness :
    sample_rotation.status = ASTRO_SUCCESS ∧
      ∃ external, rotation_to_matrix sample_rotation = ⟨[], .ok external⟩ ∧
        external.data.length = 9 ∧ external.dim = some [3, 3] ∧
        ∀ row col : Fin 3,
          external.data[3 * col.val + row.val]? = some (sample_rotation.rot row col) :=
  ⟨rfl, rotation_to_matrix_transposes sample_rotation rfl⟩

/-- Claim C6: for every 9-element array `m`, `rotation_to_matrix (matrix_to_rotation m)`
succeeds, without a library call, and returns the same nine values in the same
positions as `m` (with `dim` 3 by 3). -/
theorem rotation_marshalling_round_trip (m : doubles) (h : m.data.length = 9) :
    (matrix_to_rotation m >>= rotation_to_matrix) = ⟨[], .ok ⟨m.data, some [3, 3]⟩⟩ := by
  obtain ⟨data, dim⟩ := m
  obtain ⟨a0, a1, a2, a3, a4, a5, a6, a7, a8, rfl⟩ := list_of_length_nine data h
  rw [matrix_to_rotation_nine, Shim.bind_eq, Shim.andThen_ok,
    rotation_to_matrix_success _ rfl]
  rfl

/-- The round trip of C6 on the array 1 to 9. -/
theorem rotation_marshalling_round_trip_witness :
    sample_matrix.data.length = 9 ∧
      (matrix_to_rotation sample_matrix >>= rotation_to_matrix) =
        ⟨[], .ok ⟨sample_matrix.data, some [3, 3]⟩⟩ :=
  ⟨rfl, rotation_marshalling_round_trip sample_matrix rfl⟩

/-- Claim C7: in every shim that takes a rotation array (`astro_inverse_rotation_`,
`astro_combine_rotation_` in either argument, `astro_pivot_`, `astro_rotate_vector_`), a
rotation argument whose length is not 9 makes the shim fail with the invalid-shape
error, and the list of library calls made before the failure is empty. -/
theorem rotation_shape_checked_before_library (L : Library) (bad : doubles)
    (h : bad.data.length ≠ 9) :
    astro_inverse_rotation_ L bad =
        ⟨[], .error (.stop "Rotation matrix must have exactly 9 elements" [])⟩ ∧
      (∀ b, astro_combine_rotation_ L bad b =
        ⟨[], .error (.stop "Rotation matrix must have exactly 9 elements" [])⟩) ∧
      (∀ a, astro_combine_rotation_ L a bad =
        ⟨[], .error (.stop "Rotation matrix must have exactly 9 elements" [])⟩) ∧
      (∀ axis angle, astro_pivot_ L bad axis angle =
        ⟨[], .error (.stop "Rotation matrix must have exactly 9 elements" [])⟩) ∧
      (∀ vector, astro_rotate_vector_ L bad vector =
        ⟨[], .error (.stop "Rotation matrix must have exactly 9 elements" [])⟩) := by
  have hb := matrix_to_rotation_bad_length bad h
  refine ⟨?_, ?_, ?_, ?_, ?_⟩
  · simp [astro_inverse_rotation_, hb]
  · intro b
    simp [astro_combine_rotation_, hb]
  · intro a
    by_cases ha : a.data.length = 9
    · obtain ⟨data, dim⟩ := a
      obtain ⟨a0, a1, a2, a3, a4, a5, a6, a7, a8, rfl⟩ := list_of_length_nine data ha
      simp [astro_combine_rotation_, hb, matrix_to_rotation_nine]
    · simp [astro_combine_rotation_, matrix_to_rotation_bad_length a ha]
  · intro axis angle
    simp [astro_pivot_, hb]
  · intro vector
    simp [astro_rotate_vector_, hb]

/-- The shape check of C7 on an array of eight elements, with the sample library. -/
theorem rotation_shape_checked_before_library_witness :
    sample_short_matrix.data.length ≠ 9 ∧
      astro_inverse_rotation_ sampleLibrary sample_short_matrix =
        ⟨[], .error (.stop "Rotation matrix must have exactly 9 elements" [])⟩ ∧
      astro_combine_rotation_ sampleLibrary sample_matrix sample_short_matrix =
        ⟨[], .error (.stop "Rotation matrix must have exactly 9 elements" [])⟩ :=
  have w := rotation_shape_checked_before_library sampleLibrary sample_short_matrix
    (by decide)
  ⟨by decide, w.1, w.2.2.1 sample_matrix⟩

/-- Reading a key that a record does not have gives `R_NilValue`. -/
theorem list.at_absent (l : list) (name : String) (h : name ∉ l.keys) :
    l.at name = .nil := by
  have hfind : l.find? (fun p => p.1 == name) = none := by
    rw [List.find?_eq_none]
    intro p hp hname
    exact h (by
      rw [list.keys, List.mem_map]
      exact ⟨p, hp, by simpa using hname⟩)
  unfold list.at
  rw [hfind]

/-- The host's `as_cpp<double>` makes no library call, and either gives a number or
throws its one error. -/
theorem as_cpp_double_cases (s : SEXP) :
    (∃ x, as_cpp_double s = ⟨[], .ok x⟩) ∨
      as_cpp_double s = ⟨[], .error (.length_error "Expected single double value")⟩ := by
  unfold as_cpp_double
  split
  · exact Or.inl ⟨_, rfl⟩
  · exact Or.inl ⟨_, rfl⟩
  · exact Or.inr rfl

/-- Source `list_to_vector` fails, before any library call, as soon as one of the four
reads fails. -/
theorem list_to_vector_fails (L : Library) (vec_list : list)
    (h : as_cpp_double (vec_list.at "x") =
          ⟨[], .error (.length_error "Expected single double value")⟩ ∨
        as_cpp_double (vec_list.at "y") =
          ⟨[], .error (.length_error "Expected single double value")⟩ ∨
        as_cpp_double (vec_list.at "z") =
          ⟨[], .error (.length_error "Expected single double value")⟩ ∨
        as_cpp_double (vec_list.at "t") =
          ⟨[], .error (.length_error "Expected single double value")⟩) :
    list_to_vector L vec_list =
      ⟨[], .error (.length_error "Expected single double value")⟩ := by
  rcases as_cpp_double_cases (vec_list.at "x") with ⟨x, hx⟩ | hx <;>
  rcases as_cpp_double_cases (vec_list.at "y") with ⟨y, hy⟩ | hy <;>
  rcases as_cpp_double_cases (vec_list.at "z") with ⟨z, hz⟩ | hz <;>
  rcases as_cpp_double_cases (vec_list.at "t") with ⟨t, ht⟩ | ht <;>
  first
    | (exfalso; simp [hx, hy, hz, ht] at h; done)
    | simp [list_to_vector, hx, hy, hz, ht]

/-- Source `astro_vector_observer_` fails, before any library call, as soon as one of
the four reads fails. -/
theorem astro_vector_observer_fails (L : Library) (status : astro_status_t)
    (vector : list) (of_date : Bool)
    (h : as_cpp_double (vector.at "x") =
          ⟨[], .error (.length_error "Expected single double value")⟩ ∨
        as_cpp_double (vector.at "y") =
          ⟨[], .error (.length_error "Expected single double value")⟩ ∨
        as_cpp_double (vector.at "z") =
          ⟨[], .error (.length_error "Expected single double value")⟩ ∨
        as_cpp_double (vector.at "t") =
          ⟨[], .error (.length_error "Expected single double value")⟩) :
    astro_vector_observer_ L status vector of_date =
      ⟨[], .error (.length_error "Expected single double value")⟩ := by
  rcases as_cpp_double_cases (vector.at "x") with ⟨x, hx⟩ | hx <;>
  rcases as_cpp_double_cases (vector.at "y") with ⟨y, hy⟩ | hy <;>
  rcases as_cpp_double_cases (vector.at "z") with ⟨z, hz⟩ | hz <;>
  rcases as_cpp_double_cases (vector.at "t") with ⟨t, ht⟩ | ht <;>
  first
    | (exfalso; simp [hx, hy, hz, ht] at h; done)
    | simp [astro_vector_observer_, hx, hy, hz, ht]

/-- Claim C8: for every vector record that lacks one of the keys x, y, z, t, both
`list_to_vector` and the inline marshalling of `astro_vector_observer_` fail with the
missing-field error (the `as_cpp` error), whatever the other fields hold; no vector is
produced (so no zero stands in for the missing coordinate) and the list of library
calls is empty, so no library operation receives the vector. -/
theorem missing_vector_key_fails (L : Library) (vec_list : list) (key : String)
    (hkey : key ∈ ["x", "y", "z", "t"]) (habsent : key ∉ vec_list.keys) :
    list_to_vector L vec_list =
        ⟨[], .error (.length_error "Expected single double value")⟩ ∧
      ∀ status of_date, astro_vector_observer_ L status vec_list of_date =
        ⟨[], .error (.length_error "Expected single double value")⟩ := by
  have hnil := list.at_absent vec_list key habsent
  have herr : as_cpp_double (vec_list.at key) =
      ⟨[], .error (.length_error "Expected single double value")⟩ := by
    rw [hnil]; rfl
  have hany : as_cpp_double (vec_list.at "x") =
          ⟨[], .error (.length_error "Expected single double value")⟩ ∨
        as_cpp_double (vec_list.at "y") =
          ⟨[], .error (.length_error "Expected single double value")⟩ ∨
        as_cpp_double (vec_list.at "z") =
          ⟨[], .error (.length_error "Expected single double value")⟩ ∨
        as_cpp_double (vec_list.at "t") =
          ⟨[], .error (.length_error "Expected single double value")⟩ := by
    simp only [List.mem_cons, List.mem_singleton, List.not_mem_nil, or_false] at hkey
    rcases hkey with rfl | rfl | rfl | rfl
    · exact Or.inl herr
    · exact Or.inr (Or.inl herr)
    · exact Or.inr (Or.inr (Or.inl herr))
    · exact Or.inr (Or.inr (Or.inr herr))
  exact ⟨list_to_vector_fails L vec_list hany,
    fun status of_date => astro_vector_observer_fails L status vec_list of_date hany⟩

/-- The failure of C8 on a record with x, y, t and no z, with the sample library. -/
theorem missing_vector_key_fails_witness :
    "z" ∈ ["x", "y", "z", "t"] ∧ "z" ∉ sample_vector_without_z.keys ∧
      list_to_vector sampleLibrary sample_vector_without_z =
        ⟨[], .error (.length_error "Expected single double value")⟩ ∧
      astro_vector_observer_ sampleLibrary ASTRO_SUCCESS sample_vector_without_z true =
        ⟨[], .error (.length_error "Expected single double value")⟩ :=
  have w := missing_vector_key_fails sampleLibrary sample_vector_without_z "z"
    (by decide) (by decide)
  ⟨by decide, by decide, w.1, w.2 ASTRO_SUCCESS true⟩

/-- The two status codes the rise/set and altitude shims tell apart are different. -/
theorem ASTRO_SUCCESS_ne_SEARCH_FAILURE : ASTRO_SUCCESS ≠ ASTRO_SEARCH_FAILURE := by
  decide

/-- On the sample library, 946728000 seconds is day 0 and 0 seconds is day -21915/2. -/
theorem sample_days :
    ((double.val 946728000 - double.val 946728000) / double.val 86400 : double)
        = double.val 0 ∧
      ((double.val 0 - double.val 946728000) / double.val 86400 : double)
        = double.val (-21915 / 2) := by
  constructor
  · rw [double.sub_div_val _ _ _ (by norm_num)]; norm_num
  · rw [double.sub_div_val _ _ _ (by norm_num)]; norm_num

/-- Claim C9: for `astro_search_rise_set_ex_` and `astro_search_altitude_`, with `r` the
result of the library search on the converted inputs: when `r.status` is SEARCH_FAILURE
the shim returns the `no result` sentinel (`R_NilValue`) and raises no error; when it is
SUCCESS the shim returns the timestamp `astro_to_posix r.time`; and the sentinel differs
from every timestamp result, the timestamp 0 included. -/
theorem search_absence_is_a_sentinel (L : Library) (body : Int)
    (latitude longitude height time_posix : double) (direction : Int)
    (limit_days extra : double) :
    ((L.Astronomy_SearchRiseSetEx body (L.Astronomy_MakeObserver latitude longitude height)
          direction (L.Astronomy_TimeFromDays ((time_posix - .val 946728000) / .val 86400))
          limit_days extra).status = ASTRO_SEARCH_FAILURE →
        (astro_search_rise_set_ex_ L body latitude longitude height time_posix direction
          limit_days extra).result = .ok SEXP.nil) ∧
      ((L.Astronomy_SearchRiseSetEx body (L.Astronomy_MakeObserver latitude longitude height)
          direction (L.Astronomy_TimeFromDays ((time_posix - .val 946728000) / .val 86400))
          limit_days extra).status = ASTRO_SUCCESS →
        (astro_search_rise_set_ex_ L body latitude longitude height time_posix direction
          limit_days extra).result =
          .ok (as_sexp_double (astro_to_posix
            (L.Astronomy_SearchRiseSetEx body
              (L.Astronomy_MakeObserver latitude longitude height) direction
              (L.Astronomy_TimeFromDays ((time_posix - .val 946728000) / .val 86400))
              limit_days extra).time))) ∧
      ((L.Astronomy_SearchAltitude body (L.Astronomy_MakeObserver latitude longitude height)
          direction (L.Astronomy_TimeFromDays ((time_posix - .val 946728000) / .val 86400))
          limit_days extra).status = ASTRO_SEARCH_FAILURE →
        (astro_search_altitude_ L body latitude longitude height time_posix direction
          limit_days extra).result = .ok SEXP.nil) ∧
      ((L.Astronomy_SearchAltitude body (L.Astronomy_MakeObserver latitude longitude height)
          direction (L.Astronomy_TimeFromDays ((time_posix - .val 946728000) / .val 86400))
          limit_days extra).status = ASTRO_SUCCESS →
        (astro_search_altitude_ L body latitude longitude height time_posix direction
          limit_days extra).result =
          .ok (as_sexp_double (astro_to_posix
            (L.Astronomy_SearchAltitude body
              (L.Astronomy_MakeObserver latitude longitude height) direction
              (L.Astronomy_TimeFromDays ((time_posix - .val 946728000) / .val 86400))
              limit_days extra).time))) ∧
      (∀ timestamp : double, SEXP.nil ≠ as_sexp_double timestamp) := by
  have hne := ASTRO_SUCCESS_ne_SEARCH_FAILURE
  refine ⟨?_, ?_, ?_, ?_, ?_⟩
  · intro h
    simp [astro_search_rise_set_ex_, Library.MakeObserver, Library.SearchRiseSetEx,
      invoke, posix_to_astro_eq, h]
  · intro h
    simp [astro_search_rise_set_ex_, Library.MakeObserver, Library.SearchRiseSetEx,
      invoke, posix_to_astro_eq, h, hne]
  · intro h
    simp [astro_search_altitude_, Library.MakeObserver, Library.SearchAltitude,
      invoke, posix_to_astro_eq, h]
  · intro h
    simp [astro_search_altitude_, Library.MakeObserver, Library.SearchAltitude,
      invoke, posix_to_astro_eq, h, hne]
  · intro timestamp h
    simp [as_sexp_double] at h

/-- The sample library's searches: nothing found from 946728000 seconds, success from 0
seconds. -/
theorem sample_status_values :
    sample_status (sampleLibrary.Astronomy_TimeFromDays
        ((double.val 946728000 - double.val 946728000) / double.val 86400))
        = ASTRO_SEARCH_FAILURE ∧
      sample_status (sampleLibrary.Astronomy_TimeFromDays
        ((double.val 0 - double.val 946728000) / double.val 86400)) = ASTRO_SUCCESS := by
  rw [sample_days.1, sample_days.2]
  constructor
  · simp [sample_status, sampleLibrary]
  · simp [sample_status, sampleLibrary]

/-- The outcomes of C9 on the sample library: no result from 946728000 seconds, and the
timestamp 0 from 0 seconds, which is not the sentinel. -/
theorem search_absence_is_a_sentinel_witness :
    (astro_search_rise_set_ex_ sampleLibrary 10 (.val 1) (.val 2) (.val 3)
        (.val 946728000) 1 (.val 1) (.val 0)).result = .ok SEXP.nil ∧
      (astro_search_altitude_ sampleLibrary 10 (.val 1) (.val 2) (.val 3)
        (.val 946728000) 1 (.val 1) (.val 0)).result = .ok SEXP.nil ∧
      (astro_search_rise_set_ex_ sampleLibrary 10 (.val 1) (.val 2) (.val 3)
        (.val 0) 1 (.val 1) (.val 0)).result = .ok (as_sexp_double (.val 0)) ∧
      (astro_search_altitude_ sampleLibrary 10 (.val 1) (.val 2) (.val 3)
        (.val 0) 1 (.val 1) (.val 0)).result = .ok (as_sexp_double (.val 0)) ∧
      SEXP.nil ≠ as_sexp_double (.val 0) := by
  have none_found := search_absence_is_a_sentinel sampleLibrary 10 (.val 1) (.val 2)
    (.val 3) (.val 946728000) 1 (.val 1) (.val 0)
  have found := search_absence_is_a_sentinel sampleLibrary 10 (.val 1) (.val 2)
    (.val 3) (.val 0) 1 (.val 1) (.val 0)
  have hzero : astro_to_posix ⟨.val (-21915 / 2), .val (-21915 / 2)⟩ = .val 0 := by
    unfold astro_to_posix
    rw [double.mul_add_val]; norm_num
  refine ⟨none_found.1 sample_status_values.1, none_found.2.2.1 sample_status_values.1,
    ?_, ?_, found.2.2.2.2 (.val 0)⟩
  · have h := found.2.1 sample_status_values.2
    rw [h, sample_days.2]
    exact congrArg (fun x => Except.ok (as_sexp_double x)) hzero
  · have h := found.2.2.2.1 sample_status_values.2
    rw [h, sample_days.2]
    exact congrArg (fun x => Except.ok (as_sexp_double x)) hzero

/-- Claim C10: expected absence applies only to the rise/set and altitude searches. For
every other search shim (hour angle, moon phase, moon quarter, relative longitude, sun
longitude, the lunar, global-solar and local-solar eclipse searches and their `next`
forms, the transit searches, the lunar and planet apsis searches, peak magnitude and
max elongation), a library status of SEARCH_FAILURE makes the shim fail with the
library-computation error carrying that status; it returns no value, so no `no result`
value either. -/
theorem search_failure_is_an_error_elsewhere (L : Library) (body : Int)
    (latitude longitude height hour_angle time_posix target limit_days : double)
    (direction : Int) :
    ((L.Astronomy_SearchHourAngleEx body (L.Astronomy_MakeObserver latitude longitude height) hour_angle
          (L.Astronomy_TimeFromDays ((time_posix - .val 946728000) / .val 86400)) direction).status
          = ASTRO_SEARCH_FAILURE →
        (astro_search_hour_angle_ex_ L body latitude longitude height hour_angle time_posix direction).result =
          .error (.stop "Astronomy_SearchHourAngleEx failed with status %d" [ASTRO_SEARCH_FAILURE])) ∧
    ((L.Astronomy_SearchMoonPhase target
          (L.Astronomy_TimeFromDays ((time_posix - .val 946728000) / .val 86400)) limit_days).status
          = ASTRO_SEARCH_FAILURE →
        (astro_search_moon_phase_ L target time_posix limit_days).result =
          .error (.stop "Astronomy_SearchMoonPhase failed with status %d" [ASTRO_SEARCH_FAILURE])) ∧
    ((L.Astronomy_SearchMoonQuarter
          (L.Astronomy_TimeFromDays ((time_posix - .val 946728000) / .val 86400))).status
          = ASTRO_SEARCH_FAILURE →
        (astro_search_moon_quarter_ L time_posix).result =
          .error (.stop "Astronomy_SearchMoonQuarter failed with status %d" [ASTRO_SEARCH_FAILURE])) ∧
    ((L.Astronomy_SearchRelativeLongitude body target
          (L.Astronomy_TimeFromDays ((time_posix - .val 946728000) / .val 86400))).status
          = ASTRO_SEARCH_FAILURE →
        (astro_search_relative_longitude_ L body target time_posix).result =
          .error (.stop "Astronomy_SearchRelativeLongitude failed with status %d" [ASTRO_SEARCH_FAILURE])) ∧
    ((L.Astronomy_SearchSunLongitude target
          (L.Astronomy_TimeFromDays ((time_posix - .val 946728000) / .val 86400)) limit_days).status
          = ASTRO_SEARCH_FAILURE →
        (astro_search_sun_longitude_ L target time_posix limit_days).result =
          .error (.stop "Astronomy_SearchSunLongitude failed with status %d" [ASTRO_SEARCH_FAILURE])) ∧
    ((L.Astronomy_SearchLunarEclipse
          (L.Astronomy_TimeFromDays ((time_posix - .val 946728000) / .val 86400))).status
          = ASTRO_SEARCH_FAILURE →
        (astro_search_lunar_eclipse_ L time_posix).result =
          .error (.stop "Astronomy_SearchLunarEclipse failed with status %d" [ASTRO_SEARCH_FAILURE])) ∧
    ((L.Astronomy_NextLunarEclipse
          (L.Astronomy_TimeFromDays ((time_posix - .val 946728000) / .val 86400))).status
          = ASTRO_SEARCH_FAILURE →
        (astro_next_lunar_eclipse_ L time_posix).result =
          .error (.stop "Astronomy_NextLunarEclipse failed with status %d" [ASTRO_SEARCH_FAILURE])) ∧
    ((L.Astronomy_SearchGlobalSolarEclipse
          (L.Astronomy_TimeFromDays ((time_posix - .val 946728000) / .val 86400))).status
          = ASTRO_SEARCH_FAILURE →
        (search_global_solar_eclipse_ L time_posix).result =
          .error (.stop "Astronomy_SearchGlobalSolarEclipse failed with status %d" [ASTRO_SEARCH_FAILURE])) ∧
    ((L.Astronomy_SearchGlobalSolarEclipse
          (L.Astronomy_TimeFromDays ((time_posix - .val 946728000) / .val 86400))).status
          = ASTRO_SEARCH_FAILURE →
        (astro_search_global_solar_eclipse_ L time_posix).result =
          .error (.stop "Astronomy_SearchGlobalSolarEclipse failed with status %d" [ASTRO_SEARCH_FAILURE])) ∧
    ((L.Astronomy_NextGlobalSolarEclipse
          (L.Astronomy_TimeFromDays ((time_posix - .val 946728000) / .val 86400))).status
          = ASTRO_SEARCH_FAILURE →
        (next_global_solar_eclipse_ L time_posix).result =
          .error (.stop "Astronomy_NextGlobalSolarEclipse failed with status %d" [ASTRO_SEARCH_FAILURE])) ∧
    ((L.Astronomy_SearchLocalSolarEclipse
          (L.Astronomy_TimeFromDays ((time_posix - .val 946728000) / .val 86400))
          ⟨latitude, longitude, .val 0⟩).status
          = ASTRO_SEARCH_FAILURE →
        (search_local_solar_eclipse_ L time_posix latitude longitude).result =
          .error (.stop "Astronomy_SearchLocalSolarEclipse failed with status %d" [ASTRO_SEARCH_FAILURE])) ∧
    ((L.Astronomy_NextLocalSolarEclipse
          (L.Astronomy_TimeFromDays ((time_posix - .val 946728000) / .val 86400))
          ⟨latitude, longitude, .val 0⟩).status
          = ASTRO_SEARCH_FAILURE →
        (next_local_solar_eclipse_ L time_posix latitude longitude).result =
          .error (.stop "Astronomy_NextLocalSolarEclipse failed with status %d" [ASTRO_SEARCH_FAILURE])) ∧
    ((L.Astronomy_SearchTransit body
          (L.Astronomy_TimeFromDays ((time_posix - .val 946728000) / .val 86400))).status
          = ASTRO_SEARCH_FAILURE →
        (astro_search_transit_ L body time_posix).result =
          .error (.stop "Astronomy_SearchTransit failed with status %d" [ASTRO_SEARCH_FAILURE])) ∧
    ((L.Astronomy_NextTransit body
          (L.Astronomy_TimeFromDays ((time_posix - .val 946728000) / .val 86400))).status
          = ASTRO_SEARCH_FAILURE →
        (astro_next_transit_ L body time_posix).result =
          .error (.stop "Astronomy_NextTransit failed with status %d" [ASTRO_SEARCH_FAILURE])) ∧
    ((L.Astronomy_SearchLunarApsis
          (L.Astronomy_TimeFromDays ((time_posix - .val 946728000) / .val 86400))).status
          = ASTRO_SEARCH_FAILURE →
        (search_lunar_apsis_ L time_posix).result =
          .error (.stop "Astronomy_SearchLunarApsis failed with status %d" [ASTRO_SEARCH_FAILURE])) ∧
    ((L.Astronomy_SearchLunarApsis
          (L.Astronomy_TimeFromDays ((time_posix - .val 946728000) / .val 86400))).status
          = ASTRO_SEARCH_FAILURE →
        (astro_search_lunar_apsis_ L time_posix).result =
          .error (.stop "Astronomy_SearchLunarApsis failed with status %d" [ASTRO_SEARCH_FAILURE])) ∧
    ((L.Astronomy_SearchPeakMagnitude body
          (L.Astronomy_TimeFromDays ((time_posix - .val 946728000) / .val 86400))).status
          = ASTRO_SEARCH_FAILURE →
        (astro_search_peak_magnitude_ L body time_posix).result =
          .error (.stop "Astronomy_SearchPeakMagnitude failed with status %d" [ASTRO_SEARCH_FAILURE])) ∧
    ((L.Astronomy_SearchMaxElongation body
          (L.Astronomy_TimeFromDays ((time_posix - .val 946728000) / .val 86400))).status
          = ASTRO_SEARCH_FAILURE →
        (astro_search_max_elongation_ L body time_posix).result =
          .error (.stop "Astronomy_SearchMaxElongation failed with status %d" [ASTRO_SEARCH_FAILURE])) ∧
    (∀ (rest : List double) (dim : Option (List Int)),
        (L.Astronomy_SearchPlanetApsis body
          (L.Astronomy_TimeFromDays ((time_posix - .val 946728000) / .val 86400))).status
          = ASTRO_SEARCH_FAILURE →
        (search_planet_apsis_ L body ⟨time_posix :: rest, dim⟩).map Shim.result =
          some (.error
            (.stop "Astronomy_SearchPlanetApsis failed with status %d"
              [ASTRO_SEARCH_FAILURE]))) := by
  have hne : ASTRO_SEARCH_FAILURE ≠ ASTRO_SUCCESS := by decide
  refine ⟨?_, ?_, ?_, ?_, ?_, ?_, ?_, ?_, ?_, ?_, ?_, ?_, ?_, ?_, ?_, ?_, ?_, ?_, ?_⟩
  · intro h
    simp [astro_search_hour_angle_ex_, Library.SearchHourAngleEx, Library.MakeObserver, invoke, stop, posix_to_astro_eq, h, hne]
  · intro h
    simp [astro_search_moon_phase_, Library.SearchMoonPhase, invoke, stop, posix_to_astro_eq, h, hne]
  · intro h
    simp [astro_search_moon_quarter_, Library.SearchMoonQuarter, invoke, stop, posix_to_astro_eq, h, hne]
  · intro h
    simp [astro_search_relative_longitude_, Library.SearchRelativeLongitude, invoke, stop, posix_to_astro_eq, h, hne]
  · intro h
    simp [astro_search_sun_longitude_, Library.SearchSunLongitude, invoke, stop, posix_to_astro_eq, h, hne]
  · intro h
    simp [astro_search_lunar_eclipse_, Library.SearchLunarEclipse, invoke, stop, posix_to_astro_eq, h, hne]
  · intro h
    simp [astro_next_lunar_eclipse_, Library.NextLunarEclipse, invoke, stop, posix_to_astro_eq, h, hne]
  · intro h
    simp [search_global_solar_eclipse_, Library.SearchGlobalSolarEclipse, invoke, stop, posix_to_astro_eq, h, hne]
  · intro h
    simp [astro_search_global_solar_eclipse_, Library.SearchGlobalSolarEclipse, invoke, stop, posix_to_astro_eq, h, hne]
  · intro h
    simp [next_global_solar_eclipse_, Library.NextGlobalSolarEclipse, invoke, stop, posix_to_astro_eq, h, hne]
  · intro h
    simp [search_local_solar_eclipse_, Library.SearchLocalSolarEclipse, invoke, stop, posix_to_astro_eq, h, hne]
  · intro h
    simp [next_local_solar_eclipse_, Library.NextLocalSolarEclipse, invoke, stop, posix_to_astro_eq, h, hne]
  · intro h
    simp [astro_search_transit_, Library.SearchTransit, invoke, stop, posix_to_astro_eq, h, hne]
  · intro h
    simp [astro_next_transit_, Library.NextTransit, invoke, stop, posix_to_astro_eq, h, hne]
  · intro h
    simp [search_lunar_apsis_, Library.SearchLunarApsis, invoke, stop, posix_to_astro_eq, h, hne]
  · intro h
    simp [astro_search_lunar_apsis_, Library.SearchLunarApsis, invoke, stop, posix_to_astro_eq, h, hne]
  · intro h
    simp [astro_search_peak_magnitude_, Library.SearchPeakMagnitude, invoke, stop, posix_to_astro_eq, h, hne]
  · intro h
    simp [astro_search_max_elongation_, Library.SearchMaxElongation, invoke, stop, posix_to_astro_eq, h, hne]
  · intro rest dim h
    simp [search_planet_apsis_, Library.SearchPlanetApsis, invoke, stop,
      posix_to_astro_eq, h, hne]

/-- The failures of C10 on the sample library, every search starting at 946728000
seconds, where the sample library finds nothing. -/
theorem search_failure_is_an_error_elsewhere_witness :
    (astro_search_hour_angle_ex_ sampleLibrary 10 (.val 1) (.val 2) (.val 3) (.val 4)
        (.val 946728000) 1).result =
        .error (.stop "Astronomy_SearchHourAngleEx failed with status %d" [ASTRO_SEARCH_FAILURE]) ∧
    (astro_search_moon_phase_ sampleLibrary (.val 5) (.val 946728000) (.val 6)).result =
        .error (.stop "Astronomy_SearchMoonPhase failed with status %d" [ASTRO_SEARCH_FAILURE]) ∧
    (astro_search_moon_quarter_ sampleLibrary (.val 946728000)).result =
        .error (.stop "Astronomy_SearchMoonQuarter failed with status %d" [ASTRO_SEARCH_FAILURE]) ∧
    (astro_search_relative_longitude_ sampleLibrary 10 (.val 5) (.val 946728000)).result =
        .error (.stop "Astronomy_SearchRelativeLongitude failed with status %d" [ASTRO_SEARCH_FAILURE]) ∧
    (astro_search_sun_longitude_ sampleLibrary (.val 5) (.val 946728000) (.val 6)).result =
        .error (.stop "Astronomy_SearchSunLongitude failed with status %d" [ASTRO_SEARCH_FAILURE]) ∧
    (astro_search_lunar_eclipse_ sampleLibrary (.val 946728000)).result =
        .error (.stop "Astronomy_SearchLunarEclipse failed with status %d" [ASTRO_SEARCH_FAILURE]) ∧
    (astro_next_lunar_eclipse_ sampleLibrary (.val 946728000)).result =
        .error (.stop "Astronomy_NextLunarEclipse failed with status %d" [ASTRO_SEARCH_FAILURE]) ∧
    (search_global_solar_eclipse_ sampleLibrary (.val 946728000)).result =
        .error (.stop "Astronomy_SearchGlobalSolarEclipse failed with status %d" [ASTRO_SEARCH_FAILURE]) ∧
    (astro_search_global_solar_eclipse_ sampleLibrary (.val 946728000)).result =
        .error (.stop "Astronomy_SearchGlobalSolarEclipse failed with status %d" [ASTRO_SEARCH_FAILURE]) ∧
    (next_global_solar_eclipse_ sampleLibrary (.val 946728000)).result =
        .error (.stop "Astronomy_NextGlobalSolarEclipse failed with status %d" [ASTRO_SEARCH_FAILURE]) ∧
    (search_local_solar_eclipse_ sampleLibrary (.val 946728000) (.val 1) (.val 2)).result =
        .error (.stop "Astronomy_SearchLocalSolarEclipse failed with status %d" [ASTRO_SEARCH_FAILURE]) ∧
    (next_local_solar_eclipse_ sampleLibrary (.val 946728000) (.val 1) (.val 2)).result =
        .error (.stop "Astronomy_NextLocalSolarEclipse failed with status %d" [ASTRO_SEARCH_FAILURE]) ∧
    (astro_search_transit_ sampleLibrary 10 (.val 946728000)).result =
        .error (.stop "Astronomy_SearchTransit failed with status %d" [ASTRO_SEARCH_FAILURE]) ∧
    (astro_next_transit_ sampleLibrary 10 (.val 946728000)).result =
        .error (.stop "Astronomy_NextTransit failed with status %d" [ASTRO_SEARCH_FAILURE]) ∧
    (search_lunar_apsis_ sampleLibrary (.val 946728000)).result =
        .error (.stop "Astronomy_SearchLunarApsis failed with status %d" [ASTRO_SEARCH_FAILURE]) ∧
    (astro_search_lunar_apsis_ sampleLibrary (.val 946728000)).result =
        .error (.stop "Astronomy_SearchLunarApsis failed with status %d" [ASTRO_SEARCH_FAILURE]) ∧
    (astro_search_peak_magnitude_ sampleLibrary 10 (.val 946728000)).result =
        .error (.stop "Astronomy_SearchPeakMagnitude failed with status %d" [ASTRO_SEARCH_FAILURE]) ∧
    (astro_search_max_elongation_ sampleLibrary 10 (.val 946728000)).result =
        .error (.stop "Astronomy_SearchMaxElongation failed with status %d" [ASTRO_SEARCH_FAILURE]) ∧
    (search_planet_apsis_ sampleLibrary 10 ⟨[(.val 946728000), .val 7], none⟩).map Shim.result =
        some (.error
          (.stop "Astronomy_SearchPlanetApsis failed with status %d"
            [ASTRO_SEARCH_FAILURE])) :=
  have w := search_failure_is_an_error_elsewhere sampleLibrary 10 (.val 1) (.val 2)
    (.val 3) (.val 4) (.val 946728000) (.val 5) (.val 6) 1
  ⟨w.1 sample_status_values.1,
    w.2.1 sample_status_values.1,
    w.2.2.1 sample_status_values.1,
    w.2.2.2.1 sample_status_values.1,
    w.2.2.2.2.1 sample_status_values.1,
    w.2.2.2.2.2.1 sample_status_values.1,
    w.2.2.2.2.2.2.1 sample_status_values.1,
    w.2.2.2.2.2.2.2.1 sample_status_values.1,
    w.2.2.2.2.2.2.2.2.1 sample_status_values.1,
    w.2.2.2.2.2.2.2.2.2.1 sample_status_values.1,
    w.2.2.2.2.2.2.2.2.2.2.1 sample_status_values.1,
    w.2.2.2.2.2.2.2.2.2.2.2.1 sample_status_values.1,
    w.2.2.2.2.2.2.2.2.2.2.2.2.1 sample_status_values.1,
    w.2.2.2.2.2.2.2.2.2.2.2.2.2.1 sample_status_values.1,
    w.2.2.2.2.2.2.2.2.2.2.2.2.2.2.1 sample_status_values.1,
    w.2.2.2.2.2.2.2.2.2.2.2.2.2.2.2.1 sample_status_values.1,
    w.2.2.2.2.2.2.2.2.2.2.2.2.2.2.2.2.1 sample_status_values.1,
    w.2.2.2.2.2.2.2.2.2.2.2.2.2.2.2.2.2.1 sample_status_values.1,
    w.2.2.2.2.2.2.2.2.2.2.2.2.2.2.2.2.2.2 [.val 7] none sample_status_values.1⟩

/-- A status format places the digits of its argument in the message. -/
theorem printf_format_status (fmt : List Char) (h : status_format fmt = true) (n : Int) :
    (toString n).toList <:+: printf_format fmt [n] := by
  induction fmt with
  | nil => simp [status_format] at h
  | cons c rest ih =>
    rw [status_format] at h
    by_cases hc : c = '%'
    · rw [if_pos hc] at h
      have hrest : rest = ['d'] := by simpa using h
      subst hc hrest
      simp [printf_format]
    · rw [if_neg hc] at h
      have hfmt : printf_format (c :: rest) [n] = c :: printf_format rest [n] := by
        rw [printf_format]
        intro r n' args heq _ _
        exact hc heq
      rw [hfmt]
      exact (ih h).trans (List.suffix_cons _ _).isInfix

/-- The message of `stop` with a status format contains the decimal rendering of the
status passed to it. -/
theorem stop_message_contains (fmt : String) (n : Int)
    (h : status_format fmt.toList = true) :
    (toString n).toList <:+: (HostError.stop fmt [n]).message :=
  printf_format_status fmt.toList h n

/-- Source `matrix_to_rotation` makes no library call, and either gives a rotation with
status SUCCESS or raises the shape error. -/
theorem matrix_to_rotation_cases (mat : doubles) :
    (∃ rot, matrix_to_rotation mat = ⟨[], .ok rot⟩ ∧ rot.status = ASTRO_SUCCESS) ∨
      matrix_to_rotation mat =
        ⟨[], .error (.stop "Rotation matrix must have exactly 9 elements" [])⟩ := by
  by_cases h : mat.data.length = 9
  · obtain ⟨data, dim⟩ := mat
    obtain ⟨a0, a1, a2, a3, a4, a5, a6, a7, a8, rfl⟩ := list_of_length_nine data h
    exact Or.inl ⟨_, matrix_to_rotation_nine a0 a1 a2 a3 a4 a5 a6 a7 a8 dim, rfl⟩
  · exact Or.inr (matrix_to_rotation_bad_length mat h)

/-- Source `list_to_vector` either reads the four fields, calls `Astronomy_TimeFromDays`
once and gives a vector with status SUCCESS, or fails before any library call. -/
theorem list_to_vector_cases (L : Library) (vec_list : list) :
    (∃ x y z p,
        as_cpp_double (vec_list.at "x") = ⟨[], .ok x⟩ ∧
        as_cpp_double (vec_list.at "y") = ⟨[], .ok y⟩ ∧
        as_cpp_double (vec_list.at "z") = ⟨[], .ok z⟩ ∧
        as_cpp_double (vec_list.at "t") = ⟨[], .ok p⟩ ∧
        list_to_vector L vec_list =
          ⟨[.Astronomy_TimeFromDays ((p - .val 946728000) / .val 86400)],
            .ok ⟨ASTRO_SUCCESS, x, y, z,
              L.Astronomy_TimeFromDays ((p - .val 946728000) / .val 86400)⟩⟩) ∨
      list_to_vector L vec_list =
        ⟨[], .error (.length_error "Expected single double value")⟩ := by
  rcases as_cpp_double_cases (vec_list.at "x") with ⟨x, hx⟩ | hx <;>
  rcases as_cpp_double_cases (vec_list.at "y") with ⟨y, hy⟩ | hy <;>
  rcases as_cpp_double_cases (vec_list.at "z") with ⟨z, hz⟩ | hz <;>
  rcases as_cpp_double_cases (vec_list.at "t") with ⟨t, ht⟩ | ht <;>
  first
    | (refine Or.inl ⟨x, y, z, t, hx, hy, hz, ht, ?_⟩
       simp [list_to_vector, hx, hy, hz, ht, posix_to_astro_eq])
    | (refine Or.inr ?_
       simp [list_to_vector, hx, hy, hz, ht])

/-- Source `list_to_spherical` makes no library call, and either gives spherical
coordinates with status SUCCESS or fails. -/
theorem list_to_spherical_cases (sphere_list : list) :
    (∃ lat lon dist,
        as_cpp_double (sphere_list.at "lat") = ⟨[], .ok lat⟩ ∧
        as_cpp_double (sphere_list.at "lon") = ⟨[], .ok lon⟩ ∧
        as_cpp_double (sphere_list.at "dist") = ⟨[], .ok dist⟩ ∧
        list_to_spherical sphere_list = ⟨[], .ok ⟨ASTRO_SUCCESS, lat, lon, dist⟩⟩) ∨
      list_to_spherical sphere_list =
        ⟨[], .error (.length_error "Expected single double value")⟩ := by
  rcases as_cpp_double_cases (sphere_list.at "lat") with ⟨x, hx⟩ | hx <;>
  rcases as_cpp_double_cases (sphere_list.at "lon") with ⟨y, hy⟩ | hy <;>
  rcases as_cpp_double_cases (sphere_list.at "dist") with ⟨z, hz⟩ | hz <;>
  first
    | (refine Or.inl ⟨x, y, z, hx, hy, hz, ?_⟩
       simp [list_to_spherical, hx, hy, hz])
    | (refine Or.inr ?_
       simp [list_to_spherical, hx, hy, hz])

/-- The host's `as_cpp<int>` makes no library call, and either gives an integer or throws
its one error. -/
theorem as_cpp_int_cases (s : SEXP) :
    (∃ i, as_cpp_int s = ⟨[], .ok i⟩) ∨
      as_cpp_int s = ⟨[], .error (.length_error "Expected single integer value")⟩ := by
  unfold as_cpp_int
  split
  · exact Or.inl ⟨_, rfl⟩
  · split
    · exact Or.inl ⟨_, rfl⟩
    · exact Or.inr rfl
  · exact Or.inr rfl

/-- Source `equatorial_to_list` makes no library call. -/
theorem equatorial_to_list_calls (equ : astro_equatorial_t) :
    (equatorial_to_list equ).calls = [] := by
  by_cases h : equ.status = ASTRO_SUCCESS <;> by_cases hv : equ.vec.status = ASTRO_SUCCESS <;>
    simp [equatorial_to_list, vector_to_list, stop, h, hv]

/-- Source `equatorial_to_list` stops with the status of a result that is not SUCCESS. -/
theorem equatorial_to_list_fails (equ : astro_equatorial_t)
    (h : equ.status ≠ ASTRO_SUCCESS) :
    (equatorial_to_list equ).result =
      .error (.stop "Equatorial coordinate operation failed with status %d" [equ.status]) := by
  simp [equatorial_to_list, stop, h]

set_option maxHeartbeats 8000000 in
/-- Claim C11: every shim that receives a status-tagged library result keeps faith with
the status code. For every library, every shim and helper below and every call in the
run whose result carries a status `N` other than SUCCESS (and, for
`astro_search_rise_set_ex_` and `astro_search_altitude_`, other than SEARCH_FAILURE), the
run ends in an error whose message contains the decimal rendering of `N`, so no payload
is returned. The four marshalling helpers that check a status (`rotation_to_matrix`,
`vector_to_list`, `spherical_to_list`, `equatorial_to_list`) are stated on the structure
they receive. -/
theorem status_code_fidelity (L : Library) :
    (∀ (body : Int) (time_posix : double),
      ReportsStatus L false (astro_helio_vector_ L body time_posix)) ∧
    (∀ (body : Int) (time_posix latitude longitude height : double)
        (of_date aberration : Bool),
      ReportsStatus L false (astro_equator_ L body time_posix latitude longitude height of_date aberration)) ∧
    (∀ (time_posix : double),
      ReportsStatus L false (astro_sun_position_ L time_posix)) ∧
    (∀ (x y z time_posix : double),
      ReportsStatus L false (astro_ecliptic_ L x y z time_posix)) ∧
    (∀ (body : Int) (time_posix : double),
      ReportsStatus L false (astro_ecliptic_longitude_ L body time_posix)) ∧
    (∀ (body1 body2 : Int) (time_posix : double),
      ReportsStatus L false (astro_pair_longitude_ L body1 body2 time_posix)) ∧
    (∀ (body : Int) (time_posix : double) (aberration : Int),
      ReportsStatus L false (astro_geo_vector_ L body time_posix aberration)) ∧
    (∀ (body : Int) (time_posix : double),
      ReportsStatus L false (astro_bary_state_ L body time_posix)) ∧
    (∀ (time_posix latitude longitude height : double) (of_date : Bool),
      ReportsStatus L false (astro_observer_vector_ L time_posix latitude longitude height of_date)) ∧
    (∀ (time_posix latitude longitude height : double) (of_date : Bool),
      ReportsStatus L false (astro_observer_state_ L time_posix latitude longitude height of_date)) ∧
    (∀ (body : Int) (latitude longitude height hour_angle time_posix : double)
        (direction : Int),
      ReportsStatus L false (astro_search_hour_angle_ex_ L body latitude longitude height hour_angle time_posix direction)) ∧
    (∀ (body : Int) (latitude longitude height time_posix : double),
      ReportsStatus L false (astro_hour_angle_ L body latitude longitude height time_posix)) ∧
    (∀ (time_posix : double),
      ReportsStatus L false (astro_moon_phase_ L time_posix)) ∧
    (∀ (target_lon start_time_posix limit_days : double),
      ReportsStatus L false (astro_search_moon_phase_ L target_lon start_time_posix limit_days)) ∧
    (∀ (start_time_posix : double),
      ReportsStatus L false (astro_search_moon_quarter_ L start_time_posix)) ∧
    (∀ (quarter : Int) (time_posix : double),
      ReportsStatus L false (astro_next_moon_quarter_ L quarter time_posix)) ∧
    (∀ (start_time_posix : double),
      ReportsStatus L false (astro_search_lunar_eclipse_ L start_time_posix)) ∧
    (∀ (prev_eclipse_time_posix : double),
      ReportsStatus L false (astro_next_lunar_eclipse_ L prev_eclipse_time_posix)) ∧
    (∀ (start_time : double),
      ReportsStatus L false (search_global_solar_eclipse_ L start_time)) ∧
    (∀ (prev_eclipse_time : double),
      ReportsStatus L false (next_global_solar_eclipse_ L prev_eclipse_time)) ∧
    (∀ (start_time latitude longitude : double),
      ReportsStatus L false (search_local_solar_eclipse_ L start_time latitude longitude)) ∧
    (∀ (prev_eclipse_time latitude longitude : double),
      ReportsStatus L false (next_local_solar_eclipse_ L prev_eclipse_time latitude longitude)) ∧
    (∀ (body : Int) (start_time_posix : double),
      ReportsStatus L false (astro_search_transit_ L body start_time_posix)) ∧
    (∀ (body : Int) (prev_transit_time_posix : double),
      ReportsStatus L false (astro_next_transit_ L body prev_transit_time_posix)) ∧
    (∀ (start_time : double),
      ReportsStatus L false (search_lunar_apsis_ L start_time)) ∧
    (∀ (body : Int) (time_posix : double),
      ReportsStatus L false (astro_illumination_ L body time_posix)) ∧
    (∀ (body : Int) (start_time : double),
      ReportsStatus L false (astro_search_peak_magnitude_ L body start_time)) ∧
    (∀ (body : Int) (time : double),
      ReportsStatus L false (astro_angle_from_sun_ L body time)) ∧
    (∀ (body : Int) (time : double),
      ReportsStatus L false (astro_elongation_ L body time)) ∧
    (∀ (body : Int) (start_time : double),
      ReportsStatus L false (astro_search_max_elongation_ L body start_time)) ∧
    (∀ (body : Int) (target_rel_lon start_time : double),
      ReportsStatus L false (astro_search_relative_longitude_ L body target_rel_lon start_time)) ∧
    (∀ (target_lon start_time limit_days : double),
      ReportsStatus L false (astro_search_sun_longitude_ L target_lon start_time limit_days)) ∧
    (∀ (year : Int),
      ReportsStatus L false (astro_seasons_ L year)) ∧
    (∀ (time_posix : double),
      ReportsStatus L false (astro_search_lunar_apsis_ L time_posix)) ∧
    (∀ (ra dec : double),
      ReportsStatus L false (astro_constellation_ L ra dec)) ∧
    (∀ (body : Int) (time_posix : double),
      ReportsStatus L false (astro_helio_distance_ L body time_posix)) ∧
    (∀ (time_posix : double),
      ReportsStatus L false (astro_search_global_solar_eclipse_ L time_posix)) ∧
    ReportsStatus L false (astro_identity_matrix_ L) ∧
    (∀ (time_posix : double),
      ReportsStatus L false (astro_rotation_eqd_eqj_ L time_posix)) ∧
    (∀ (time_posix : double),
      ReportsStatus L false (astro_rotation_eqd_ect_ L time_posix)) ∧
    (∀ (time_posix : double),
      ReportsStatus L false (astro_rotation_eqd_ecl_ L time_posix)) ∧
    (∀ (time_posix latitude longitude height : double),
      ReportsStatus L false (astro_rotation_eqd_hor_ L time_posix latitude longitude height)) ∧
    (∀ (time_posix : double),
      ReportsStatus L false (astro_rotation_eqj_eqd_ L time_posix)) ∧
    (∀ (time_posix : double),
      ReportsStatus L false (astro_rotation_eqj_ect_ L time_posix)) ∧
    ReportsStatus L false (astro_rotation_eqj_ecl_ L) ∧
    (∀ (time_posix latitude longitude height : double),
      ReportsStatus L false (astro_rotation_eqj_hor_ L time_posix latitude longitude height)) ∧
    (∀ (time_posix : double),
      ReportsStatus L false (astro_rotation_ect_eqd_ L time_posix)) ∧
    (∀ (time_posix : double),
      ReportsStatus L false (astro_rotation_ect_eqj_ L time_posix)) ∧
    (∀ (time_posix : double),
      ReportsStatus L false (astro_rotation_ecl_eqd_ L time_posix)) ∧
    ReportsStatus L false (astro_rotation_ecl_eqj_ L) ∧
    (∀ (time_posix latitude longitude height : double),
      ReportsStatus L false (astro_rotation_ecl_hor_ L time_posix latitude longitude height)) ∧
    (∀ (time_posix latitude longitude height : double),
      ReportsStatus L false (astro_rotation_hor_eqd_ L time_posix latitude longitude height)) ∧
    (∀ (time_posix latitude longitude height : double),
      ReportsStatus L false (astro_rotation_hor_eqj_ L time_posix latitude longitude height)) ∧
    (∀ (time_posix latitude longitude height : double),
      ReportsStatus L false (astro_rotation_hor_ecl_ L time_posix latitude longitude height)) ∧
    ReportsStatus L false (astro_rotation_eqj_gal_ L) ∧
    ReportsStatus L false (astro_rotation_gal_eqj_ L) ∧
    (∀ (body : Int) (latitude longitude height time_posix : double) (direction : Int)
        (limit_days meters_above_ground : double),
      ReportsStatus L true (astro_search_rise_set_ex_ L body latitude longitude height
        time_posix direction limit_days meters_above_ground)) ∧
    (∀ (body : Int) (latitude longitude height time_posix : double) (direction : Int)
        (limit_days altitude : double),
      ReportsStatus L true (astro_search_altitude_ L body latitude longitude height
        time_posix direction limit_days altitude)) ∧
    (∀ (body : Int) (start_time : doubles) (run : Shim list),
      search_planet_apsis_ L body start_time = some run → ReportsStatus L false run) ∧
    (∀ (apsis_list : list), ReportsStatus L false (next_lunar_apsis_ L apsis_list)) ∧
    (∀ (body : Int) (apsis_list : list),
      ReportsStatus L false (next_planet_apsis_ L body apsis_list)) ∧
    (∀ (rotation : doubles), ReportsStatus L false (astro_inverse_rotation_ L rotation)) ∧
    (∀ (a b : doubles), ReportsStatus L false (astro_combine_rotation_ L a b)) ∧
    (∀ (rotation : doubles) (axis : Int) (angle : double),
      ReportsStatus L false (astro_pivot_ L rotation axis angle)) ∧
    (∀ (rotation : doubles) (vector : list),
      ReportsStatus L false (astro_rotate_vector_ L rotation vector)) ∧
    (∀ (sphere : list) (time_posix : double),
      ReportsStatus L false (astro_vector_from_sphere_ L sphere time_posix)) ∧
    (∀ (vector : list), ReportsStatus L false (astro_sphere_from_vector_ L vector)) ∧
    (∀ (vector : list), ReportsStatus L false (astro_equator_from_vector_ L vector)) ∧
    (∀ (sphere : list) (time_posix : double) (refraction : Int),
      ReportsStatus L false (astro_vector_from_horizon_ L sphere time_posix refraction)) ∧
    (∀ (vector : list) (refraction : Int),
      ReportsStatus L false (astro_horizon_from_vector_ L vector refraction)) ∧
    (∀ (rot : astro_rotation_t), rot.status ≠ ASTRO_SUCCESS →
      ∃ e, (rotation_to_matrix rot).result = .error e ∧
        (toString rot.status).toList <:+: e.message) ∧
    (∀ (vec : astro_vector_t), vec.status ≠ ASTRO_SUCCESS →
      ∃ e, (vector_to_list vec).result = .error e ∧
        (toString vec.status).toList <:+: e.message) ∧
    (∀ (sphere : astro_spherical_t), sphere.status ≠ ASTRO_SUCCESS →
      ∃ e, (spherical_to_list sphere).result = .error e ∧
        (toString sphere.status).toList <:+: e.message) ∧
    (∀ (equ : astro_equatorial_t), equ.status ≠ ASTRO_SUCCESS →
      ∃ e, (equatorial_to_list equ).result = .error e ∧
        (toString equ.status).toList <:+: e.message) := by
  refine ⟨?_, ?_, ?_, ?_, ?_, ?_, ?_, ?_, ?_, ?_, ?_, ?_, ?_, ?_, ?_, ?_, ?_, ?_, ?_, ?_, ?_, ?_, ?_, ?_, ?_, ?_, ?_, ?_, ?_, ?_, ?_, ?_, ?_, ?_, ?_, ?_, ?_, ?_, ?_, ?_, ?_, ?_, ?_, ?_, ?_, ?_, ?_, ?_, ?_, ?_, ?_, ?_, ?_, ?_, ?_, ?_, ?_, ?_, ?_, ?_, ?_, ?_, ?_, ?_, ?_, ?_, ?_, ?_, ?_, ?_, ?_, ?_, ?_, ?_⟩
  · intro body time_posix c hc N hs hN _
    simp [astro_helio_vector_, Library.HelioVector, invoke, stop,
      posix_to_astro_eq, apply_ite Shim.calls, apply_ite Shim.result] at hc ⊢
    rcases hc with rfl | rfl <;> simp [LibCall.status] at hs
    subst hs
    rw [if_neg hN]
    exact ⟨_, rfl, stop_message_contains _ _ (by decide)⟩
  · intro body time_posix latitude longitude height of_date aberration c hc N hs hN _
    simp [astro_equator_, Library.Equator, Library.MakeObserver, invoke, stop,
      posix_to_astro_eq, apply_ite Shim.calls, apply_ite Shim.result] at hc ⊢
    rcases hc with rfl | rfl | rfl <;> simp [LibCall.status] at hs
    subst hs
    rw [if_neg hN]
    exact ⟨_, rfl, stop_message_contains _ _ (by decide)⟩
  · intro time_posix c hc N hs hN _
    simp [astro_sun_position_, Library.SunPosition, invoke, stop,
      posix_to_astro_eq, apply_ite Shim.calls, apply_ite Shim.result] at hc ⊢
    rcases hc with rfl | rfl <;> simp [LibCall.status] at hs
    subst hs
    rw [if_neg hN]
    exact ⟨_, rfl, stop_message_contains _ _ (by decide)⟩
  · intro x y z time_posix c hc N hs hN _
    simp [astro_ecliptic_, Library.Ecliptic, invoke, stop,
      posix_to_astro_eq, apply_ite Shim.calls, apply_ite Shim.result] at hc ⊢
    rcases hc with rfl | rfl <;> simp [LibCall.status] at hs
    subst hs
    rw [if_neg hN]
    exact ⟨_, rfl, stop_message_contains _ _ (by decide)⟩
  · intro body time_posix c hc N hs hN _
    simp [astro_ecliptic_longitude_, Library.EclipticLongitude, invoke, stop,
      posix_to_astro_eq, apply_ite Shim.calls, apply_ite Shim.result] at hc ⊢
    rcases hc with rfl | rfl <;> simp [LibCall.status] at hs
    subst hs
    rw [if_neg hN]
    exact ⟨_, rfl, stop_message_contains _ _ (by decide)⟩
  · intro body1 body2 time_posix c hc N hs hN _
    simp [astro_pair_longitude_, Library.PairLongitude, invoke, stop,
      posix_to_astro_eq, apply_ite Shim.calls, apply_ite Shim.result] at hc ⊢
    rcases hc with rfl | rfl <;> simp [LibCall.status] at hs
    subst hs
    rw [if_neg hN]
    exact ⟨_, rfl, stop_message_contains _ _ (by decide)⟩
  · intro body time_posix aberration c hc N hs hN _
    simp [astro_geo_vector_, Library.GeoVector, invoke, stop,
      posix_to_astro_eq, apply_ite Shim.calls, apply_ite Shim.result] at hc ⊢
    rcases hc with rfl | rfl <;> simp [LibCall.status] at hs
    subst hs
    rw [if_neg hN]
    exact ⟨_, rfl, stop_message_contains _ _ (by decide)⟩
  · intro body time_posix c hc N hs hN _
    simp [astro_bary_state_, Library.BaryState, invoke, stop,
      posix_to_astro_eq, apply_ite Shim.calls, apply_ite Shim.result] at hc ⊢
    rcases hc with rfl | rfl <;> simp [LibCall.status] at hs
    subst hs
    rw [if_neg hN]
    exact ⟨_, rfl, stop_message_contains _ _ (by decide)⟩
  · intro time_posix latitude longitude height of_date c hc N hs hN _
    simp [astro_observer_vector_, Library.ObserverVector, Library.MakeObserver, invoke, stop,
      posix_to_astro_eq, apply_ite Shim.calls, apply_ite Shim.result] at hc ⊢
    rcases hc with rfl | rfl | rfl <;> simp [LibCall.status] at hs
    subst hs
    rw [if_neg hN]
    exact ⟨_, rfl, stop_message_contains _ _ (by decide)⟩
  · intro time_posix latitude longitude height of_date c hc N hs hN _
    simp [astro_observer_state_, Library.ObserverState, Library.MakeObserver, invoke, stop,
      posix_to_astro_eq, apply_ite Shim.calls, apply_ite Shim.result] at hc ⊢
    rcases hc with rfl | rfl | rfl <;> simp [LibCall.status] at hs
    subst hs
    rw [if_neg hN]
    exact ⟨_, rfl, stop_message_contains _ _ (by decide)⟩
  · intro body latitude longitude height hour_angle time_posix direction c hc N hs hN _
    simp [astro_search_hour_angle_ex_, Library.SearchHourAngleEx, Library.MakeObserver, invoke, stop,
      posix_to_astro_eq, apply_ite Shim.calls, apply_ite Shim.result] at hc ⊢
    rcases hc with rfl | rfl | rfl <;> simp [LibCall.status] at hs
    subst hs
    rw [if_neg hN]
    exact ⟨_, rfl, stop_message_contains _ _ (by decide)⟩
  · intro body latitude longitude height time_posix c hc N hs hN _
    simp [astro_hour_angle_, Library.HourAngle, Library.MakeObserver, invoke, stop,
      posix_to_astro_eq, apply_ite Shim.calls, apply_ite Shim.result] at hc ⊢
    rcases hc with rfl | rfl | rfl <;> simp [LibCall.status] at hs
    subst hs
    rw [if_neg hN]
    exact ⟨_, rfl, stop_message_contains _ _ (by decide)⟩
  · intro time_posix c hc N hs hN _
    simp [astro_moon_phase_, Library.MoonPhase, invoke, stop,
      posix_to_astro_eq, apply_ite Shim.calls, apply_ite Shim.result] at hc ⊢
    rcases hc with rfl | rfl <;> simp [LibCall.status] at hs
    subst hs
    rw [if_neg hN]
    exact ⟨_, rfl, stop_message_contains _ _ (by decide)⟩
  · intro target_lon start_time_posix limit_days c hc N hs hN _
    simp [astro_search_moon_phase_, Library.SearchMoonPhase, invoke, stop,
      posix_to_astro_eq, apply_ite Shim.calls, apply_ite Shim.result] at hc ⊢
    rcases hc with rfl | rfl <;> simp [LibCall.status] at hs
    subst hs
    rw [if_neg hN]
    exact ⟨_, rfl, stop_message_contains _ _ (by decide)⟩
  · intro start_time_posix c hc N hs hN _
    simp [astro_search_moon_quarter_, Library.SearchMoonQuarter, invoke, stop,
      posix_to_astro_eq, apply_ite Shim.calls, apply_ite Shim.result] at hc ⊢
    rcases hc with rfl | rfl <;> simp [LibCall.status] at hs
    subst hs
    rw [if_neg hN]
    exact ⟨_, rfl, stop_message_contains _ _ (by decide)⟩
  · intro quarter time_posix c hc N hs hN _
    simp [astro_next_moon_quarter_, Library.NextMoonQuarter, invoke, stop,
      posix_to_astro_eq, apply_ite Shim.calls, apply_ite Shim.result] at hc ⊢
    rcases hc with rfl | rfl <;> simp [LibCall.status] at hs
    subst hs
    rw [if_neg hN]
    exact ⟨_, rfl, stop_message_contains _ _ (by decide)⟩
  · intro start_time_posix c hc N hs hN _
    simp [astro_search_lunar_eclipse_, Library.SearchLunarEclipse, invoke, stop,
      posix_to_astro_eq, apply_ite Shim.calls, apply_ite Shim.result] at hc ⊢
    rcases hc with rfl | rfl <;> simp [LibCall.status] at hs
    subst hs
    rw [if_neg hN]
    exact ⟨_, rfl, stop_message_contains _ _ (by decide)⟩
  · intro prev_eclipse_time_posix c hc N hs hN _
    simp [astro_next_lunar_eclipse_, Library.NextLunarEclipse, invoke, stop,
      posix_to_astro_eq, apply_ite Shim.calls, apply_ite Shim.result] at hc ⊢
    rcases hc with rfl | rfl <;> simp [LibCall.status] at hs
    subst hs
    rw [if_neg hN]
    exact ⟨_, rfl, stop_message_contains _ _ (by decide)⟩
  · intro start_time c hc N hs hN _
    simp [search_global_solar_eclipse_, Library.SearchGlobalSolarEclipse, invoke, stop,
      posix_to_astro_eq, apply_ite Shim.calls, apply_ite Shim.result] at hc ⊢
    rcases hc with rfl | rfl <;> simp [LibCall.status] at hs
    subst hs
    rw [if_neg hN]
    exact ⟨_, rfl, stop_message_contains _ _ (by decide)⟩
  · intro prev_eclipse_time c hc N hs hN _
    simp [next_global_solar_eclipse_, Library.NextGlobalSolarEclipse, invoke, stop,
      posix_to_astro_eq, apply_ite Shim.calls, apply_ite Shim.result] at hc ⊢
    rcases hc with rfl | rfl <;> simp [LibCall.status] at hs
    subst hs
    rw [if_neg hN]
    exact ⟨_, rfl, stop_message_contains _ _ (by decide)⟩
  · intro start_time latitude longitude c hc N hs hN _
    simp [search_local_solar_eclipse_, Library.SearchLocalSolarEclipse, invoke, stop,
      posix_to_astro_eq, apply_ite Shim.calls, apply_ite Shim.result] at hc ⊢
    rcases hc with rfl | rfl <;> simp [LibCall.status] at hs
    subst hs
    rw [if_neg hN]
    exact ⟨_, rfl, stop_message_contains _ _ (by decide)⟩
  · intro prev_eclipse_time latitude longitude c hc N hs hN _
    simp [next_local_solar_eclipse_, Library.NextLocalSolarEclipse, invoke, stop,
      posix_to_astro_eq, apply_ite Shim.calls, apply_ite Shim.result] at hc ⊢
    rcases hc with rfl | rfl <;> simp [LibCall.status] at hs
    subst hs
    rw [if_neg hN]
    exact ⟨_, rfl, stop_message_contains _ _ (by decide)⟩
  · intro body start_time_posix c hc N hs hN _
    simp [astro_search_transit_, Library.SearchTransit, invoke, stop,
      posix_to_astro_eq, apply_ite Shim.calls, apply_ite Shim.result] at hc ⊢
    rcases hc with rfl | rfl <;> simp [LibCall.status] at hs
    subst hs
    rw [if_neg hN]
    exact ⟨_, rfl, stop_message_contains _ _ (by decide)⟩
  · intro body prev_transit_time_posix c hc N hs hN _
    simp [astro_next_transit_, Library.NextTransit, invoke, stop,
      posix_to_astro_eq, apply_ite Shim.calls, apply_ite Shim.result] at hc ⊢
    rcases hc with rfl | rfl <;> simp [LibCall.status] at hs
    subst hs
    rw [if_neg hN]
    exact ⟨_, rfl, stop_message_contains _ _ (by decide)⟩
  · intro start_time c hc N hs hN _
    simp [search_lunar_apsis_, Library.SearchLunarApsis, invoke, stop,
      posix_to_astro_eq, apply_ite Shim.calls, apply_ite Shim.result] at hc ⊢
    rcases hc with rfl | rfl <;> simp [LibCall.status] at hs
    subst hs
    rw [if_neg hN]
    exact ⟨_, rfl, stop_message_contains _ _ (by decide)⟩
  · intro body time_posix c hc N hs hN _
    simp [astro_illumination_, Library.Illumination, invoke, stop,
      posix_to_astro_eq, apply_ite Shim.calls, apply_ite Shim.result] at hc ⊢
    rcases hc with rfl | rfl <;> simp [LibCall.status] at hs
    subst hs
    rw [if_neg hN]
    exact ⟨_, rfl, stop_message_contains _ _ (by decide)⟩
  · intro body start_time c hc N hs hN _
    simp [astro_search_peak_magnitude_, Library.SearchPeakMagnitude, invoke, stop,
      posix_to_astro_eq, apply_ite Shim.calls, apply_ite Shim.result] at hc ⊢
    rcases hc with rfl | rfl <;> simp [LibCall.status] at hs
    subst hs
    rw [if_neg hN]
    exact ⟨_, rfl, stop_message_contains _ _ (by decide)⟩
  · intro body time c hc N hs hN _
    simp [astro_angle_from_sun_, Library.AngleFromSun, invoke, stop,
      posix_to_astro_eq, apply_ite Shim.calls, apply_ite Shim.result] at hc ⊢
    rcases hc with rfl | rfl <;> simp [LibCall.status] at hs
    subst hs
    rw [if_neg hN]
    exact ⟨_, rfl, stop_message_contains _ _ (by decide)⟩
  · intro body time c hc N hs hN _
    simp [astro_elongation_, Library.Elongation, invoke, stop,
      posix_to_astro_eq, apply_ite Shim.calls, apply_ite Shim.result] at hc ⊢
    rcases hc with rfl | rfl <;> simp [LibCall.status] at hs
    subst hs
    rw [if_neg hN]
    exact ⟨_, rfl, stop_message_contains _ _ (by decide)⟩
  · intro body start_time c hc N hs hN _
    simp [astro_search_max_elongation_, Library.SearchMaxElongation, invoke, stop,
      posix_to_astro_eq, apply_ite Shim.calls, apply_ite Shim.result] at hc ⊢
    rcases hc with rfl | rfl <;> simp [LibCall.status] at hs
    subst hs
    rw [if_neg hN]
    exact ⟨_, rfl, stop_message_contains _ _ (by decide)⟩
  · intro body target_rel_lon start_time c hc N hs hN _
    simp [astro_search_relative_longitude_, Library.SearchRelativeLongitude, invoke, stop,
      posix_to_astro_eq, apply_ite Shim.calls, apply_ite Shim.result] at hc ⊢
    rcases hc with rfl | rfl <;> simp [LibCall.status] at hs
    subst hs
    rw [if_neg hN]
    exact ⟨_, rfl, stop_message_contains _ _ (by decide)⟩
  · intro target_lon start_time limit_days c hc N hs hN _
    simp [astro_search_sun_longitude_, Library.SearchSunLongitude, invoke, stop,
      posix_to_astro_eq, apply_ite Shim.calls, apply_ite Shim.result] at hc ⊢
    rcases hc with rfl | rfl <;> simp [LibCall.status] at hs
    subst hs
    rw [if_neg hN]
    exact ⟨_, rfl, stop_message_contains _ _ (by decide)⟩
  · intro year c hc N hs hN _
    simp [astro_seasons_, Library.Seasons, invoke, stop,
      posix_to_astro_eq, apply_ite Shim.calls, apply_ite Shim.result] at hc ⊢
    subst hc
    simp [LibCall.status] at hs
    subst hs
    rw [if_neg hN]
    exact ⟨_, rfl, stop_message_contains _ _ (by decide)⟩
  · intro time_posix c hc N hs hN _
    simp [astro_search_lunar_apsis_, Library.SearchLunarApsis, invoke, stop,
      posix_to_astro_eq, apply_ite Shim.calls, apply_ite Shim.result] at hc ⊢
    rcases hc with rfl | rfl <;> simp [LibCall.status] at hs
    subst hs
    rw [if_neg hN]
    exact ⟨_, rfl, stop_message_contains _ _ (by decide)⟩
  · intro ra dec c hc N hs hN _
    simp [astro_constellation_, Library.Constellation, invoke, stop,
      posix_to_astro_eq, apply_ite Shim.calls, apply_ite Shim.result] at hc ⊢
    subst hc
    simp [LibCall.status] at hs
    subst hs
    rw [if_neg hN]
    exact ⟨_, rfl, stop_message_contains _ _ (by decide)⟩
  · intro body time_posix c hc N hs hN _
    simp [astro_helio_distance_, Library.HelioDistance, invoke, stop,
      posix_to_astro_eq, apply_ite Shim.calls, apply_ite Shim.result] at hc ⊢
    rcases hc with rfl | rfl <;> simp [LibCall.status] at hs
    subst hs
    rw [if_neg hN]
    exact ⟨_, rfl, stop_message_contains _ _ (by decide)⟩
  · intro time_posix c hc N hs hN _
    simp [astro_search_global_solar_eclipse_, Library.SearchGlobalSolarEclipse, invoke, stop,
      posix_to_astro_eq, apply_ite Shim.calls, apply_ite Shim.result] at hc ⊢
    rcases hc with rfl | rfl <;> simp [LibCall.status] at hs
    subst hs
    rw [if_neg hN]
    exact ⟨_, rfl, stop_message_contains _ _ (by decide)⟩
  · intro c hc N hs hN _
    simp [astro_identity_matrix_, Library.IdentityMatrix, rotation_to_matrix, invoke, stop,
      posix_to_astro_eq, apply_ite Shim.calls, apply_ite Shim.result] at hc ⊢
    subst hc
    simp [LibCall.status] at hs
    subst hs
    rw [if_neg hN]
    exact ⟨_, rfl, stop_message_contains _ _ (by decide)⟩
  · intro time_posix c hc N hs hN _
    simp [astro_rotation_eqd_eqj_, Library.Rotation_EQD_EQJ, rotation_to_matrix, invoke, stop,
      posix_to_astro_eq, apply_ite Shim.calls, apply_ite Shim.result] at hc ⊢
    rcases hc with rfl | rfl <;> simp [LibCall.status] at hs
    subst hs
    rw [if_neg hN]
    exact ⟨_, rfl, stop_message_contains _ _ (by decide)⟩
  · intro time_posix c hc N hs hN _
    simp [astro_rotation_eqd_ect_, Library.Rotation_EQD_ECT, rotation_to_matrix, invoke, stop,
      posix_to_astro_eq, apply_ite Shim.calls, apply_ite Shim.result] at hc ⊢
    rcases hc with rfl | rfl <;> simp [LibCall.status] at hs
    subst hs
    rw [if_neg hN]
    exact ⟨_, rfl, stop_message_contains _ _ (by decide)⟩
  · intro time_posix c hc N hs hN _
    simp [astro_rotation_eqd_ecl_, Library.Rotation_EQD_ECL, rotation_to_matrix, invoke, stop,
      posix_to_astro_eq, apply_ite Shim.calls, apply_ite Shim.result] at hc ⊢
    rcases hc with rfl | rfl <;> simp [LibCall.status] at hs
    subst hs
    rw [if_neg hN]
    exact ⟨_, rfl, stop_message_contains _ _ (by decide)⟩
  · intro time_posix latitude longitude height c hc N hs hN _
    simp [astro_rotation_eqd_hor_, Library.Rotation_EQD_HOR, Library.MakeObserver, rotation_to_matrix, invoke, stop,
      posix_to_astro_eq, apply_ite Shim.calls, apply_ite Shim.result] at hc ⊢
    rcases hc with rfl | rfl | rfl <;> simp [LibCall.status] at hs
    subst hs
    rw [if_neg hN]
    exact ⟨_, rfl, stop_message_contains _ _ (by decide)⟩
  · intro time_posix c hc N hs hN _
    simp [astro_rotation_eqj_eqd_, Library.Rotation_EQJ_EQD, rotation_to_matrix, invoke, stop,
      posix_to_astro_eq, apply_ite Shim.calls, apply_ite Shim.result] at hc ⊢
    rcases hc with rfl | rfl <;> simp [LibCall.status] at hs
    subst hs
    rw [if_neg hN]
    exact ⟨_, rfl, stop_message_contains _ _ (by decide)⟩
  · intro time_posix c hc N hs hN _
    simp [astro_rotation_eqj_ect_, Library.Rotation_EQJ_ECT, rotation_to_matrix, invoke, stop,
      posix_to_astro_eq, apply_ite Shim.calls, apply_ite Shim.result] at hc ⊢
    rcases hc with rfl | rfl <;> simp [LibCall.status] at hs
    subst hs
    rw [if_neg hN]
    exact ⟨_, rfl, stop_message_contains _ _ (by decide)⟩
  · intro c hc N hs hN _
    simp [astro_rotation_eqj_ecl_, Library.Rotation_EQJ_ECL, rotation_to_matrix, invoke, stop,
      posix_to_astro_eq, apply_ite Shim.calls, apply_ite Shim.result] at hc ⊢
    subst hc
    simp [LibCall.status] at hs
    subst hs
    rw [if_neg hN]
    exact ⟨_, rfl, stop_message_contains _ _ (by decide)⟩
  · intro time_posix latitude longitude height c hc N hs hN _
    simp [astro_rotation_eqj_hor_, Library.Rotation_EQJ_HOR, Library.MakeObserver, rotation_to_matrix, invoke, stop,
      posix_to_astro_eq, apply_ite Shim.calls, apply_ite Shim.result] at hc ⊢
    rcases hc with rfl | rfl | rfl <;> simp [LibCall.status] at hs
    subst hs
    rw [if_neg hN]
    exact ⟨_, rfl, stop_message_contains _ _ (by decide)⟩
  · intro time_posix c hc N hs hN _
    simp [astro_rotation_ect_eqd_, Library.Rotation_ECT_EQD, rotation_to_matrix, invoke, stop,
      posix_to_astro_eq, apply_ite Shim.calls, apply_ite Shim.result] at hc ⊢
    rcases hc with rfl | rfl <;> simp [LibCall.status] at hs
    subst hs
    rw [if_neg hN]
    exact ⟨_, rfl, stop_message_contains _ _ (by decide)⟩
  · intro time_posix c hc N hs hN _
    simp [astro_rotation_ect_eqj_, Library.Rotation_ECT_EQJ, rotation_to_matrix, invoke, stop,
      posix_to_astro_eq, apply_ite Shim.calls, apply_ite Shim.result] at hc ⊢
    rcases hc with rfl | rfl <;> simp [LibCall.status] at hs
    subst hs
    rw [if_neg hN]
    exact ⟨_, rfl, stop_message_contains _ _ (by decide)⟩
  · intro time_posix c hc N hs hN _
    simp [astro_rotation_ecl_eqd_, Library.Rotation_ECL_EQD, rotation_to_matrix, invoke, stop,
      posix_to_astro_eq, apply_ite Shim.calls, apply_ite Shim.result] at hc ⊢
    rcases hc with rfl | rfl <;> simp [LibCall.status] at hs
    subst hs
    rw [if_neg hN]
    exact ⟨_, rfl, stop_message_contains _ _ (by decide)⟩
  · intro c hc N hs hN _
    simp [astro_rotation_ecl_eqj_, Library.Rotation_ECL_EQJ, rotation_to_matrix, invoke, stop,
      posix_to_astro_eq, apply_ite Shim.calls, apply_ite Shim.result] at hc ⊢
    subst hc
    simp [LibCall.status] at hs
    subst hs
    rw [if_neg hN]
    exact ⟨_, rfl, stop_message_contains _ _ (by decide)⟩
  · intro time_posix latitude longitude height c hc N hs hN _
    simp [astro_rotation_ecl_hor_, Library.Rotation_ECL_HOR, Library.MakeObserver, rotation_to_matrix, invoke, stop,
      posix_to_astro_eq, apply_ite Shim.calls, apply_ite Shim.result] at hc ⊢
    rcases hc with rfl | rfl | rfl <;> simp [LibCall.status] at hs
    subst hs
    rw [if_neg hN]
    exact ⟨_, rfl, stop_message_contains _ _ (by decide)⟩
  · intro time_posix latitude longitude height c hc N hs hN _
    simp [astro_rotation_hor_eqd_, Library.Rotation_HOR_EQD, Library.MakeObserver, rotation_to_matrix, invoke, stop,
      posix_to_astro_eq, apply_ite Shim.calls, apply_ite Shim.result] at hc ⊢
    rcases hc with rfl | rfl | rfl <;> simp [LibCall.status] at hs
    subst hs
    rw [if_neg hN]
    exact ⟨_, rfl, stop_message_contains _ _ (by decide)⟩
  · intro time_posix latitude longitude height c hc N hs hN _
    simp [astro_rotation_hor_eqj_, Library.Rotation_HOR_EQJ, Library.MakeObserver, rotation_to_matrix, invoke, stop,
      posix_to_astro_eq, apply_ite Shim.calls, apply_ite Shim.result] at hc ⊢
    rcases hc with rfl | rfl | rfl <;> simp [LibCall.status] at hs
    subst hs
    rw [if_neg hN]
    exact ⟨_, rfl, stop_message_contains _ _ (by decide)⟩
  · intro time_posix latitude longitude height c hc N hs hN _
    simp [astro_rotation_hor_ecl_, Library.Rotation_HOR_ECL, Library.MakeObserver, rotation_to_matrix, invoke, stop,
      posix_to_astro_eq, apply_ite Shim.calls, apply_ite Shim.result] at hc ⊢
    rcases hc with rfl | rfl | rfl <;> simp [LibCall.status] at hs
    subst hs
    rw [if_neg hN]
    exact ⟨_, rfl, stop_message_contains _ _ (by decide)⟩
  · intro c hc N hs hN _
    simp [astro_rotation_eqj_gal_, Library.Rotation_EQJ_GAL, rotation_to_matrix, invoke, stop,
      posix_to_astro_eq, apply_ite Shim.calls, apply_ite Shim.result] at hc ⊢
    subst hc
    simp [LibCall.status] at hs
    subst hs
    rw [if_neg hN]
    exact ⟨_, rfl, stop_message_contains _ _ (by decide)⟩
  · intro c hc N hs hN _
    simp [astro_rotation_gal_eqj_, Library.Rotation_GAL_EQJ, rotation_to_matrix, invoke, stop,
      posix_to_astro_eq, apply_ite Shim.calls, apply_ite Shim.result] at hc ⊢
    subst hc
    simp [LibCall.status] at hs
    subst hs
    rw [if_neg hN]
    exact ⟨_, rfl, stop_message_contains _ _ (by decide)⟩
  · intro body latitude longitude height time_posix direction limit_days m c hc N hs hN hab
    simp [astro_search_rise_set_ex_, Library.SearchRiseSetEx, Library.MakeObserver, invoke,
      stop, posix_to_astro_eq, apply_ite Shim.calls, apply_ite Shim.result] at hc ⊢
    rcases hc with rfl | rfl | rfl <;> simp [LibCall.status] at hs
    subst hs
    rw [if_neg (hab rfl), if_neg hN]
    exact ⟨_, rfl, stop_message_contains _ _ (by decide)⟩
  · intro body latitude longitude height time_posix direction limit_days m c hc N hs hN hab
    simp [astro_search_altitude_, Library.SearchAltitude, Library.MakeObserver, invoke,
      stop, posix_to_astro_eq, apply_ite Shim.calls, apply_ite Shim.result] at hc ⊢
    rcases hc with rfl | rfl | rfl <;> simp [LibCall.status] at hs
    subst hs
    rw [if_neg (hab rfl), if_neg hN]
    exact ⟨_, rfl, stop_message_contains _ _ (by decide)⟩
  · intro body start_time run hrun c hc N hs hN _
    unfold search_planet_apsis_ at hrun
    split at hrun
    · simp at hrun
    · simp only [Option.some.injEq] at hrun
      subst hrun
      simp [Library.SearchPlanetApsis, invoke, stop,
        posix_to_astro_eq, apply_ite Shim.calls, apply_ite Shim.result] at hc ⊢
      rcases hc with rfl | rfl <;> simp [LibCall.status] at hs
      subst hs
      rw [if_neg hN]
      exact ⟨_, rfl, stop_message_contains _ _ (by decide)⟩
  · intro apsis_list c hc N hs hN _
    rcases as_cpp_int_cases (apsis_list.at "kind") with ⟨k, hk⟩ | hk <;>
    rcases as_cpp_double_cases (apsis_list.at "time") with ⟨t, ht⟩ | ht <;>
    rcases as_cpp_double_cases (apsis_list.at "dist_au") with ⟨au, hau⟩ | hau <;>
    rcases as_cpp_double_cases (apsis_list.at "dist_km") with ⟨km, hkm⟩ | hkm <;>
    simp [next_lunar_apsis_, hk, ht, hau, hkm, Library.NextLunarApsis, invoke, stop, posix_to_astro_eq,
      apply_ite Shim.calls, apply_ite Shim.result] at hc ⊢
    all_goals (rcases hc with rfl | rfl | rfl <;> simp [LibCall.status] at hs)
    all_goals
      subst hs
      simp only [if_neg hN]
      exact ⟨_, rfl, stop_message_contains _ _ (by decide)⟩
  · intro body apsis_list c hc N hs hN _
    rcases as_cpp_int_cases (apsis_list.at "kind") with ⟨k, hk⟩ | hk <;>
    rcases as_cpp_double_cases (apsis_list.at "time") with ⟨t, ht⟩ | ht <;>
    rcases as_cpp_double_cases (apsis_list.at "dist_au") with ⟨au, hau⟩ | hau <;>
    rcases as_cpp_double_cases (apsis_list.at "dist_km") with ⟨km, hkm⟩ | hkm <;>
    simp [next_planet_apsis_, hk, ht, hau, hkm, Library.NextPlanetApsis, invoke, stop, posix_to_astro_eq,
      apply_ite Shim.calls, apply_ite Shim.result] at hc ⊢
    all_goals (rcases hc with rfl | rfl | rfl <;> simp [LibCall.status] at hs)
    all_goals
      subst hs
      simp only [if_neg hN]
      exact ⟨_, rfl, stop_message_contains _ _ (by decide)⟩
  · intro rotation c hc N hs hN _
    rcases matrix_to_rotation_cases rotation with ⟨rot, hm, _⟩ | hm <;>
    simp [astro_inverse_rotation_, hm, Library.InverseRotation, rotation_to_matrix,
      invoke, stop, posix_to_astro_eq,
      apply_ite Shim.calls, apply_ite Shim.result] at hc ⊢
    all_goals (subst hc; simp [LibCall.status] at hs)
    all_goals
      subst hs
      simp only [if_neg hN]
      exact ⟨_, rfl, stop_message_contains _ _ (by decide)⟩
  · intro a b c hc N hs hN _
    rcases matrix_to_rotation_cases a with ⟨rot_a, ha, _⟩ | ha <;>
    rcases matrix_to_rotation_cases b with ⟨rot_b, hb, _⟩ | hb <;>
    simp [astro_combine_rotation_, ha, hb, Library.CombineRotation, rotation_to_matrix,
      invoke, stop, posix_to_astro_eq,
      apply_ite Shim.calls, apply_ite Shim.result] at hc ⊢
    all_goals (subst hc; simp [LibCall.status] at hs)
    all_goals
      subst hs
      simp only [if_neg hN]
      exact ⟨_, rfl, stop_message_contains _ _ (by decide)⟩
  · intro rotation axis angle c hc N hs hN _
    rcases matrix_to_rotation_cases rotation with ⟨rot, hm, _⟩ | hm <;>
    simp [astro_pivot_, hm, Library.Pivot, rotation_to_matrix, invoke, stop, posix_to_astro_eq,
      apply_ite Shim.calls, apply_ite Shim.result] at hc ⊢
    all_goals (subst hc; simp [LibCall.status] at hs)
    all_goals
      subst hs
      simp only [if_neg hN]
      exact ⟨_, rfl, stop_message_contains _ _ (by decide)⟩
  · intro rotation vector c hc N hs hN _
    rcases matrix_to_rotation_cases rotation with ⟨rot, hm, _⟩ | hm <;>
    rcases list_to_vector_cases L vector with ⟨x, y, z, p, _, _, _, _, hv⟩ | hv <;>
    simp [astro_rotate_vector_, hm, hv, Library.RotateVector, vector_to_list,
      invoke, stop, posix_to_astro_eq,
      apply_ite Shim.calls, apply_ite Shim.result] at hc ⊢
    all_goals (rcases hc with rfl | rfl | rfl <;> simp [LibCall.status] at hs)
    all_goals
      subst hs
      simp only [if_neg hN]
      exact ⟨_, rfl, stop_message_contains _ _ (by decide)⟩
  · intro sphere time_posix c hc N hs hN _
    rcases list_to_spherical_cases sphere with ⟨lat, lon, dist, _, _, _, hsph⟩ | hsph <;>
    simp [astro_vector_from_sphere_, hsph, Library.VectorFromSphere, vector_to_list,
      invoke, stop, posix_to_astro_eq,
      apply_ite Shim.calls, apply_ite Shim.result] at hc ⊢
    all_goals (rcases hc with rfl | rfl | rfl <;> simp [LibCall.status] at hs)
    all_goals
      subst hs
      simp only [if_neg hN]
      exact ⟨_, rfl, stop_message_contains _ _ (by decide)⟩
  · intro vector c hc N hs hN _
    rcases list_to_vector_cases L vector with ⟨x, y, z, p, _, _, _, _, hv⟩ | hv <;>
    simp [astro_sphere_from_vector_, hv, Library.SphereFromVector, spherical_to_list,
      invoke, stop, posix_to_astro_eq,
      apply_ite Shim.calls, apply_ite Shim.result] at hc ⊢
    all_goals (rcases hc with rfl | rfl | rfl <;> simp [LibCall.status] at hs)
    all_goals
      subst hs
      simp only [if_neg hN]
      exact ⟨_, rfl, stop_message_contains _ _ (by decide)⟩
  · intro vector c hc N hs hN _
    rcases list_to_vector_cases L vector with ⟨x, y, z, p, _, _, _, _, hv⟩ | hv
    · simp [astro_equator_from_vector_, hv, Library.EquatorFromVector, invoke,
        equatorial_to_list_calls] at hc ⊢
      rcases hc with rfl | rfl <;> simp [LibCall.status] at hs
      subst hs
      rw [equatorial_to_list_fails _ hN]
      exact ⟨_, rfl, stop_message_contains _ _ (by decide)⟩
    · simp [astro_equator_from_vector_, hv] at hc
  · intro sphere time_posix refraction c hc N hs hN _
    rcases list_to_spherical_cases sphere with ⟨lat, lon, dist, _, _, _, hsph⟩ | hsph <;>
    simp [astro_vector_from_horizon_, hsph, Library.VectorFromHorizon, vector_to_list,
      invoke, stop, posix_to_astro_eq,
      apply_ite Shim.calls, apply_ite Shim.result] at hc ⊢
    all_goals (rcases hc with rfl | rfl | rfl <;> simp [LibCall.status] at hs)
    all_goals
      subst hs
      simp only [if_neg hN]
      exact ⟨_, rfl, stop_message_contains _ _ (by decide)⟩
  · intro vector refraction c hc N hs hN _
    rcases list_to_vector_cases L vector with ⟨x, y, z, p, _, _, _, _, hv⟩ | hv <;>
    simp [astro_horizon_from_vector_, hv, Library.HorizonFromVector, spherical_to_list,
      invoke, stop, posix_to_astro_eq,
      apply_ite Shim.calls, apply_ite Shim.result] at hc ⊢
    all_goals (rcases hc with rfl | rfl | rfl <;> simp [LibCall.status] at hs)
    all_goals
      subst hs
      simp only [if_neg hN]
      exact ⟨_, rfl, stop_message_contains _ _ (by decide)⟩
  · intro rot h
    simp [rotation_to_matrix, stop, h]
    exact stop_message_contains _ _ (by decide)
  · intro vec h
    simp [vector_to_list, stop, h]
    exact stop_message_contains _ _ (by decide)
  · intro sphere h
    simp [spherical_to_list, stop, h]
    exact stop_message_contains _ _ (by decide)
  · intro equ h
    simp [equatorial_to_list, stop, h]
    exact stop_message_contains _ _ (by decide)

/-- The fidelity of C11 on the sample library: a heliocentric vector asked for at
946728000 seconds, where the sample library reports status 6, ends in an error whose
message contains the digit 6. -/
theorem status_code_fidelity_witness :
    LibCall.Astronomy_HelioVector 3 ⟨.val 0, .val 0⟩ ∈
        (astro_helio_vector_ sampleLibrary 3 (.val 946728000)).calls ∧
      (LibCall.Astronomy_HelioVector 3 ⟨.val 0, .val 0⟩).status sampleLibrary = some 6 ∧
      ∃ e, (astro_helio_vector_ sampleLibrary 3 (.val 946728000)).result = .error e ∧
        (toString (6 : Int)).toList <:+: e.message := by
  have hmem : LibCall.Astronomy_HelioVector 3 ⟨.val 0, .val 0⟩ ∈
      (astro_helio_vector_ sampleLibrary 3 (.val 946728000)).calls := by
    simp [astro_helio_vector_, Library.HelioVector, invoke, stop, posix_to_astro_eq,
      apply_ite Shim.calls, sample_days.1, sampleLibrary, int_to_body]
  have hstatus :
      (LibCall.Astronomy_HelioVector 3 ⟨.val 0, .val 0⟩).status sampleLibrary = some 6 := by
    simp [LibCall.status, sampleLibrary, sample_status, ASTRO_SEARCH_FAILURE]
  exact ⟨hmem, hstatus,
    (status_code_fidelity sampleLibrary).1 3 (.val 946728000) _ hmem 6 hstatus
      (by decide) (by simp)⟩

/-- The sample library's heliocentric vector at 0 seconds, as the shim returns it. -/
theorem sample_helio_vector :
    (astro_helio_vector_ sampleLibrary 3 (.val 0)).result =
      .ok [("x", as_sexp_double (.val 1)), ("y", as_sexp_double (.val 2)),
        ("z", as_sexp_double (.val 3)),
        ("time", as_sexp_double (astro_to_posix
          (sampleLibrary.Astronomy_TimeFromDays
            ((double.val 0 - double.val 946728000) / double.val 86400))))] := by
  have hs := sample_status_values.2
  simp [astro_helio_vector_, Library.HelioVector, invoke, stop, posix_to_astro_eq,
    apply_ite Shim.result]
  rw [if_pos (by simpa [sampleLibrary] using hs)]
  rfl

/-- Claim C12, as stated, fails: the record `astro_helio_vector_` returns for the sample
library's vector has the keys x, y, z, time, which is neither x, y, z, t nor
x, y, z, t, status. -/
theorem vector_record_keys_counterexample :
    ∃ r, (astro_helio_vector_ sampleLibrary 3 (.val 0)).result = .ok r ∧
      r.keys = ["x", "y", "z", "time"] ∧
      r.keys ≠ ["x", "y", "z", "t"] ∧ r.keys ≠ ["x", "y", "z", "t", "status"] :=
  ⟨_, sample_helio_vector, rfl, by decide, by decide⟩

/-- Claim C12, amended: every record a shim returns for a library vector has the keys
x, y, z and one timestamp key, optionally followed by status. The keys are
x, y, z, time for `astro_helio_vector_` and `astro_geo_vector_`, x, y, z, t, status for
`astro_observer_vector_` and `vector_to_list`, and x, y, z, t for the nested `vec` of
`astro_sun_position_`. -/
theorem vector_record_keys (L : Library) :
    (∀ (body : Int) (time_posix : double) (r : list),
      (astro_helio_vector_ L body time_posix).result = .ok r →
        r.keys = ["x", "y", "z", "time"]) ∧
    (∀ (body : Int) (time_posix : double) (aberration : Int) (r : list),
      (astro_geo_vector_ L body time_posix aberration).result = .ok r →
        r.keys = ["x", "y", "z", "time"]) ∧
    (∀ (time_posix latitude longitude height : double) (of_date : Bool) (r : list),
      (astro_observer_vector_ L time_posix latitude longitude height of_date).result
          = .ok r →
        r.keys = ["x", "y", "z", "t", "status"]) ∧
    (∀ (vec : astro_vector_t) (r : list),
      (vector_to_list vec).result = .ok r → r.keys = ["x", "y", "z", "t", "status"]) ∧
    (∀ (time_posix : double) (r : list),
      (astro_sun_position_ L time_posix).result = .ok r →
        ∃ v, r.at "vec" = .list v ∧ list.keys v = ["x", "y", "z", "t"]) := by
  refine ⟨?_, ?_, ?_, ?_, ?_⟩
  · intro body time_posix r h
    simp [astro_helio_vector_, Library.HelioVector, invoke, stop, posix_to_astro_eq,
      apply_ite Shim.result] at h
    split at h
    · cases h; rfl
    · cases h
  · intro body time_posix aberration r h
    simp [astro_geo_vector_, Library.GeoVector, invoke, stop, posix_to_astro_eq,
      apply_ite Shim.result] at h
    split at h
    · cases h; rfl
    · cases h
  · intro time_posix latitude longitude height of_date r h
    cases of_date <;>
      simp [astro_observer_vector_, Library.ObserverVector, Library.MakeObserver, invoke,
        stop, posix_to_astro_eq, apply_ite Shim.result] at h <;>
      split at h <;> first | (cases h; rfl) | cases h
  · intro vec r h
    simp [vector_to_list, stop, apply_ite Shim.result] at h
    split at h
    · cases h; rfl
    · cases h
  · intro time_posix r h
    simp [astro_sun_position_, Library.SunPosition, invoke, stop, posix_to_astro_eq,
      apply_ite Shim.result] at h
    split at h
    · cases h; exact ⟨_, rfl, rfl⟩
    · cases h

/-- The keys of C12 on the sample library, for a heliocentric vector at 0 seconds. -/
theorem vector_record_keys_witness :
    ∃ r, (astro_helio_vector_ sampleLibrary 3 (.val 0)).result = .ok r ∧
      r.keys = ["x", "y", "z", "time"] :=
  ⟨_, sample_helio_vector,
    (vector_record_keys sampleLibrary).1 3 (.val 0) _ sample_helio_vector⟩

/-- Claim C13 at its failing input: `astro_horizon_` run twice on equal arguments hands
`Astronomy_Horizon` observers that differ in the never-assigned `height`, and the two
outcomes differ; `astro_vector_observer_` run twice on equal arguments hands
`Astronomy_VectorObserver` vectors that differ in the never-assigned `status`. -/
theorem indeterminate_fields_reach_library :
    (astro_horizon_ sampleLibrary (.val 0) (.val 946728000) (.val 1) (.val 2) (.val 3)
        (.val 4) 0).calls =
      [.Astronomy_TimeFromDays (.val 0),
       .Astronomy_Horizon ⟨.val 0, .val 0⟩ ⟨.val 1, .val 2, .val 0⟩ (.val 3) (.val 4) 0] ∧
    (astro_horizon_ sampleLibrary (.val 7) (.val 946728000) (.val 1) (.val 2) (.val 3)
        (.val 4) 0).calls =
      [.Astronomy_TimeFromDays (.val 0),
       .Astronomy_Horizon ⟨.val 0, .val 0⟩ ⟨.val 1, .val 2, .val 7⟩ (.val 3) (.val 4) 0] ∧
    (astro_horizon_ sampleLibrary (.val 0) (.val 946728000) (.val 1) (.val 2) (.val 3)
        (.val 4) 0).result ≠
      (astro_horizon_ sampleLibrary (.val 7) (.val 946728000) (.val 1) (.val 2) (.val 3)
        (.val 4) 0).result ∧
    (astro_vector_observer_ sampleLibrary 0 sample_vector true).calls =
      [.Astronomy_TimeFromDays (.val 0),
       .Astronomy_VectorObserver ⟨0, .val 1, .val 2, .val 3, ⟨.val 0, .val 0⟩⟩
         .EQUATOR_OF_DATE] ∧
    (astro_vector_observer_ sampleLibrary 5 sample_vector true).calls =
      [.Astronomy_TimeFromDays (.val 0),
       .Astronomy_VectorObserver ⟨5, .val 1, .val 2, .val 3, ⟨.val 0, .val 0⟩⟩
         .EQUATOR_OF_DATE] := by
  refine ⟨?_, ?_, ?_, ?_, ?_⟩
  · simp [astro_horizon_, Library.Horizon, invoke, stop, posix_to_astro_eq,
      apply_ite Shim.calls, sample_days.1, sampleLibrary]
  · simp [astro_horizon_, Library.Horizon, invoke, stop, posix_to_astro_eq,
      apply_ite Shim.calls, sample_days.1, sampleLibrary]
  · simp [astro_horizon_, Library.Horizon, invoke, stop, posix_to_astro_eq,
      apply_ite Shim.result, sample_days.1, sampleLibrary, double.isnan, as_sexp_double]
  · simp [astro_vector_observer_, Library.VectorObserver, invoke, posix_to_astro_eq,
      sample_vector, list.at, as_cpp_double, as_sexp_double, sample_days.1, sampleLibrary]
  · simp [astro_vector_observer_, Library.VectorObserver, invoke, posix_to_astro_eq,
      sample_vector, list.at, as_cpp_double, as_sexp_double, sample_days.1, sampleLibrary]

/-- C `std::isnan` holds exactly of not-a-number. -/
theorem double.isnan_iff (x : double) : x.isnan = true ↔ x = .nan := by
  cases x <;> simp [double.isnan]

/-- Claim C14, as stated, fails: the sample library's horizon result has a not-a-number
`ra` (with azimuth and altitude numbers), and `astro_horizon_` returns a record holding
that not-a-number instead of failing. -/
theorem horizon_nan_ra_counterexample :
    (sampleLibrary.Astronomy_Horizon ⟨.val 0, .val 0⟩ ⟨.val 1, .val 2, .val 0⟩ .nan
        (.val 4) 0).ra = .nan ∧
      (astro_horizon_ sampleLibrary (.val 0) (.val 946728000) (.val 1) (.val 2) .nan
        (.val 4) 0).calls =
        [.Astronomy_TimeFromDays (.val 0),
         .Astronomy_Horizon ⟨.val 0, .val 0⟩ ⟨.val 1, .val 2, .val 0⟩ .nan (.val 4) 0] ∧
      (astro_horizon_ sampleLibrary (.val 0) (.val 946728000) (.val 1) (.val 2) .nan
        (.val 4) 0).result =
        .ok [("azimuth", as_sexp_double (.val 0)), ("altitude", as_sexp_double (.val 1)),
          ("ra", as_sexp_double .nan), ("dec", as_sexp_double (.val 4))] := by
  refine ⟨rfl, ?_, ?_⟩
  · simp [astro_horizon_, Library.Horizon, invoke, stop, posix_to_astro_eq,
      apply_ite Shim.calls, sample_days.1, sampleLibrary]
  · simp [astro_horizon_, Library.Horizon, invoke, stop, posix_to_astro_eq,
      apply_ite Shim.result, sample_days.1, sampleLibrary, double.isnan]

/-- Claim C14, amended: with `hor` the library's horizon result for the converted inputs,
`astro_horizon_` fails with the invalid-result error whenever `hor.altitude` or
`hor.azimuth` is not-a-number, and otherwise returns the record with keys azimuth,
altitude, ra, dec holding the library's values unchanged (`ra` and `dec` are not
examined). -/
theorem horizon_nan_guard (L : Library) (height time_posix lat lon ra dec : double)
    (refraction : Int) :
    ((L.Astronomy_Horizon
          (L.Astronomy_TimeFromDays ((time_posix - .val 946728000) / .val 86400))
          ⟨lat, lon, height⟩ ra dec refraction).altitude = .nan ∨
        (L.Astronomy_Horizon
          (L.Astronomy_TimeFromDays ((time_posix - .val 946728000) / .val 86400))
          ⟨lat, lon, height⟩ ra dec refraction).azimuth = .nan →
      (astro_horizon_ L height time_posix lat lon ra dec refraction).result =
        .error (.stop "Astronomy_Horizon returned invalid coordinates" [])) ∧
    ((L.Astronomy_Horizon
          (L.Astronomy_TimeFromDays ((time_posix - .val 946728000) / .val 86400))
          ⟨lat, lon, height⟩ ra dec refraction).altitude ≠ .nan →
      (L.Astronomy_Horizon
          (L.Astronomy_TimeFromDays ((time_posix - .val 946728000) / .val 86400))
          ⟨lat, lon, height⟩ ra dec refraction).azimuth ≠ .nan →
      (astro_horizon_ L height time_posix lat lon ra dec refraction).result =
        .ok
          [("azimuth", as_sexp_double (L.Astronomy_Horizon
              (L.Astronomy_TimeFromDays ((time_posix - .val 946728000) / .val 86400))
              ⟨lat, lon, height⟩ ra dec refraction).azimuth),
           ("altitude", as_sexp_double (L.Astronomy_Horizon
              (L.Astronomy_TimeFromDays ((time_posix - .val 946728000) / .val 86400))
              ⟨lat, lon, height⟩ ra dec refraction).altitude),
           ("ra", as_sexp_double (L.Astronomy_Horizon
              (L.Astronomy_TimeFromDays ((time_posix - .val 946728000) / .val 86400))
              ⟨lat, lon, height⟩ ra dec refraction).ra),
           ("dec", as_sexp_double (L.Astronomy_Horizon
              (L.Astronomy_TimeFromDays ((time_posix - .val 946728000) / .val 86400))
              ⟨lat, lon, height⟩ ra dec refraction).dec)]) := by
  constructor
  · intro h
    rcases h with h | h <;>
      simp [astro_horizon_, Library.Horizon, invoke, stop, posix_to_astro_eq,
        apply_ite Shim.result, h, double.isnan]
  · intro halt haz
    have h1 : (L.Astronomy_Horizon
          (L.Astronomy_TimeFromDays ((time_posix - .val 946728000) / .val 86400))
          ⟨lat, lon, height⟩ ra dec refraction).altitude.isnan = false := by
      simpa using mt (double.isnan_iff _).mp halt
    have h2 : (L.Astronomy_Horizon
          (L.Astronomy_TimeFromDays ((time_posix - .val 946728000) / .val 86400))
          ⟨lat, lon, height⟩ ra dec refraction).azimuth.isnan = false := by
      simpa using mt (double.isnan_iff _).mp haz
    simp [astro_horizon_, Library.Horizon, invoke, stop, posix_to_astro_eq,
      apply_ite Shim.result, h1, h2]

/-- The guard of C14 on the sample library: a not-a-number altitude makes the shim fail,
and a result without not-a-number is returned unchanged. -/
theorem horizon_nan_guard_witness :
    (astro_horizon_ sampleLibrary (.val 0) (.val 946728000) .nan (.val 2) (.val 3)
        (.val 4) 0).result =
        .error (.stop "Astronomy_Horizon returned invalid coordinates" []) ∧
      (astro_horizon_ sampleLibrary (.val 0) (.val 946728000) (.val 1) (.val 2) (.val 3)
        (.val 4) 0).result =
        .ok [("azimuth", as_sexp_double (.val 0)), ("altitude", as_sexp_double (.val 1)),
          ("ra", as_sexp_double (.val 3)), ("dec", as_sexp_double (.val 4))] :=
  ⟨(horizon_nan_guard sampleLibrary (.val 0) (.val 946728000) .nan (.val 2) (.val 3)
      (.val 4) 0).1 (Or.inl rfl),
   (horizon_nan_guard sampleLibrary (.val 0) (.val 946728000) (.val 1) (.val 2) (.val 3)
      (.val 4) 0).2 (by simp [sampleLibrary]) (by simp [sampleLibrary])⟩

/-- Claim C15: the epoch offset written in `posix_to_astro` and in `astro_to_posix`,
946728000, is the number of seconds from 1970-01-01 00:00:00 UTC to 2000-01-01 12:00:00
UTC at 86400 seconds per calendar day: 86400 times the 10957 days between the two dates,
plus the 43200 seconds of twelve hours. -/
theorem epoch_offset_is_j2000_noon (L : Library) (posix_sec : double) (t : astro_time_t) :
    days_between_new_years 1970 2000 = 10957 ∧
      spec_epoch_offset = 86400 * 10957 + 43200 ∧
      posix_to_astro L posix_sec =
        L.TimeFromDays ((posix_sec - .val (spec_epoch_offset : ℚ)) / .val 86400) ∧
      astro_to_posix t = t.ut * .val 86400 + .val (spec_epoch_offset : ℚ) := by
  have hdays : days_between_new_years 1970 2000 = 10957 := by decide
  have hoff : spec_epoch_offset = 946728000 := by
    unfold spec_epoch_offset
    rw [hdays]
  refine ⟨hdays, by rw [hoff], ?_, ?_⟩
  · rw [hoff]
    norm_num [posix_to_astro]
  · rw [hoff]
    norm_num [astro_to_posix]

/-- The sample library's global solar eclipse from 0 seconds, as the two shims return it. -/
theorem sample_global_eclipse_keys :
    (∃ r, (search_global_solar_eclipse_ sampleLibrary (.val 0)).result = .ok r ∧
        r.keys = ["status", "kind", "peak", "distance", "latitude", "longitude"]) ∧
      (∃ r, (astro_search_global_solar_eclipse_ sampleLibrary (.val 0)).result = .ok r ∧
        r.keys = ["kind", "obscuration", "peak", "distance", "latitude", "longitude"]) := by
  have hs : (sampleLibrary.Astronomy_SearchGlobalSolarEclipse
      (sampleLibrary.Astronomy_TimeFromDays
        ((double.val 0 - double.val 946728000) / double.val 86400))).status
      = ASTRO_SUCCESS := sample_status_values.2
  constructor
  · refine ⟨global_eclipse_to_list (sampleLibrary.Astronomy_SearchGlobalSolarEclipse
      (sampleLibrary.Astronomy_TimeFromDays
        ((double.val 0 - double.val 946728000) / double.val 86400))), ?_, rfl⟩
    simp [search_global_solar_eclipse_, Library.SearchGlobalSolarEclipse, invoke, stop,
      posix_to_astro_eq, apply_ite Shim.result, hs]
  · simp [astro_search_global_solar_eclipse_, Library.SearchGlobalSolarEclipse, invoke, stop,
      posix_to_astro_eq, apply_ite Shim.result, hs, list.keys]

/-- Claim C16, as stated, fails: for the sample library's successful global solar eclipse
the record of `search_global_solar_eclipse_` has the key status and the record of
`astro_search_global_solar_eclipse_` has not, so the two key sets differ. -/
theorem global_eclipse_key_sets_differ :
    ∃ r1 r2, (search_global_solar_eclipse_ sampleLibrary (.val 0)).result = .ok r1 ∧
      (astro_search_global_solar_eclipse_ sampleLibrary (.val 0)).result = .ok r2 ∧
      ¬ (∀ k, k ∈ r1.keys ↔ k ∈ r2.keys) := by
  obtain ⟨⟨r1, h1, k1⟩, ⟨r2, h2, k2⟩⟩ := sample_global_eclipse_keys
  refine ⟨r1, r2, h1, h2, ?_⟩
  intro h
  have := (h "status").mp (by rw [k1]; decide)
  rw [k2] at this
  revert this
  decide

/-- Claim C16, amended: each shim emits one fixed key set. For every successful
global-solar-eclipse result the record of `search_global_solar_eclipse_` (through
`global_eclipse_to_list`) has the keys status, kind, peak, distance, latitude, longitude
and the record of `astro_search_global_solar_eclipse_` has the keys kind, obscuration,
peak, distance, latitude, longitude; the apsis records of `search_lunar_apsis_` and
`astro_search_lunar_apsis_` have the same set of keys. -/
theorem record_key_sets (L : Library) (time_posix : double) (r1 r2 : list) :
    ((search_global_solar_eclipse_ L time_posix).result = .ok r1 →
        r1.keys = ["status", "kind", "peak", "distance", "latitude", "longitude"]) ∧
      ((astro_search_global_solar_eclipse_ L time_posix).result = .ok r2 →
        r2.keys = ["kind", "obscuration", "peak", "distance", "latitude", "longitude"]) ∧
      ((search_lunar_apsis_ L time_posix).result = .ok r1 →
        (astro_search_lunar_apsis_ L time_posix).result = .ok r2 →
        ∀ k, k ∈ r1.keys ↔ k ∈ r2.keys) := by
  refine ⟨?_, ?_, ?_⟩
  · intro h
    simp [search_global_solar_eclipse_, Library.SearchGlobalSolarEclipse, invoke, stop,
      posix_to_astro_eq, apply_ite Shim.result] at h
    split at h
    · cases h; rfl
    · cases h
  · intro h
    simp [astro_search_global_solar_eclipse_, Library.SearchGlobalSolarEclipse, invoke,
      stop, posix_to_astro_eq, apply_ite Shim.result] at h
    split at h
    · cases h; rfl
    · cases h
  · intro h1 h2 k
    simp [search_lunar_apsis_, Library.SearchLunarApsis, invoke, stop,
      posix_to_astro_eq, apply_ite Shim.result] at h1
    simp [astro_search_lunar_apsis_, Library.SearchLunarApsis, invoke, stop,
      posix_to_astro_eq, apply_ite Shim.result] at h2
    split at h1
    · cases h1
      rw [if_pos (by assumption)] at h2
      cases h2
      simp only [list.keys, List.map, List.mem_cons, List.mem_singleton, List.not_mem_nil,
        or_false]
      tauto
    · cases h1

/-- The key sets of C16 on the sample library, searching from 0 seconds. -/
theorem record_key_sets_witness :
    ∃ r1 r2, (search_global_solar_eclipse_ sampleLibrary (.val 0)).result = .ok r1 ∧
      (astro_search_global_solar_eclipse_ sampleLibrary (.val 0)).result = .ok r2 ∧
      r1.keys = ["status", "kind", "peak", "distance", "latitude", "longitude"] ∧
      r2.keys = ["kind", "obscuration", "peak", "distance", "latitude", "longitude"] := by
  obtain ⟨⟨r1, h1, _⟩, ⟨r2, h2, _⟩⟩ := sample_global_eclipse_keys
  exact ⟨r1, r2, h1, h2, (record_key_sets sampleLibrary (.val 0) r1 r2).1 h1,
    (record_key_sets sampleLibrary (.val 0) r1 r2).2.1 h2⟩

/-- Converting days to POSIX seconds and back gives the same days, over exact
arithmetic. -/
theorem double.days_round_trip (d : double) :
    ((d * .val 86400 + .val 946728000 - .val 946728000) / .val 86400 : double) = d := by
  cases d with
  | nan => rfl
  | val q =>
    rw [double.mul_add_val, double.sub_div_val _ _ _ (by norm_num)]
    congr 1
    field_simp

/-- Source `next_lunar_apsis_` on the record that the apsis search shims emit for the
library's apsis `a`: the calls it makes. -/
theorem next_lunar_apsis_calls (L : Library) (a : astro_apsis_t) :
    (next_lunar_apsis_ L
        [("kind", as_sexp_int a.kind),
         ("time", as_sexp_double (astro_to_posix a.time)),
         ("dist_au", as_sexp_double a.dist_au),
         ("dist_km", as_sexp_double a.dist_km)]).calls =
      [.Astronomy_TimeFromDays a.time.ut,
       .Astronomy_NextLunarApsis
         ⟨ASTRO_SUCCESS, L.Astronomy_TimeFromDays a.time.ut, a.kind, a.dist_au,
           a.dist_km⟩] := by
  simp [next_lunar_apsis_, list.at, as_cpp_int, as_cpp_double, as_sexp_int, as_sexp_double,
    Library.NextLunarApsis, invoke, stop, posix_to_astro_eq, astro_to_posix,
    double.days_round_trip, apply_ite Shim.calls]

/-- Source `next_planet_apsis_` on the record that `search_planet_apsis_` emits for the
library's apsis `a`: the calls it makes. -/
theorem next_planet_apsis_calls (L : Library) (body : Int) (a : astro_apsis_t) :
    (next_planet_apsis_ L body
        [("kind", as_sexp_int a.kind),
         ("time", as_sexp_double (astro_to_posix a.time)),
         ("dist_au", as_sexp_double a.dist_au),
         ("dist_km", as_sexp_double a.dist_km)]).calls =
      [.Astronomy_TimeFromDays a.time.ut,
       .Astronomy_NextPlanetApsis body
         ⟨ASTRO_SUCCESS, L.Astronomy_TimeFromDays a.time.ut, a.kind, a.dist_au,
           a.dist_km⟩] := by
  simp [next_planet_apsis_, list.at, as_cpp_int, as_cpp_double, as_sexp_int,
    as_sexp_double, Library.NextPlanetApsis, invoke, stop, posix_to_astro_eq,
    astro_to_posix, double.days_round_trip, apply_ite Shim.calls]

/-- Claim C17: the apsis `next` shims consume a previous-result record as is. With `a`
the library's successful apsis for the search, the record that `search_lunar_apsis_`
(resp. `search_planet_apsis_`) emits is accepted by `next_lunar_apsis_` (resp.
`next_planet_apsis_`): after the time conversion the shim makes exactly one call to the
library's next operation, and the structure `handed` to it has status SUCCESS and the
kind, dist_au, dist_km and time (`ut`, the library's `Astronomy_TimeFromDays` storing
its argument as `ut`) of `a`. -/
theorem apsis_record_feeds_next (L : Library)
    (hL : ∀ d, (L.Astronomy_TimeFromDays d).ut = d) (body : Int) (start_time : double)
    (rest : List double) (dim : Option (List Int)) :
    ((L.Astronomy_SearchLunarApsis
          (L.Astronomy_TimeFromDays ((start_time - .val 946728000) / .val 86400))).status
          = ASTRO_SUCCESS →
      ∃ r handed, (search_lunar_apsis_ L start_time).result = .ok r ∧
        (next_lunar_apsis_ L r).calls =
          [.Astronomy_TimeFromDays
              (L.Astronomy_SearchLunarApsis
                (L.Astronomy_TimeFromDays
                  ((start_time - .val 946728000) / .val 86400))).time.ut,
            .Astronomy_NextLunarApsis handed] ∧
        handed.status = ASTRO_SUCCESS ∧
        handed.kind = (L.Astronomy_SearchLunarApsis
          (L.Astronomy_TimeFromDays ((start_time - .val 946728000) / .val 86400))).kind ∧
        handed.dist_au = (L.Astronomy_SearchLunarApsis
          (L.Astronomy_TimeFromDays ((start_time - .val 946728000) / .val 86400))).dist_au ∧
        handed.dist_km = (L.Astronomy_SearchLunarApsis
          (L.Astronomy_TimeFromDays ((start_time - .val 946728000) / .val 86400))).dist_km ∧
        handed.time.ut = (L.Astronomy_SearchLunarApsis
          (L.Astronomy_TimeFromDays
            ((start_time - .val 946728000) / .val 86400))).time.ut) ∧
    ((L.Astronomy_SearchPlanetApsis body
          (L.Astronomy_TimeFromDays ((start_time - .val 946728000) / .val 86400))).status
          = ASTRO_SUCCESS →
      ∃ run r handed, search_planet_apsis_ L body ⟨start_time :: rest, dim⟩ = some run ∧
        run.result = .ok r ∧
        (next_planet_apsis_ L body r).calls =
          [.Astronomy_TimeFromDays
              (L.Astronomy_SearchPlanetApsis body
                (L.Astronomy_TimeFromDays
                  ((start_time - .val 946728000) / .val 86400))).time.ut,
            .Astronomy_NextPlanetApsis body handed] ∧
        handed.status = ASTRO_SUCCESS ∧
        handed.kind = (L.Astronomy_SearchPlanetApsis body
          (L.Astronomy_TimeFromDays ((start_time - .val 946728000) / .val 86400))).kind ∧
        handed.dist_au = (L.Astronomy_SearchPlanetApsis body
          (L.Astronomy_TimeFromDays ((start_time - .val 946728000) / .val 86400))).dist_au ∧
        handed.dist_km = (L.Astronomy_SearchPlanetApsis body
          (L.Astronomy_TimeFromDays ((start_time - .val 946728000) / .val 86400))).dist_km ∧
        handed.time.ut = (L.Astronomy_SearchPlanetApsis body
          (L.Astronomy_TimeFromDays
            ((start_time - .val 946728000) / .val 86400))).time.ut) := by
  constructor
  · intro h
    refine ⟨_, _, ?_, next_lunar_apsis_calls L _, rfl, rfl, rfl, rfl, hL _⟩
    simp [search_lunar_apsis_, Library.SearchLunarApsis, invoke, stop, posix_to_astro_eq,
      apply_ite Shim.result, h]
  · intro h
    have hrun : ∃ run, search_planet_apsis_ L body ⟨start_time :: rest, dim⟩ = some run ∧
        run.result = .ok
          [("kind", as_sexp_int (L.Astronomy_SearchPlanetApsis body
              (L.Astronomy_TimeFromDays
                ((start_time - .val 946728000) / .val 86400))).kind),
           ("time", as_sexp_double (astro_to_posix (L.Astronomy_SearchPlanetApsis body
              (L.Astronomy_TimeFromDays
                ((start_time - .val 946728000) / .val 86400))).time)),
           ("dist_au", as_sexp_double (L.Astronomy_SearchPlanetApsis body
              (L.Astronomy_TimeFromDays
                ((start_time - .val 946728000) / .val 86400))).dist_au),
           ("dist_km", as_sexp_double (L.Astronomy_SearchPlanetApsis body
              (L.Astronomy_TimeFromDays
                ((start_time - .val 946728000) / .val 86400))).dist_km)] := by
      simp [search_planet_apsis_, Library.SearchPlanetApsis, invoke, stop,
        posix_to_astro_eq, apply_ite Shim.result, h]
    obtain ⟨run, hsome, hres⟩ := hrun
    exact ⟨run, _, _, hsome, hres, next_planet_apsis_calls L body _, rfl, rfl, rfl, rfl,
      hL _⟩

/-- The hand-over of C17 on the sample library, for searches from 0 seconds. -/
theorem apsis_record_feeds_next_witness :
    (∀ d, (sampleLibrary.Astronomy_TimeFromDays d).ut = d) ∧
      (∃ r handed, (search_lunar_apsis_ sampleLibrary (.val 0)).result = .ok r ∧
        (next_lunar_apsis_ sampleLibrary r).calls =
          [.Astronomy_TimeFromDays (.val (-21915 / 2)),
            .Astronomy_NextLunarApsis handed] ∧
        handed.status = ASTRO_SUCCESS ∧ handed.kind = 0 ∧ handed.dist_au = .val 1 ∧
        handed.dist_km = .val 1 ∧ handed.time.ut = .val (-21915 / 2)) ∧
      (∃ run r handed,
        search_planet_apsis_ sampleLibrary 3 ⟨[.val 0, .val 5], none⟩ = some run ∧
        run.result = .ok r ∧
        (next_planet_apsis_ sampleLibrary 3 r).calls =
          [.Astronomy_TimeFromDays (.val (-21915 / 2)),
            .Astronomy_NextPlanetApsis 3 handed] ∧
        handed.status = ASTRO_SUCCESS ∧ handed.kind = 0 ∧ handed.dist_au = .val 1 ∧
        handed.dist_km = .val 1 ∧ handed.time.ut = .val (-21915 / 2)) := by
  refine ⟨fun _ => rfl, ?_, ?_⟩
  · have w := (apsis_record_feeds_next sampleLibrary (fun _ => rfl) 3 (.val 0) [] none).1
      sample_status_values.2
    rw [sample_days.2] at w
    exact w
  · have w := (apsis_record_feeds_next sampleLibrary (fun _ => rfl) 3 (.val 0) [.val 5]
      none).2 sample_status_values.2
    rw [sample_days.2] at w
    exact w

/-- Claim C18, as stated, fails: `astro_search_rise_set_ex_` hands every body code and
every direction to `Astronomy_SearchRiseSetEx` (on the sample library), so no integer is
rejected at the boundary; with body 999 and direction 999, codes of no member of the
library's body and direction enumerations, the library is called with 999 and the shim
returns the timestamp the library reports. -/
theorem enum_codes_not_validated :
    (∀ body direction : Int,
      LibCall.Astronomy_SearchRiseSetEx body ⟨.val 1, .val 2, .val 3⟩ direction
          ⟨.val (-21915 / 2), .val (-21915 / 2)⟩ (.val 1) (.val 0) ∈
        (astro_search_rise_set_ex_ sampleLibrary body (.val 1) (.val 2) (.val 3) (.val 0)
          direction (.val 1) (.val 0)).calls) ∧
      (astro_search_rise_set_ex_ sampleLibrary 999 (.val 1) (.val 2) (.val 3) (.val 0)
          999 (.val 1) (.val 0)).calls =
        [.Astronomy_MakeObserver (.val 1) (.val 2) (.val 3),
         .Astronomy_TimeFromDays (.val (-21915 / 2)),
         .Astronomy_SearchRiseSetEx 999 ⟨.val 1, .val 2, .val 3⟩ 999
           ⟨.val (-21915 / 2), .val (-21915 / 2)⟩ (.val 1) (.val 0)] ∧
      ∃ timestamp, (astro_search_rise_set_ex_ sampleLibrary 999 (.val 1) (.val 2) (.val 3)
          (.val 0) 999 (.val 1) (.val 0)).result = .ok (as_sexp_double timestamp) := by
  have hs : sample_status ⟨.val (-21915 / 2), .val (-21915 / 2)⟩ = ASTRO_SUCCESS := by
    have h := sample_status_values.2
    rw [sample_days.2] at h
    exact h
  have hne : ASTRO_SUCCESS ≠ ASTRO_SEARCH_FAILURE := by decide
  refine ⟨?_, ?_, ?_⟩
  · intro body direction
    simp [astro_search_rise_set_ex_, Library.SearchRiseSetEx, Library.MakeObserver, invoke,
      stop, posix_to_astro_eq, apply_ite Shim.calls, sample_days.2, sampleLibrary]
  · simp [astro_search_rise_set_ex_, Library.SearchRiseSetEx, Library.MakeObserver, invoke,
      stop, posix_to_astro_eq, apply_ite Shim.calls, sample_days.2, sampleLibrary]
  · simp [astro_search_rise_set_ex_, Library.SearchRiseSetEx, Library.MakeObserver, invoke,
      stop, posix_to_astro_eq, apply_ite Shim.result, sample_days.2, sampleLibrary, hs, hne]

/-- Claim C18, amended: integer enum codes are not validated by the wrapper. In every shim
taking a body code (through `int_to_body` or a direct cast), a direction, an aberration
or a refraction mode, every integer, member of the library enumeration or not, reaches
the library call unchanged, as the enumeration value with that same integer value. -/
theorem enum_codes_reach_library (L : Library)
    (body body2 direction aberration refraction : Int)
    (latitude longitude height time_posix limit_days extra : double)
    (of_date aberration_flag : Bool) :
    (LibCall.Astronomy_BodyName body ∈
      (astro_body_name_ L body).calls) ∧
    (LibCall.Astronomy_HelioVector body
        (L.Astronomy_TimeFromDays ((time_posix - .val 946728000) / .val 86400)) ∈
      (astro_helio_vector_ L body time_posix).calls) ∧
    (LibCall.Astronomy_Equator body
        (L.Astronomy_TimeFromDays ((time_posix - .val 946728000) / .val 86400))
        (L.Astronomy_MakeObserver latitude longitude height)
        (if of_date then .EQUATOR_OF_DATE else .EQUATOR_J2000)
        (if aberration_flag then ABERRATION else NO_ABERRATION) ∈
      (astro_equator_ L body time_posix latitude longitude height of_date aberration_flag).calls) ∧
    (LibCall.Astronomy_EclipticLongitude body
        (L.Astronomy_TimeFromDays ((time_posix - .val 946728000) / .val 86400)) ∈
      (astro_ecliptic_longitude_ L body time_posix).calls) ∧
    (LibCall.Astronomy_HelioDistance body
        (L.Astronomy_TimeFromDays ((time_posix - .val 946728000) / .val 86400)) ∈
      (astro_helio_distance_ L body time_posix).calls) ∧
    (LibCall.Astronomy_PairLongitude body body2
        (L.Astronomy_TimeFromDays ((time_posix - .val 946728000) / .val 86400)) ∈
      (astro_pair_longitude_ L body body2 time_posix).calls) ∧
    (LibCall.Astronomy_GeoVector body
        (L.Astronomy_TimeFromDays ((time_posix - .val 946728000) / .val 86400)) aberration ∈
      (astro_geo_vector_ L body time_posix aberration).calls) ∧
    (LibCall.Astronomy_BaryState body
        (L.Astronomy_TimeFromDays ((time_posix - .val 946728000) / .val 86400)) ∈
      (astro_bary_state_ L body time_posix).calls) ∧
    (LibCall.Astronomy_SearchRiseSetEx body
        (L.Astronomy_MakeObserver latitude longitude height) direction
        (L.Astronomy_TimeFromDays ((time_posix - .val 946728000) / .val 86400)) limit_days extra ∈
      (astro_search_rise_set_ex_ L body latitude longitude height time_posix direction
        limit_days extra).calls) ∧
    (LibCall.Astronomy_SearchAltitude body
        (L.Astronomy_MakeObserver latitude longitude height) direction
        (L.Astronomy_TimeFromDays ((time_posix - .val 946728000) / .val 86400)) limit_days extra ∈
      (astro_search_altitude_ L body latitude longitude height time_posix direction
        limit_days extra).calls) ∧
    (LibCall.Astronomy_SearchHourAngleEx body
        (L.Astronomy_MakeObserver latitude longitude height) extra
        (L.Astronomy_TimeFromDays ((time_posix - .val 946728000) / .val 86400)) direction ∈
      (astro_search_hour_angle_ex_ L body latitude longitude height extra time_posix
        direction).calls) ∧
    (LibCall.Astronomy_HourAngle body
        (L.Astronomy_TimeFromDays ((time_posix - .val 946728000) / .val 86400))
        (L.Astronomy_MakeObserver latitude longitude height) ∈
      (astro_hour_angle_ L body latitude longitude height time_posix).calls) ∧
    (LibCall.Astronomy_SearchTransit body
        (L.Astronomy_TimeFromDays ((time_posix - .val 946728000) / .val 86400)) ∈
      (astro_search_transit_ L body time_posix).calls) ∧
    (LibCall.Astronomy_NextTransit body
        (L.Astronomy_TimeFromDays ((time_posix - .val 946728000) / .val 86400)) ∈
      (astro_next_transit_ L body time_posix).calls) ∧
    (LibCall.Astronomy_Illumination body
        (L.Astronomy_TimeFromDays ((time_posix - .val 946728000) / .val 86400)) ∈
      (astro_illumination_ L body time_posix).calls) ∧
    (LibCall.Astronomy_SearchPeakMagnitude body
        (L.Astronomy_TimeFromDays ((time_posix - .val 946728000) / .val 86400)) ∈
      (astro_search_peak_magnitude_ L body time_posix).calls) ∧
    (LibCall.Astronomy_AngleFromSun body
        (L.Astronomy_TimeFromDays ((time_posix - .val 946728000) / .val 86400)) ∈
      (astro_angle_from_sun_ L body time_posix).calls) ∧
    (LibCall.Astronomy_Elongation body
        (L.Astronomy_TimeFromDays ((time_posix - .val 946728000) / .val 86400)) ∈
      (astro_elongation_ L body time_posix).calls) ∧
    (LibCall.Astronomy_SearchMaxElongation body
        (L.Astronomy_TimeFromDays ((time_posix - .val 946728000) / .val 86400)) ∈
      (astro_search_max_elongation_ L body time_posix).calls) ∧
    (LibCall.Astronomy_SearchRelativeLongitude body extra
        (L.Astronomy_TimeFromDays ((time_posix - .val 946728000) / .val 86400)) ∈
      (astro_search_relative_longitude_ L body extra time_posix).calls) ∧
    (LibCall.Astronomy_Horizon
        (L.Astronomy_TimeFromDays ((time_posix - .val 946728000) / .val 86400))
        ⟨latitude, longitude, height⟩ extra limit_days refraction ∈
      (astro_horizon_ L height time_posix latitude longitude extra limit_days refraction).calls) ∧
    (∀ (rest : List double) (dim : Option (List Int)),
      ∃ run, search_planet_apsis_ L body ⟨time_posix :: rest, dim⟩ = some run ∧
        LibCall.Astronomy_SearchPlanetApsis body
          (L.Astronomy_TimeFromDays ((time_posix - .val 946728000) / .val 86400)) ∈ run.calls) ∧
    (∀ (a : astro_apsis_t),
      LibCall.Astronomy_NextPlanetApsis body
          ⟨ASTRO_SUCCESS, L.Astronomy_TimeFromDays a.time.ut, a.kind, a.dist_au, a.dist_km⟩ ∈
        (next_planet_apsis_ L body
          [("kind", as_sexp_int a.kind),
           ("time", as_sexp_double (astro_to_posix a.time)),
           ("dist_au", as_sexp_double a.dist_au),
           ("dist_km", as_sexp_double a.dist_km)]).calls) ∧
    (∀ (sphere : list) (sph : astro_spherical_t),
      list_to_spherical sphere = ⟨[], .ok sph⟩ →
        LibCall.Astronomy_VectorFromHorizon sph
            (L.Astronomy_TimeFromDays ((time_posix - .val 946728000) / .val 86400)) refraction ∈
          (astro_vector_from_horizon_ L sphere time_posix refraction).calls) ∧
    (∀ (vector : list) (calls : List LibCall) (vec : astro_vector_t),
      list_to_vector L vector = ⟨calls, .ok vec⟩ →
        LibCall.Astronomy_HorizonFromVector vec refraction ∈
          (astro_horizon_from_vector_ L vector refraction).calls) := by
  refine ⟨?_, ?_, ?_, ?_, ?_, ?_, ?_, ?_, ?_, ?_, ?_, ?_, ?_, ?_, ?_, ?_, ?_, ?_, ?_, ?_, ?_, ?_, ?_, ?_, ?_⟩
  · simp [astro_body_name_, Library.BodyName, invoke, stop, int_to_body,
      posix_to_astro_eq, apply_ite Shim.calls]
  · simp [astro_helio_vector_, Library.HelioVector, invoke, stop, int_to_body,
      posix_to_astro_eq, apply_ite Shim.calls]
  · cases of_date <;> cases aberration_flag <;>
      simp [astro_equator_, Library.Equator, Library.MakeObserver, invoke, stop, int_to_body,
      posix_to_astro_eq, apply_ite Shim.calls]
  · simp [astro_ecliptic_longitude_, Library.EclipticLongitude, invoke, stop, int_to_body,
      posix_to_astro_eq, apply_ite Shim.calls]
  · simp [astro_helio_distance_, Library.HelioDistance, invoke, stop, int_to_body,
      posix_to_astro_eq, apply_ite Shim.calls]
  · simp [astro_pair_longitude_, Library.PairLongitude, invoke, stop, int_to_body,
      posix_to_astro_eq, apply_ite Shim.calls]
  · simp [astro_geo_vector_, Library.GeoVector, invoke, stop, int_to_body,
      posix_to_astro_eq, apply_ite Shim.calls]
  · simp [astro_bary_state_, Library.BaryState, invoke, stop, int_to_body,
      posix_to_astro_eq, apply_ite Shim.calls]
  · simp [astro_search_rise_set_ex_, Library.SearchRiseSetEx, Library.MakeObserver, invoke, stop, int_to_body,
      posix_to_astro_eq, apply_ite Shim.calls]
  · simp [astro_search_altitude_, Library.SearchAltitude, Library.MakeObserver, invoke, stop, int_to_body,
      posix_to_astro_eq, apply_ite Shim.calls]
  · simp [astro_search_hour_angle_ex_, Library.SearchHourAngleEx, Library.MakeObserver, invoke, stop, int_to_body,
      posix_to_astro_eq, apply_ite Shim.calls]
  · simp [astro_hour_angle_, Library.HourAngle, Library.MakeObserver, invoke, stop, int_to_body,
      posix_to_astro_eq, apply_ite Shim.calls]
  · simp [astro_search_transit_, Library.SearchTransit, invoke, stop, int_to_body,
      posix_to_astro_eq, apply_ite Shim.calls]
  · simp [astro_next_transit_, Library.NextTransit, invoke, stop, int_to_body,
      posix_to_astro_eq, apply_ite Shim.calls]
  · simp [astro_illumination_, Library.Illumination, invoke, stop, int_to_body,
      posix_to_astro_eq, apply_ite Shim.calls]
  · simp [astro_search_peak_magnitude_, Library.SearchPeakMagnitude, invoke, stop, int_to_body,
      posix_to_astro_eq, apply_ite Shim.calls]
  · simp [astro_angle_from_sun_, Library.AngleFromSun, invoke, stop, int_to_body,
      posix_to_astro_eq, apply_ite Shim.calls]
  · simp [astro_elongation_, Library.Elongation, invoke, stop, int_to_body,
      posix_to_astro_eq, apply_ite Shim.calls]
  · simp [astro_search_max_elongation_, Library.SearchMaxElongation, invoke, stop, int_to_body,
      posix_to_astro_eq, apply_ite Shim.calls]
  · simp [astro_search_relative_longitude_, Library.SearchRelativeLongitude, invoke, stop, int_to_body,
      posix_to_astro_eq, apply_ite Shim.calls]
  · simp [astro_horizon_, Library.Horizon, invoke, stop, int_to_body,
      posix_to_astro_eq, apply_ite Shim.calls]
  · intro rest dim
    simp [search_planet_apsis_, Library.SearchPlanetApsis, invoke, stop,
      posix_to_astro_eq, apply_ite Shim.calls]
  · intro a
    rw [next_planet_apsis_calls]
    simp
  · intro sphere sph h
    simp [astro_vector_from_horizon_, h, Library.VectorFromHorizon, vector_to_list, invoke,
      stop, posix_to_astro_eq, apply_ite Shim.calls]
  · intro vector calls vec h
    simp [astro_horizon_from_vector_, h, Library.HorizonFromVector, spherical_to_list,
      invoke, stop, apply_ite Shim.calls]

/-- The pass-through of C18 on the sample library, for a spherical record and refraction
code 999. -/
theorem enum_codes_reach_library_witness :
    list_to_spherical sample_sphere = ⟨[], .ok ⟨ASTRO_SUCCESS, .val 1, .val 2, .val 3⟩⟩ ∧
      LibCall.Astronomy_VectorFromHorizon ⟨ASTRO_SUCCESS, .val 1, .val 2, .val 3⟩
          (sampleLibrary.Astronomy_TimeFromDays
            ((double.val 0 - .val 946728000) / .val 86400)) 999 ∈
        (astro_vector_from_horizon_ sampleLibrary sample_sphere (.val 0) 999).calls := by
  have h : list_to_spherical sample_sphere =
      ⟨[], .ok ⟨ASTRO_SUCCESS, .val 1, .val 2, .val 3⟩⟩ := by
    simp [list_to_spherical, sample_sphere, list.at, as_cpp_double, as_sexp_double]
  exact ⟨h, (enum_codes_reach_library sampleLibrary 3 4 1 0 999 (.val 1) (.val 2) (.val 3)
    (.val 0) (.val 1) (.val 0) true true).2.2.2.2.2.2.2.2.2.2.2.2.2.2.2.2.2.2.2.2.2.2.2.1
      sample_sphere _ h⟩

/-- Claim C19: every record returned with a status key has status SUCCESS. For
`astro_observer_vector_`, `astro_observer_state_`, the global and local solar eclipse
shims (through `global_eclipse_to_list` and `local_eclipse_to_list`), `astro_elongation_`,
`astro_search_max_elongation_`, `vector_to_list`, `spherical_to_list` and
`equatorial_to_list` (its nested `vec` record included), a returned record reads
SUCCESS under the key status. -/
theorem returned_status_is_success (L : Library) (r : list) :
    (∀ (time_posix latitude longitude height : double) (of_date : Bool),
      (astro_observer_vector_ L time_posix latitude longitude height of_date).result
          = .ok r →
        r.at "status" = as_sexp_int ASTRO_SUCCESS) ∧
    (∀ (time_posix latitude longitude height : double) (of_date : Bool),
      (astro_observer_state_ L time_posix latitude longitude height of_date).result
          = .ok r →
        r.at "status" = as_sexp_int ASTRO_SUCCESS) ∧
    (∀ (start_time : double),
      (search_global_solar_eclipse_ L start_time).result = .ok r →
        r.at "status" = as_sexp_int ASTRO_SUCCESS) ∧
    (∀ (prev_eclipse_time : double),
      (next_global_solar_eclipse_ L prev_eclipse_time).result = .ok r →
        r.at "status" = as_sexp_int ASTRO_SUCCESS) ∧
    (∀ (start_time latitude longitude : double),
      (search_local_solar_eclipse_ L start_time latitude longitude).result = .ok r →
        r.at "status" = as_sexp_int ASTRO_SUCCESS) ∧
    (∀ (prev_eclipse_time latitude longitude : double),
      (next_local_solar_eclipse_ L prev_eclipse_time latitude longitude).result = .ok r →
        r.at "status" = as_sexp_int ASTRO_SUCCESS) ∧
    (∀ (body : Int) (time : double),
      (astro_elongation_ L body time).result = .ok r →
        r.at "status" = as_sexp_int ASTRO_SUCCESS) ∧
    (∀ (body : Int) (start_time : double),
      (astro_search_max_elongation_ L body start_time).result = .ok r →
        r.at "status" = as_sexp_int ASTRO_SUCCESS) ∧
    (∀ (vec : astro_vector_t),
      (vector_to_list vec).result = .ok r →
        r.at "status" = as_sexp_int ASTRO_SUCCESS) ∧
    (∀ (sphere : astro_spherical_t),
      (spherical_to_list sphere).result = .ok r →
        r.at "status" = as_sexp_int ASTRO_SUCCESS) ∧
    (∀ (equ : astro_equatorial_t),
      (equatorial_to_list equ).result = .ok r →
        r.at "status" = as_sexp_int ASTRO_SUCCESS ∧
        ∃ vec, r.at "vec" = .list vec ∧
          list.at vec "status" = as_sexp_int ASTRO_SUCCESS) := by
  refine ⟨?_, ?_, ?_, ?_, ?_, ?_, ?_, ?_, ?_, ?_, ?_⟩
  · intro time_posix latitude longitude height of_date h
    cases of_date <;>
      simp [astro_observer_vector_, Library.ObserverVector, Library.MakeObserver, invoke,
        stop, posix_to_astro_eq, apply_ite Shim.result] at h <;>
      split at h <;> first | (cases h; simp [list.at, *]) | cases h
  · intro time_posix latitude longitude height of_date h
    cases of_date <;>
      simp [astro_observer_state_, Library.ObserverState, Library.MakeObserver, invoke,
        stop, posix_to_astro_eq, apply_ite Shim.result] at h <;>
      split at h <;> first | (cases h; simp [list.at, *]) | cases h
  · intro start_time h
    simp [search_global_solar_eclipse_, Library.SearchGlobalSolarEclipse, invoke, stop,
      posix_to_astro_eq, apply_ite Shim.result] at h
    split at h <;> first | (cases h; simp [list.at, global_eclipse_to_list, *]) | cases h
  · intro prev_eclipse_time h
    simp [next_global_solar_eclipse_, Library.NextGlobalSolarEclipse, invoke, stop,
      posix_to_astro_eq, apply_ite Shim.result] at h
    split at h <;> first | (cases h; simp [list.at, global_eclipse_to_list, *]) | cases h
  · intro start_time latitude longitude h
    simp [search_local_solar_eclipse_, Library.SearchLocalSolarEclipse, invoke, stop,
      posix_to_astro_eq, apply_ite Shim.result] at h
    split at h <;> first | (cases h; simp [list.at, local_eclipse_to_list, *]) | cases h
  · intro prev_eclipse_time latitude longitude h
    simp [next_local_solar_eclipse_, Library.NextLocalSolarEclipse, invoke, stop,
      posix_to_astro_eq, apply_ite Shim.result] at h
    split at h <;> first | (cases h; simp [list.at, local_eclipse_to_list, *]) | cases h
  · intro body time h
    simp [astro_elongation_, Library.Elongation, invoke, stop,
      posix_to_astro_eq, apply_ite Shim.result] at h
    split at h <;> first | (cases h; simp [list.at, *]) | cases h
  · intro body start_time h
    simp [astro_search_max_elongation_, Library.SearchMaxElongation, invoke, stop,
      posix_to_astro_eq, apply_ite Shim.result] at h
    split at h <;> first | (cases h; simp [list.at, *]) | cases h
  · intro vec h
    simp [vector_to_list, stop, apply_ite Shim.result] at h
    split at h <;> first | (cases h; simp [list.at, *]) | cases h
  · intro sphere h
    simp [spherical_to_list, stop, apply_ite Shim.result] at h
    split at h <;> first | (cases h; simp [list.at, *]) | cases h
  · intro equ h
    by_cases hs : equ.status = ASTRO_SUCCESS
    · by_cases hv : equ.vec.status = ASTRO_SUCCESS
      · simp [equatorial_to_list, vector_to_list, stop, hs, hv] at h
        subst h
        simp [list.at, hs, hv]
      · simp [equatorial_to_list, vector_to_list, stop, hs, hv] at h
    · simp [equatorial_to_list, stop, hs] at h

/-- The invariant of C19 on a vector with status SUCCESS. -/
theorem returned_status_is_success_witness :
    ∃ r, (vector_to_list ⟨ASTRO_SUCCESS, .val 1, .val 2, .val 3, ⟨.val 0, .val 0⟩⟩).result
        = .ok r ∧ r.at "status" = as_sexp_int ASTRO_SUCCESS := by
  have h : (vector_to_list ⟨ASTRO_SUCCESS, .val 1, .val 2, .val 3, ⟨.val 0, .val 0⟩⟩).result
      = .ok [("x", as_sexp_double (.val 1)), ("y", as_sexp_double (.val 2)),
          ("z", as_sexp_double (.val 3)),
          ("t", as_sexp_double (astro_to_posix ⟨.val 0, .val 0⟩)),
          ("status", as_sexp_int ASTRO_SUCCESS)] := by
    simp [vector_to_list, stop]
  exact ⟨_, h, (returned_status_is_success sampleLibrary _).2.2.2.2.2.2.2.2.1 _ h⟩

/-- Claim C20: both time conversions are strictly order-preserving, and the conversion to
days maps durations affinely. For rational seconds `s1 < s2`, `posix_to_astro` hands the
library days `d1 < d2` with `d2 - d1 = (s2 - s1) / 86400`; for rational days `d1 < d2`,
`astro_to_posix` gives seconds `p1 < p2`. -/
theorem time_conversions_monotone (L : Library) (s1 s2 d1 d2 : ℚ) (tt1 tt2 : double)
    (hs : s1 < s2) (hd : d1 < d2) :
    (∃ i1 i2 : ℚ,
        (posix_to_astro L (.val s1)).calls = [.Astronomy_TimeFromDays (.val i1)] ∧
        (posix_to_astro L (.val s2)).calls = [.Astronomy_TimeFromDays (.val i2)] ∧
        i1 < i2 ∧ i2 - i1 = (s2 - s1) / 86400) ∧
      (∃ p1 p2 : ℚ,
        astro_to_posix ⟨.val d1, tt1⟩ = .val p1 ∧
        astro_to_posix ⟨.val d2, tt2⟩ = .val p2 ∧ p1 < p2) := by
  constructor
  · refine ⟨(s1 - 946728000) / 86400, (s2 - 946728000) / 86400, ?_, ?_, ?_, ?_⟩
    · rw [posix_to_astro_eq, double.sub_div_val _ _ _ (by norm_num)]
    · rw [posix_to_astro_eq, double.sub_div_val _ _ _ (by norm_num)]
    · exact div_lt_div_of_pos_right (by linarith) (by norm_num)
    · ring
  · refine ⟨d1 * 86400 + 946728000, d2 * 86400 + 946728000, rfl, rfl, ?_⟩
    linarith

/-- The monotonicity of C20 for 0 and 86400 seconds and
for days 0 and 1. -/
theorem time_conversions_monotone_witness :
    (0 : ℚ) < 86400 ∧ (0 : ℚ) < 1 ∧
      (∃ i1 i2 : ℚ,
        (posix_to_astro sampleLibrary (.val 0)).calls = [.Astronomy_TimeFromDays (.val i1)] ∧
        (posix_to_astro sampleLibrary (.val 86400)).calls =
          [.Astronomy_TimeFromDays (.val i2)] ∧
        i1 < i2 ∧ i2 - i1 = (86400 - 0) / 86400) ∧
      (∃ p1 p2 : ℚ,
        astro_to_posix ⟨.val 0, .val 0⟩ = .val p1 ∧
        astro_to_posix ⟨.val 1, .val 1⟩ = .val p2 ∧ p1 < p2) :=
  ⟨by norm_num, by norm_num,
    time_conversions_monotone sampleLibrary 0 86400 0 1 (.val 0) (.val 1)
      (by norm_num) (by norm_num)⟩

/-- Source `list_to_vector` on the record that `vector_to_list` writes for `v`: one call,
`Astronomy_TimeFromDays` of `v.t.ut`, and a vector with the coordinates of `v`. -/
theorem list_to_vector_of_record (L : Library) (v : astro_vector_t) :
    list_to_vector L
        [("x", as_sexp_double v.x),
         ("y", as_sexp_double v.y),
         ("z", as_sexp_double v.z),
         ("t", as_sexp_double (astro_to_posix v.t)),
         ("status", as_sexp_int v.status)] =
      ⟨[.Astronomy_TimeFromDays v.t.ut],
        .ok ⟨ASTRO_SUCCESS, v.x, v.y, v.z, L.Astronomy_TimeFromDays v.t.ut⟩⟩ := by
  simp [list_to_vector, list.at, as_cpp_double, as_sexp_double, posix_to_astro_eq,
    astro_to_posix, double.days_round_trip]

/-- Claim C21: vector marshalling round-trips. For every library vector `v` with status
SUCCESS, `vector_to_list v` succeeds and `list_to_vector` accepts the record it wrote:
it makes the one call `Astronomy_TimeFromDays v.t.ut` and yields a vector with the same
x, y, z, status SUCCESS and the same time (`ut`, the library's `Astronomy_TimeFromDays`
storing its argument as `ut`); so the record a rotation or coordinate shim returns is
accepted unchanged by the next. -/
theorem vector_marshalling_round_trip (L : Library)
    (hL : ∀ d, (L.Astronomy_TimeFromDays d).ut = d) (v : astro_vector_t)
    (hv : v.status = ASTRO_SUCCESS) :
    ∃ r w, vector_to_list v = ⟨[], .ok r⟩ ∧
      list_to_vector L r = ⟨[.Astronomy_TimeFromDays v.t.ut], .ok w⟩ ∧
      w.x = v.x ∧ w.y = v.y ∧ w.z = v.z ∧ w.t.ut = v.t.ut ∧
      w.status = ASTRO_SUCCESS := by
  refine ⟨_, _, ?_, list_to_vector_of_record L v, rfl, rfl, rfl, hL _, rfl⟩
  simp [vector_to_list, stop, hv]

/-- The round trip of C21 on the sample library, for the vector (1, 2, 3) at day 5. -/
theorem vector_marshalling_round_trip_witness :
    (∀ d, (sampleLibrary.Astronomy_TimeFromDays d).ut = d) ∧
      (⟨ASTRO_SUCCESS, .val 1, .val 2, .val 3, ⟨.val 5, .val 5⟩⟩ : astro_vector_t).status
        = ASTRO_SUCCESS ∧
      ∃ r w, vector_to_list ⟨ASTRO_SUCCESS, .val 1, .val 2, .val 3, ⟨.val 5, .val 5⟩⟩
          = ⟨[], .ok r⟩ ∧
        list_to_vector sampleLibrary r = ⟨[.Astronomy_TimeFromDays (.val 5)], .ok w⟩ ∧
        w.x = .val 1 ∧ w.y = .val 2 ∧ w.z = .val 3 ∧ w.t.ut = .val 5 ∧
        w.status = ASTRO_SUCCESS :=
  ⟨fun _ => rfl, rfl,
    vector_marshalling_round_trip sampleLibrary (fun _ => rfl)
      ⟨ASTRO_SUCCESS, .val 1, .val 2, .val 3, ⟨.val 5, .val 5⟩⟩ rfl⟩

/-- Claim C22: `search_planet_apsis_` reads only element 0 of its `start_time` array. For
every non-empty `start_time` the read `start_time[0]` is in range and the outcome is the
outcome for the one-element array holding that element, whatever the remaining elements
and the `dim` attribute are; and no length check precedes the read: on the empty array
the shim raises no error, the read is out of range. -/
theorem planet_apsis_reads_first_element (L : Library) (body : Int) :
    (∀ start_time : doubles, start_time.data ≠ [] →
      ∃ first run, start_time.data[0]? = some first ∧
        search_planet_apsis_ L body start_time = some run ∧
        search_planet_apsis_ L body ⟨[first], none⟩ = some run) ∧
      (∀ dim, search_planet_apsis_ L body ⟨[], dim⟩ = none) := by
  constructor
  · intro start_time hne
    obtain ⟨data, dim⟩ := start_time
    cases data with
    | nil => exact absurd rfl hne
    | cons first rest =>
      refine ⟨first, ?_⟩
      simp [search_planet_apsis_]
  · intro dim
    simp [search_planet_apsis_]

/-- The read of C22 on the sample library: the arrays (0, 5, 7) and (0) give the same
outcome. -/
theorem planet_apsis_reads_first_element_witness :
    (⟨[.val 0, .val 5, .val 7], some [3]⟩ : doubles).data ≠ [] ∧
      ∃ first run,
        (⟨[.val 0, .val 5, .val 7], some [3]⟩ : doubles).data[0]? = some first ∧
        search_planet_apsis_ sampleLibrary 3 ⟨[.val 0, .val 5, .val 7], some [3]⟩
          = some run ∧
        search_planet_apsis_ sampleLibrary 3 ⟨[first], none⟩ = some run :=
  ⟨by simp,
    (planet_apsis_reads_first_element sampleLibrary 3).1
      ⟨[.val 0, .val 5, .val 7], some [3]⟩ (by simp)⟩

end AstronomyWrapper
